import Mathlib

/-!
# Exploration engine of `universal_automation_improved.js`

A shallow embedding of the snapshot parser, the element classifier, the
priority scorer, the adaptive grid, the navigation-tab detector, the screen
state tracker, the submit discovery cascade, the recovery ladder and the
candidate filter, escape ladder and target choice of the exploration loop,
and of the path filter of `agent_auto_artifacts_enhanced.js`, followed by
theorems about them.

Conventions of the embedding.

* A JavaScript string is a Lean `String`; the helper functions work on its
  list of characters.  A character outside the Basic Multilingual Plane stands
  for its two UTF-16 code units (`jsLength` counts it twice).
* Coordinates read from a dump are natural numbers (`parseInt` of `\d+`);
  computed coordinates are integers.  Numbers are taken below `2^53`, where
  the integer arithmetic of the source is exact.
* A product of a screen dimension with a decimal constant (`height * 0.85`)
  is a binary64 product; it is modelled exactly by `round53`.
* A property that an object literal of the source does not set (`undefined`)
  is `""` for strings and `false` for flags, which is how every use in the
  source reads it (`e.text || ''`, truthiness), and `none` for numbers and
  bounds.
* A `Map` or a `Set` is a list in insertion order.  Calls to the device are
  taken to succeed and appear as the commands sent; what the device answers
  and what `Math.random()` draws are parameters.
* A method whose result can fail to be a number returns an `Option`: a read
  `table[key] || 0` of an object literal also finds the properties inherited
  from `Object.prototype`, whose values are no numbers.
* The hash function of `computeScreenHash` is a parameter of the method;
  `md5Prefix` is the function the source passes, MD5 as in RFC 1321.
-/

namespace A3

/-! ## JavaScript strings -/

/-- The characters matched by `\s` in a JavaScript regular expression, which are
also the characters removed by `String.prototype.trim`. -/
def isJsSpace (c : Char) : Bool :=
  let n := c.toNat
  n == 9 || n == 10 || n == 11 || n == 12 || n == 13 || n == 32 || n == 160 ||
  n == 5760 || (8192 ≤ n && n ≤ 8202) || n == 8232 || n == 8233 || n == 8239 ||
  n == 8287 || n == 12288 || n == 65279

/-- The characters matched by `\d`. -/
def isJsDigit (c : Char) : Bool := 48 ≤ c.toNat && c.toNat ≤ 57

/-- Lower-casing of one character, `String.prototype.toLowerCase`: the letters
`A`-`Z`, and the two characters outside ASCII whose lower-case form contains an
ASCII letter (U+212A KELVIN SIGN gives `k`, U+0130 gives `i` followed by
U+0307).  Every other character is left as it is: the source only ever searches
the lower-cased text for ASCII or Hangul keywords, and Hangul has no case. -/
def lowerChar (c : Char) : List Char :=
  if 65 ≤ c.toNat && c.toNat ≤ 90 then [Char.ofNat (c.toNat + 32)]
  else if c.toNat == 8490 then ['k']
  else if c.toNat == 304 then ['i', Char.ofNat 775]
  else [c]

/-- Lower-casing of a list of characters. -/
def lowerChars : List Char → List Char
  | [] => []
  | c :: cs => lowerChar c ++ lowerChars cs

/-- The method `s.toLowerCase()`. -/
def toLowerCase (s : String) : String := ⟨lowerChars s.data⟩

/-- Whether `p` is a prefix of `s`. -/
def startsWith : List Char → List Char → Bool
  | _, [] => true
  | [], _ :: _ => false
  | c :: cs, p :: ps => c == p && startsWith cs ps

/-- Whether `p` occurs in `s` (`s.includes(p)` on character lists). -/
def includesChars : List Char → List Char → Bool
  | [], p => p.isEmpty
  | c :: cs, p => startsWith (c :: cs) p || includesChars cs p

/-- The method `s.includes(p)`. -/
def includes (s p : String) : Bool := includesChars s.data p.data

/-- The test `kws.some(kw => s.includes(kw))`, also the test
`s.match(/kw1|kw2|.../)` for an alternation of literal keywords. -/
def includesAny (s : String) (kws : List String) : Bool := kws.any (fun kw => includes s kw)

/-- The property `s.length`: the number of UTF-16 code units. -/
def jsLength (s : String) : Nat :=
  (s.data.map (fun c => if c.toNat < 65536 then 1 else 2)).sum

/-- Removal of leading white space. -/
def trimStartChars : List Char → List Char
  | [] => []
  | c :: cs => if isJsSpace c then trimStartChars cs else c :: cs

/-- The method `s.trim()`. -/
def jsTrim (s : String) : String :=
  ⟨(trimStartChars (trimStartChars s.data).reverse).reverse⟩

/-- Global replacement of a literal pattern, `s.replace(/pat/g, rep)`: scanning
from the left, each occurrence of `pat` is replaced and the scan resumes after
it.  `skip` counts the characters of the current occurrence still to pass. -/
def replaceAllAux (pat rep : List Char) : Nat → List Char → List Char
  | _, [] => []
  | skip + 1, _ :: cs => replaceAllAux pat rep skip cs
  | 0, c :: cs =>
    if !pat.isEmpty && startsWith (c :: cs) pat
    then rep ++ replaceAllAux pat rep (pat.length - 1) cs
    else c :: replaceAllAux pat rep 0 cs

/-- Global replacement of a non-empty literal pattern on strings. -/
def replaceAll (s pat rep : String) : String := ⟨replaceAllAux pat.data rep.data 0 s.data⟩

/-- The truthiness default `s || d` for strings. -/
def orElse (s d : String) : String := if s.data.isEmpty then d else s

/-- The value of a run of decimal digits, most significant first, added to
`acc` shifted left. -/
def digitsValue (acc : Nat) : List Char → Nat
  | [] => acc
  | c :: cs => digitsValue (acc * 10 + (c.toNat - 48)) cs

/-- The call `parseInt(ds)` on a captured run of decimal digits. -/
def parseInt (ds : List Char) : Nat := digitsValue 0 ds

/-- Template-literal conversion of an integer to its decimal string. -/
def intToString (z : Int) : String :=
  match z with
  | Int.ofNat n => ⟨Nat.toDigits 10 n⟩
  | Int.negSucc n => ⟨'-' :: Nat.toDigits 10 (n + 1)⟩

/-! ## Binary64 products with a constant -/

/-- The number of low bits that rounding to 53 significant bits discards from
`n`; `fuel` bounds the recursion and `fuel = n` is always enough. -/
def dropBits : Nat → Nat → Nat
  | 0, _ => 0
  | fuel + 1, n => if n < 2 ^ 53 then 0 else 1 + dropBits fuel (n / 2)

/-- Rounding of a natural number to 53 significant bits, to nearest, ties to
even: the binary64 rounding of `n / 2^k` is `round53 n / 2^k` for every scale
`k` in the normal range. -/
def round53 (n : Nat) : Nat :=
  let shift := dropBits n n
  let q := n / 2 ^ shift
  let r := n % 2 ^ shift
  if 2 * r > 2 ^ shift || (2 * r == 2 ^ shift && q % 2 == 1)
  then (q + 1) * 2 ^ shift else q * 2 ^ shift

/-- A binary64 constant `num / 2^exp`. -/
structure F64 where
  num : Nat
  exp : Nat
deriving DecidableEq, Repr

/-- The literal `0.85`. -/
def c085 : F64 := ⟨7656119366529843, 53⟩
/-- The literal `0.3`. -/
def c03 : F64 := ⟨5404319552844595, 54⟩
/-- The literal `0.9`. -/
def c09 : F64 := ⟨8106479329266893, 53⟩
/-- The literal `0.4`. -/
def c04 : F64 := ⟨3602879701896397, 53⟩
/-- The literal `0.7`. -/
def c07 : F64 := ⟨3152519739159347, 52⟩
/-- The literal `0.8`. -/
def c08 : F64 := ⟨3602879701896397, 52⟩
/-- The value of `1 - 0.18`, which is `0.8200000000000001`. -/
def c082 : F64 := ⟨3692951694443807, 52⟩

/-- The literal `0.1`. -/
def c01 : F64 := ⟨3602879701896397, 55⟩
/-- The literal `0.5`. -/
def c05 : F64 := ⟨1, 1⟩

/-- The expression `Math.floor(n * c)` for a natural number `n` and a binary64
constant `c`. -/
def floorMul (n : Nat) (c : F64) : Int := ((round53 (n * c.num) / 2 ^ c.exp : Nat) : Int)

/-- The comparison `x > n * c` for an integer `x`, a natural number `n` and a
binary64 constant `c`: the product is rounded, the comparison is exact. -/
def gtMul (x : Int) (n : Nat) (c : F64) : Bool :=
  decide ((round53 (n * c.num) : Int) < x * 2 ^ c.exp)

/-- The comparison `x < n * c`. -/
def ltMul (x : Int) (n : Nat) (c : F64) : Bool :=
  decide (x * 2 ^ c.exp < (round53 (n * c.num) : Int))

/-! ## Snapshot parser (`RobustXMLParser`) -/

/-- The screen size record `{ width, height }`. -/
structure ScreenSize where
  width : Nat
  height : Nat
deriving DecidableEq, Repr

/-- The screen size a fresh parser, detector or explorer starts with. -/
def defaultScreenSize : ScreenSize := ⟨1080, 1920⟩

/-- The record `{ x1, y1, x2, y2 }` returned by `parseBounds`. -/
structure Bounds where
  x1 : Nat
  y1 : Nat
  x2 : Nat
  y2 : Nat
deriving DecidableEq, Repr

/-- An element object.  The objects built by `createUIElement` set every
field; the adaptive grid sets only the centre, the type, the signature and the
priority. -/
structure UIElement where
  className : String := ""
  text : String := ""
  desc : String := ""
  resourceId : String := ""
  pkg : String := ""
  clickable : Bool := false
  checkable : Bool := false
  scrollable : Bool := false
  longClickable : Bool := false
  enabled : Bool := false
  focusable : Bool := false
  selected : Bool := false
  checked : Bool := false
  NAF : Bool := false
  bounds : Option Bounds := none
  centerX : Int
  centerY : Int
  width : Option Int := none
  height : Option Int := none
  area : Option Int := none
  elementType : String := ""
  signature : String := ""
  priority : Int := 0
deriving DecidableEq, Repr

/-- The attribute object built by `parseAttributes`, as the list of its
assignments `attrs[key] = value` in the order they were made. -/
abbrev Attrs := List (String × String)

/-- The property read `attrs[key]`: the value assigned last, `none` for
`undefined`. -/
def attrGet : Attrs → String → Option String
  | [], _ => none
  | (k, v) :: rest, key =>
    match attrGet rest key with
    | some w => some w
    | none => if k = key then some v else none

/-- The test `attrs[key] === 'true'`. -/
def attrIsTrue (attrs : Attrs) (key : String) : Bool := attrGet attrs key == some "true"

/-- The read `attrs[key] || ''`. -/
def attrOrEmpty (attrs : Attrs) (key : String) : String := (attrGet attrs key).getD ""

/-- The part `([^>]*?)(?:\/>|>)` of the node pattern, anchored: the captured
text and the number of characters matched. -/
def nodeBody : List Char → Option (List Char × Nat)
  | [] => none
  | c :: cs =>
    if c = '>' then some ([], 1)
    else if c = '/' && startsWith cs ['>'] then some ([], 2)
    else match nodeBody cs with
      | some (cap, n) => some (c :: cap, n + 1)
      | none => none

/-- The pattern `<node\s+([^>]*?)(?:\/>|>)` anchored at the start of `s`: the
captured attribute text and the length of the match. -/
def matchNodeAt (s : List Char) : Option (List Char × Nat) :=
  if startsWith s "<node".data then
    let rest := s.drop 5
    let ws := rest.takeWhile isJsSpace
    if ws.isEmpty then none
    else match nodeBody (rest.dropWhile isJsSpace) with
      | some (cap, n) => some (cap, 5 + ws.length + n)
      | none => none
  else none

/-- The loop `while ((match = nodeRegex.exec(xml)) !== null)`: the captures of
the successive matches.  `skip` counts the characters of the last match still
to pass. -/
def nodeCaptures : Nat → List Char → List (List Char)
  | _, [] => []
  | skip + 1, _ :: cs => nodeCaptures skip cs
  | 0, c :: cs =>
    match matchNodeAt (c :: cs) with
    | some (cap, n) => cap :: nodeCaptures (n - 1) cs
    | none => nodeCaptures 0 cs

/-- The part `([^"]*)"` of the attribute pattern, anchored: the value and the
number of characters matched. -/
def attrValue : List Char → Option (List Char × Nat)
  | [] => none
  | c :: cs =>
    if c = '"' then some ([], 1)
    else match attrValue cs with
      | some (v, n) => some (c :: v, n + 1)
      | none => none

/-- The pattern `(\S+?)="([^"]*)"` anchored at the start of `s`: the key (the
shortest that works), the value and the length of the match. -/
def matchAttrAt : List Char → Option (List Char × List Char × Nat)
  | [] => none
  | c :: cs =>
    if isJsSpace c then none
    else
      let here : Option (List Char × List Char × Nat) :=
        if startsWith cs ['=', '"'] then
          match attrValue (cs.drop 2) with
          | some (v, n) => some ([c], v, 3 + n)
          | none => none
        else none
      match here with
      | some r => some r
      | none =>
        match matchAttrAt cs with
        | some (k, v, n) => some (c :: k, v, n + 1)
        | none => none

/-- The chain of replacements that decodes the markup entities of a value. -/
def decodeEntities (value : String) : String :=
  replaceAll (replaceAll (replaceAll (replaceAll (replaceAll (replaceAll value
    "&lt;" "<") "&gt;" ">") "&amp;" "&") "&quot;" "\"") "&#10;" "\n") "&#13;" "\r"

/-- The loop of `parseAttributes`: the assignments of the successive matches. -/
def attrAssignments : Nat → List Char → Attrs
  | _, [] => []
  | skip + 1, _ :: cs => attrAssignments skip cs
  | 0, c :: cs =>
    match matchAttrAt (c :: cs) with
    | some (k, v, n) => (⟨k⟩, decodeEntities ⟨v⟩) :: attrAssignments (n - 1) cs
    | none => attrAssignments 0 cs

/-- The method `parseAttributes(attrString)`. -/
def parseAttributes (attrString : String) : Attrs := attrAssignments 0 attrString.data

/-- The pattern `\[(\d+),(\d+)\]\[(\d+),(\d+)\]` anchored at the start of `s`. -/
def matchBoundsAt (s : List Char) : Option Bounds :=
  match s with
  | '[' :: r1 =>
    match r1.span isJsDigit with
    | (d1, ',' :: r2) =>
      match r2.span isJsDigit with
      | (d2, ']' :: '[' :: r3) =>
        match r3.span isJsDigit with
        | (d3, ',' :: r4) =>
          match r4.span isJsDigit with
          | (d4, ']' :: _) =>
            if d1.isEmpty || d2.isEmpty || d3.isEmpty || d4.isEmpty then none
            else some ⟨parseInt d1, parseInt d2, parseInt d3, parseInt d4⟩
          | _ => none
        | _ => none
      | _ => none
    | _ => none
  | _ => none

/-- The first match of the bounds pattern anywhere in `s`. -/
def searchBounds : List Char → Option Bounds
  | [] => none
  | c :: cs =>
    match matchBoundsAt (c :: cs) with
    | some b => some b
    | none => searchBounds cs

/-- The method `parseBounds(boundsStr)`; `none` is `null`. -/
def parseBounds (boundsStr : Option String) : Option Bounds :=
  match boundsStr with
  | none => none
  | some s => if s.data.isEmpty then none else searchBounds s.data

/-- The class names that make a node actionable whatever its flags. -/
def actionableClasses : List String :=
  ["EditText", "AutoCompleteTextView", "SearchView",
   "Button", "ImageButton", "FloatingActionButton",
   "CheckBox", "RadioButton", "Switch", "ToggleButton",
   "Spinner", "SeekBar", "RatingBar",
   "Tab", "BottomNavigationItemView",
   "RecyclerView", "ListView", "GridView", "ScrollView",
   "WebView", "VideoView"]

/-- The method `isActionableElement(attrs)`. -/
def isActionableElement (attrs : Attrs) : Bool :=
  if attrIsTrue attrs "clickable" || attrIsTrue attrs "checkable" ||
     attrIsTrue attrs "scrollable" || attrIsTrue attrs "long-clickable" ||
     attrIsTrue attrs "focusable" then true
  else
    let className := attrOrEmpty attrs "class"
    if includesAny className actionableClasses then true
    else if attrIsTrue attrs "NAF" then true
    else if includes className "ViewGroup" || includes className "Layout" then
      match parseBounds (attrGet attrs "bounds") with
      | some b =>
        let area : Int := ((b.x2 : Int) - b.x1) * ((b.y2 : Int) - b.y1)
        decide (area > 3000) && decide (area < 300000)
      | none => false
    else false

/-- The comparison `o > k` of a possibly undefined number: `false` when
undefined. -/
def optGt (o : Option Int) (k : Int) : Bool :=
  match o with
  | some v => decide (v > k)
  | none => false

/-- The comparison `o < k` of a possibly undefined number. -/
def optLt (o : Option Int) (k : Int) : Bool :=
  match o with
  | some v => decide (v < k)
  | none => false

/-- The comparison `o < n * c` of a possibly undefined number with a binary64
product. -/
def optLtMul (o : Option Int) (n : Nat) (c : F64) : Bool :=
  match o with
  | some v => ltMul v n c
  | none => false

/-- The comparison `o > n * c` of a possibly undefined number with a binary64
product. -/
def optGtMul (o : Option Int) (n : Nat) (c : F64) : Bool :=
  match o with
  | some v => gtMul v n c
  | none => false

/-- The template `text desc resourceId` of the three lower-cased or raw
identity strings, joined by single spaces. -/
def joinThree (a b c : String) : String := a ++ " " ++ b ++ " " ++ c

/-- The method `inferElementType(elem)`. -/
def inferElementType (screen : ScreenSize) (elem : UIElement) : String :=
  let className := toLowerCase elem.className
  let text := toLowerCase elem.text
  let desc := toLowerCase elem.desc
  let resourceId := toLowerCase elem.resourceId
  let combined := joinThree text desc resourceId
  if includes className "edittext" || includes className "autocomplete" then
    if includes combined "search" || includes combined "검색" then "input_search"
    else if includes combined "email" || includes combined "이메일" then "input_email"
    else if includes combined "password" || includes combined "비밀번호" then "input_password"
    else if includes combined "phone" || includes combined "전화" then "input_phone"
    else if includes combined "message" || includes combined "메시지" then "input_message"
    else if includes combined "comment" || includes combined "댓글" then "input_comment"
    else if includes combined "name" || includes combined "이름" then "input_name"
    else "input_text"
  else if includes className "button" then
    if includesAny combined
        ["send", "submit", "post", "전송", "보내", "게시", "확인", "저장", "save"] then
      "button_submit"
    else if includesAny combined ["cancel", "취소", "닫기", "close"] then "button_cancel"
    else if includes className "floatingactionbutton" then "fab"
    else "button"
  else if includes resourceId "tab" || includes resourceId "nav" ||
      includes resourceId "bottom" || includes className "bottomnavigation" then "navigation"
  else if includes className "checkbox" then "checkbox"
  else if includes className "radio" then "radio"
  else if includes className "switch" || includes className "toggle" then "switch"
  else if elem.scrollable then "scrollable"
  else if includes className "webview" then "webview"
  else
    let h := if screen.height = 0 then 1920 else screen.height
    if elem.focusable && !elem.clickable &&
        includesAny combined
          ["comment", "댓글", "message", "메시지", "post", "게시", "입력", "쓰기", "write", "type"]
    then "input_comment"
    else if elem.focusable && !elem.clickable &&
        gtMul elem.centerY h c03 && ltMul elem.centerY h c09 &&
        optGt elem.height 40 && optLtMul elem.height h c04
    then "input_text"
    else if elem.clickable then "clickable"
    else if elem.focusable then "focusable"
    else "other"

/-- The method `generateSignature(elem)`. -/
def generateSignature (elem : UIElement) : String :=
  let xBucket := elem.centerX / 30
  let yBucket := elem.centerY / 30
  elem.elementType ++ "_" ++ intToString xBucket ++ "_" ++ intToString yBucket ++ "_" ++
    orElse elem.resourceId "noid"

/-- The table `typeScores` of `calculatePriority`. -/
def typeScores : List (String × Int) :=
  [("navigation", 55), ("button_submit", 50), ("fab", 48), ("button", 40),
   ("input_comment", 38), ("input_message", 38), ("input_text", 35), ("input_search", 30),
   ("checkbox", 28), ("radio", 28), ("switch", 28),
   ("clickable", 25), ("scrollable", 20), ("webview", 15), ("button_cancel", 10),
   ("focusable", 12), ("input_email", 25), ("input_password", 25), ("input_name", 25),
   ("input_phone", 25), ("other", 5)]

/-- The weight that the table `typeScores` gives the type `t` as one of its own
entries, and 0 when `t` is no key of the table. -/
def typeScore (t : String) : Int := (typeScores.lookup t).getD 0

/-- The names of the properties that the object literal `typeScores` inherits
from `Object.prototype`.  The value read under each of them is a function, or
the prototype object for `__proto__`: it is truthy and no number. -/
def inheritedPropertyNames : List String :=
  ["constructor", "__defineGetter__", "__defineSetter__", "hasOwnProperty",
   "__lookupGetter__", "__lookupSetter__", "isPrototypeOf", "propertyIsEnumerable",
   "toString", "valueOf", "__proto__", "toLocaleString"]

/-- The read `typeScores[t] || 0`: the own entry of the table, 0 for a name
that the object does not have, and `none` for an inherited name, whose value
is no number. -/
def typeScoreOrZero (t : String) : Option Int :=
  if inheritedPropertyNames.contains t then none else some (typeScore t)

/-- The list `forensicKeywords` of `calculatePriority`. -/
def priorityForensicKeywords : List String :=
  ["message", "chat", "photo", "video", "setting", "profile",
   "saved", "download", "privacy", "account", "menu",
   "메시지", "사진", "동영상", "설정", "프로필", "저장", "다운로드"]

/-- The list `submitKeywords` of `calculatePriority`. -/
def prioritySubmitKeywords : List String :=
  ["comment", "post", "send", "submit", "write", "reply",
   "댓글", "게시", "전송", "보내기", "작성", "답글"]

/-- The method `calculatePriority(elem)`: the number returned, and `none` when
the result is no number.  That happens when `elem.elementType` is an inherited
property name: `priority += typeScores[elem.elementType] || 0` then adds a
function or an object to 0, which gives a string, and every later `+=` appends
to that string. -/
def calculatePriority (screen : ScreenSize) (elem : UIElement) : Option Int :=
  let text := toLowerCase (joinThree elem.text elem.desc elem.resourceId)
  match typeScoreOrZero elem.elementType with
  | none => none
  | some weight =>
    some (weight
      + (if includesAny text priorityForensicKeywords then 25 else 0)
      + (if includesAny text prioritySubmitKeywords then 35 else 0)
      + (if elem.centerY < 200 then 12 else 0)
      + (if gtMul elem.centerY screen.height c085 then 30 else 0)
      + (if elem.NAF then 5 else 0)
      + (if 0 < jsLength elem.text && jsLength elem.text < 30 then 8 else 0))

/-- The method `createUIElement(attrs)`; `none` is `null`.  The source also
returns `null` when `x1 < 0 || y1 < 0`; the values come from `parseInt` of runs
of digits, so that test never holds and has no counterpart here.  The type
given to `calculatePriority` is the one `inferElementType` has just returned,
never an inherited property name, so the priority is always a number
(`calculatePriority_typed`) and the default of `getD` is never taken. -/
def createUIElement (screen : ScreenSize) (attrs : Attrs) : Option UIElement :=
  match parseBounds (attrGet attrs "bounds") with
  | none => none
  | some bounds =>
    if bounds.x2 ≤ bounds.x1 || bounds.y2 ≤ bounds.y1 then none
    else
      let width : Int := (bounds.x2 : Int) - bounds.x1
      let height : Int := (bounds.y2 : Int) - bounds.y1
      if width < 10 || height < 10 then none
      else
        let element : UIElement :=
          { className := attrOrEmpty attrs "class"
            text := jsTrim (attrOrEmpty attrs "text")
            desc := jsTrim (replaceAll (attrOrEmpty attrs "content-desc") "\n" " ")
            resourceId := attrOrEmpty attrs "resource-id"
            pkg := attrOrEmpty attrs "package"
            clickable := attrIsTrue attrs "clickable"
            checkable := attrIsTrue attrs "checkable"
            scrollable := attrIsTrue attrs "scrollable"
            longClickable := attrIsTrue attrs "long-clickable"
            enabled := attrGet attrs "enabled" != some "false"
            focusable := attrIsTrue attrs "focusable"
            selected := attrIsTrue attrs "selected"
            checked := attrIsTrue attrs "checked"
            NAF := attrIsTrue attrs "NAF"
            bounds := some bounds
            centerX := ((bounds.x1 + bounds.x2) / 2 : Nat)
            centerY := ((bounds.y1 + bounds.y2) / 2 : Nat)
            width := some width
            height := some height
            area := some (width * height) }
        let typed := { element with elementType := inferElementType screen element }
        let signed := { typed with signature := generateSignature typed }
        some { signed with priority := (calculatePriority screen signed).getD 0 }

/-- The element, if any, that the body of the loop of `parse` pushes for one
captured attribute text. -/
def parseNode (screen : ScreenSize) (attrString : List Char) : Option UIElement :=
  let attrs := parseAttributes ⟨attrString⟩
  if isActionableElement attrs then createUIElement screen attrs else none

/-- The method `parse(xml)` of a parser whose screen size is `screen`. -/
def parse (screen : ScreenSize) (xml : String) : List UIElement :=
  let normalized := replaceAll (replaceAll xml "\r\n" "\n") "\r" "\n"
  (nodeCaptures 0 normalized.data).filterMap (parseNode screen)

/-! ## Multi-layer detector: adaptive grid and merge -/

/-- The bottom-navigation point number `i` of the adaptive grid. -/
def gridNavPoint (w h i : Nat) : UIElement :=
  { centerX := ((w * i / 6 : Nat) : Int)
    centerY := (h : Int) - 80
    elementType := "navigation"
    signature := "grid_nav_" ++ intToString i
    priority := 18 }

/-- The interior grid point of row `row` and column `col`.  The source computes
`startX + (endX - startX) * (col + 0.5) / gridCols` in binary64 and floors it;
the half-integer product is exact and the quotient is either an integer or at
least `1/6` away from one, so the floor is the integer floor of
`(w - 200) * (2 col + 1) / 6`, and likewise `(h - 400) * (2 row + 1) / 10`. -/
def gridPoint (w h row col : Nat) : UIElement :=
  { centerX := 100 + (((w : Int) - 100 - 100) * (2 * col + 1)) / 6
    centerY := 200 + (((h : Int) - 200 - 200) * (2 * row + 1)) / 10
    elementType := "grid_point"
    signature := "grid_" ++ intToString row ++ "_" ++ intToString col
    priority := 3 }

/-- The method `generateAdaptiveGrid()` of a detector whose screen size is
`screen`. -/
def generateAdaptiveGrid (screen : ScreenSize) : List UIElement :=
  let w := screen.width
  let h := screen.height
  [ { centerX := 60, centerY := 100,
      elementType := "toolbar_left", signature := "grid_toolbar_left", priority := 15 },
    { centerX := (w : Int) - 60, centerY := 100,
      elementType := "toolbar_right", signature := "grid_toolbar_right", priority := 15 } ]
  ++ (List.range' 1 5).map (gridNavPoint w h)
  ++ (List.range 5).flatMap (fun row => (List.range 3).map (fun col => gridPoint w h row col))
  ++ [ { centerX := (w : Int) - 80, centerY := (h : Int) - 200,
         elementType := "fab", signature := "grid_fab", priority := 20 } ]

/-- The duplicate test of `mergeElements`: some element of `result` has its
centre fewer than 40 pixels from the centre of `newElem` on both axes. -/
def isDuplicate (result : List UIElement) (newElem : UIElement) : Bool :=
  result.any (fun existing =>
    decide ((existing.centerX - newElem.centerX).natAbs < 40) &&
    decide ((existing.centerY - newElem.centerY).natAbs < 40))

/-- The method `mergeElements(base, additions)`. -/
def mergeElements (base additions : List UIElement) : List UIElement :=
  additions.foldl (fun result newElem =>
    if isDuplicate result newElem then result else result ++ [newElem]) base

/-! ## Multi-layer detector: acquisition (`getElements`) -/

/-- The constant `CONFIG.MIN_ELEMENTS_FOR_CV`. -/
def MIN_ELEMENTS_FOR_CV : Nat := 12

/-- The constant `CONFIG.ELEMENT_CACHE_TTL`, in milliseconds. -/
def ELEMENT_CACHE_TTL : Int := 300

/-- What the device and the vision classifier give to one call of
`getElements`: the result of `getUIAutomatorElements()` and of
`getDumpsysElements()`, `none` when the call throws; the flag `argv.vision`; and
the result of `getCVElements()`, which catches its own failures. -/
structure StageOutcomes where
  uiAutomator : Option (List UIElement)
  dumpsys : Option (List UIElement)
  vision : Bool
  cv : List UIElement

/-- The fields of a `MultiLayerUIDetector` that `getElements` reads or writes. -/
structure MultiLayerUIDetector where
  screenSize : ScreenSize := defaultScreenSize
  elementCache : Option (List UIElement) := none
  lastDumpTime : Int := 0

/-- The stable sort `elements.sort((a, b) => b.priority - a.priority)`. -/
def sortByPriorityDesc (xs : List UIElement) : List UIElement :=
  xs.insertionSort (fun a b => b.priority ≤ a.priority)

/-- The four acquisition stages of `getElements`, before the sort. -/
def acquireElements (screen : ScreenSize) (o : StageOutcomes) : List UIElement :=
  let stage1 : List UIElement :=
    match o.uiAutomator with
    | some uiElements => if uiElements.length > 0 then uiElements else []
    | none => []
  let stage2 :=
    if stage1.length < MIN_ELEMENTS_FOR_CV then
      match o.dumpsys with
      | some dumpsysElements => mergeElements stage1 dumpsysElements
      | none => stage1
    else stage1
  let stage3 :=
    if stage2.length < MIN_ELEMENTS_FOR_CV && o.vision then mergeElements stage2 o.cv
    else stage2
  if stage3.length < 3 then mergeElements stage3 (generateAdaptiveGrid screen) else stage3

/-- The method `getElements()` called at the time `now` (`Date.now()`): the
returned list and the detector afterwards.  An empty array is truthy, so a
cached empty list is returned like any other. -/
def MultiLayerUIDetector.getElements (d : MultiLayerUIDetector) (now : Int)
    (o : StageOutcomes) : List UIElement × MultiLayerUIDetector :=
  let refreshed := sortByPriorityDesc (acquireElements d.screenSize o)
  match d.elementCache with
  | some cache =>
    if now - d.lastDumpTime < ELEMENT_CACHE_TTL then (cache, d)
    else (refreshed, { d with elementCache := some refreshed, lastDumpTime := now })
  | none => (refreshed, { d with elementCache := some refreshed, lastDumpTime := now })

/-! ## Smart explorer: state -/

/-- A navigation tab record `{ name, x, y, text, resourceId }`. -/
structure NavTab where
  name : String
  x : Int
  y : Int
  text : String := ""
  resourceId : String := ""
deriving DecidableEq, Repr

/-- A value of the map `screenVisits`, without its time stamp `firstSeen`. -/
structure ScreenVisit where
  count : Nat
deriving DecidableEq, Repr

/-- A value of the map `transitionGraph`; `destinations` is a `Set`, kept in
insertion order. -/
structure TransitionEntry where
  destinations : List String
  leadsToNew : Bool
deriving DecidableEq, Repr

/-- A value of the map `elementScores`.  `successRate` holds the exact quotient
of the division that the source computes in binary64. -/
structure ElementStats where
  attempts : Nat
  successes : Nat
  successRate : ℚ
deriving DecidableEq, Repr

/-- The `element` part of a record of `actionHistory`. -/
structure ActionElement where
  type : String
  signature : String
  text : String
  desc : String
  x : Int
  y : Int
deriving DecidableEq, Repr

/-- A record of `actionHistory`, without its time stamp. -/
structure ActionRecord where
  screen : String
  activity : String
  action : String
  element : ActionElement
  result : String
  depth : Nat
deriving DecidableEq, Repr

/-- The fields of a `SmartExplorer` that the modelled methods read or write.
Maps and sets are lists in insertion order; the time stamps taken from
`Date.now()`, which no modelled method reads, are left out. -/
structure SmartExplorer where
  pkg : String
  currentScreen : String := ""
  currentActivity : String := ""
  depth : Nat := 0
  stuckCount : Nat := 0
  sameScreenCount : Nat := 0
  lastScreenHash : String := ""
  totalActionsCount : Nat := 0
  recentScreenHashes : List String := []
  detectedNavTabs : List NavTab := []
  navTabsDetected : Bool := false
  screenSize : ScreenSize := defaultScreenSize
  elementScores : List (String × ElementStats) := []
  transitionGraph : List (String × TransitionEntry) := []
  screenVisits : List (String × ScreenVisit) := []
  globalClickedCoords : List String := []
  noNewElementCount : Nat := 0
  lastHashForTimeout : String := ""
  coverageActivities : List String := []
  coverageScreens : List String := []
  coverageTransitions : Nat := 0
  actionHistory : List ActionRecord := []
deriving DecidableEq, Repr

/-- The explorer built by `new SmartExplorer(pkg)`. -/
def SmartExplorer.fresh (pkg : String) : SmartExplorer := { pkg := pkg }

/-- The method `setScreenSize(width, height)` of the explorer. -/
def SmartExplorer.setScreenSize (s : SmartExplorer) (width height : Nat) : SmartExplorer :=
  { s with screenSize := ⟨width, height⟩ }

/-! ## Smart explorer: screen hash and loop detection -/

/-- The expression `s.split('/').pop()` on character lists: the text after the
last slash. -/
def lastSegmentChars : List Char → List Char
  | [] => []
  | c :: cs =>
    if cs.contains '/' then lastSegmentChars cs
    else if c = '/' then cs else c :: cs

/-- The expression `this.currentActivity.split('/').pop() || ''`. -/
def activitySignature (currentActivity : String) : String :=
  ⟨lastSegmentChars currentActivity.data⟩

/-- The default comparison of `Array.prototype.sort`, on character lists. -/
def lexLe : List Char → List Char → Bool
  | [], _ => true
  | _ :: _, [] => false
  | a :: as, b :: bs => decide (a.toNat < b.toNat) || (a.toNat == b.toNat && lexLe as bs)

/-- The method `parts.join(sep)`. -/
def joinWith (sep : String) : List String → String
  | [] => ""
  | [a] => a
  | a :: b :: rest => a ++ sep ++ joinWith sep (b :: rest)

/-- The bucketed position string of one element in `computeScreenHash`. -/
def positionKey (e : UIElement) : String :=
  intToString (e.centerX / 100) ++ "," ++ intToString (e.centerY / 100)

/-- The local `positions` of `computeScreenHash`. -/
def screenPositions (elements : List UIElement) : String :=
  joinWith "|" (((elements.take 10).map positionKey).insertionSort
    (fun a b => lexLe a.data b.data = true))

/-- The local `sig` of `computeScreenHash`, the string that is hashed. -/
def screenSignature (currentActivity : String) (elements : List UIElement) : String :=
  activitySignature currentActivity ++ "::" ++ screenPositions elements

/-- The method `computeScreenHash(elements)`.  The parameter `shortHash` is
the library call `crypto.createHash('md5').update(sig).digest('hex')` followed
by `.substring(0, 8)`, which `md5Prefix` spells out. -/
def computeScreenHash (shortHash : String → String) (currentActivity : String)
    (elements : List UIElement) : String :=
  if elements.isEmpty then "empty_screen"
  else shortHash (screenSignature currentActivity elements)

/-- The method `recordScreenHash(hash)`. -/
def SmartExplorer.recordScreenHash (s : SmartExplorer) (hash : String) : SmartExplorer :=
  let pushed := s.recentScreenHashes ++ [hash]
  { s with recentScreenHashes := if pushed.length > 20 then pushed.drop 1 else pushed }

/-- The values of `new Set(items)` in insertion order. -/
def jsSet (items : List String) : List String :=
  items.foldl (fun seen x => if seen.contains x then seen else seen ++ [x]) []

/-- The method `isStuckInLoop()`. -/
def SmartExplorer.isStuckInLoop (s : SmartExplorer) : Bool :=
  if s.recentScreenHashes.length < 6 then false
  else
    let recent := s.recentScreenHashes.drop (s.recentScreenHashes.length - 6)
    decide ((jsSet recent).length ≤ 2)

/-! ## Smart explorer: navigation tabs -/

/-- The first filter of `detectNavigationTabs`: the class or the resource id
names a tab widget. -/
def namesTabWidget (e : UIElement) : Bool :=
  let cls := toLowerCase e.className
  let rid := toLowerCase e.resourceId
  includes cls "bottomnavigation" || includes cls "tabwidget" || includes cls "tablayout" ||
  includes rid "bottom_nav" || includes rid "tab_" || includes rid "navigation"

/-- The second filter of `detectNavigationTabs`: the bottom-region candidates
on a screen of size `screen`.  `bottomThreshold` is the binary64 product
`height * (1 - 0.18)`. -/
def isBottomCandidate (screen : ScreenSize) (e : UIElement) : Bool :=
  if !e.clickable && !e.focusable then false
  else if ltMul e.centerY screen.height c082 then false
  else if optGt e.height 200 then false
  else if optLt e.width 40 then false
  else if optGtMul e.width screen.width c08 then false
  else true

/-- The stable sort `xs.sort((a, b) => a.centerX - b.centerX)`. -/
def sortByCenterX (xs : List UIElement) : List UIElement :=
  xs.insertionSort (fun a b => a.centerX ≤ b.centerX)

/-- The tab record built from an element, named `tab_idx`. -/
def tabOfElement (idx : Nat) (e : UIElement) : NavTab :=
  { name := "tab_" ++ intToString idx
    x := e.centerX
    y := e.centerY
    text := orElse e.text e.desc
    resourceId := e.resourceId }

/-- One round of the loop that builds `uniqueTabs`: the element opens a new
tab unless a tab already lies fewer than 80 pixels from it on the x axis. -/
def clusterStep (uniqueTabs : List NavTab) (elem : UIElement) : List NavTab :=
  if uniqueTabs.any (fun t => decide ((t.x - elem.centerX).natAbs < 80)) then uniqueTabs
  else uniqueTabs ++ [tabOfElement uniqueTabs.length elem]

/-- The list `uniqueTabs` after the loop over the sorted candidates. -/
def clusterTabs (sorted : List UIElement) : List NavTab := sorted.foldl clusterStep []

/-- The numbering `xs.map((e, idx) => f(idx, e))` starting at `start`. -/
def mapWithIndex (f : Nat → UIElement → NavTab) : Nat → List UIElement → List NavTab
  | _, [] => []
  | start, e :: es => f start e :: mapWithIndex f (start + 1) es

/-- The fixed five-tab layout of the third stage.  `width * 0.1`, `width * 0.3`,
... are binary64 products, floored. -/
def fallbackTabs (screen : ScreenSize) : List NavTab :=
  let defaultY : Int := (screen.height : Int) - 80
  let w := screen.width
  [ { name := "tab_0", x := floorMul w c01, y := defaultY, text := "Home" },
    { name := "tab_1", x := floorMul w c03, y := defaultY, text := "Friends" },
    { name := "tab_2", x := floorMul w c05, y := defaultY, text := "Watch" },
    { name := "tab_3", x := floorMul w c07, y := defaultY, text := "Notif" },
    { name := "tab_4", x := floorMul w c09, y := defaultY, text := "Menu" } ]

/-- The method `detectNavigationTabs(elements)`: the returned tabs and the
explorer afterwards. -/
def SmartExplorer.detectNavigationTabs (s : SmartExplorer) (elements : List UIElement) :
    List NavTab × SmartExplorer :=
  if s.navTabsDetected && decide (s.detectedNavTabs.length ≥ 5) then (s.detectedNavTabs, s)
  else
    let navClassElements := elements.filter namesTabWidget
    if navClassElements.length ≥ 3 then
      let tabs := mapWithIndex tabOfElement 0 ((sortByCenterX navClassElements).take 8)
      (tabs, { s with detectedNavTabs := tabs, navTabsDetected := true })
    else
      let bottomElements := elements.filter (isBottomCandidate s.screenSize)
      if bottomElements.length < 2 then
        if !s.navTabsDetected then
          let tabs := fallbackTabs s.screenSize
          (tabs, { s with detectedNavTabs := tabs, navTabsDetected := true })
        else (s.detectedNavTabs, s)
      else
        let uniqueTabs := clusterTabs (sortByCenterX bottomElements)
        if uniqueTabs.length ≥ 2 then
          let tabs := uniqueTabs.take 8
          (tabs, { s with detectedNavTabs := tabs, navTabsDetected := true })
        else (s.detectedNavTabs, s)

/-! ## Smart explorer: recovery ladder -/

/-- A command sent to the device through `adb`. -/
inductive DeviceCommand where
  | keyevent (code : String)
  | swipe (x1 y1 x2 y2 durationMs : Nat)
  | tap (x y : Int)
  | forceStop (pkg : String)
  | launch (pkg : String)
deriving DecidableEq, Repr

/-- The method `launchApp()`, as the command it sends. -/
def launchApp (s : SmartExplorer) : List DeviceCommand := [DeviceCommand.launch s.pkg]

/-- The method `fullRecovery()`, every device call succeeding: the commands
sent and the explorer afterwards. -/
def SmartExplorer.fullRecovery (s : SmartExplorer) : List DeviceCommand × SmartExplorer :=
  ([DeviceCommand.forceStop s.pkg, DeviceCommand.keyevent "KEYCODE_HOME"] ++ launchApp s,
   { s with stuckCount := 0, depth := 0, sameScreenCount := 0 })

/-- The array `actions` of `recoverFromStuck`: each entry run on an explorer,
every device call succeeding. -/
def recoveryActions : List (SmartExplorer → List DeviceCommand × SmartExplorer) :=
  [ fun s => ([DeviceCommand.keyevent "KEYCODE_BACK"], s),
    fun s => ([DeviceCommand.keyevent "KEYCODE_BACK", DeviceCommand.keyevent "KEYCODE_BACK"], s),
    fun s => ([DeviceCommand.swipe 540 1600 540 400 200, DeviceCommand.keyevent "KEYCODE_BACK"], s),
    fun s => (DeviceCommand.keyevent "KEYCODE_HOME" :: launchApp s, s),
    fun s => s.fullRecovery ]

/-- The constant `CONFIG.MAX_STUCK_COUNT`. -/
def MAX_STUCK_COUNT : Nat := 10

/-- The index into `actions` that `recoverFromStuck` uses once the stuck
counter has the value `stuckCount`: `Math.min(stuckCount - 1, actions.length - 1)`. -/
def recoveryIndex (stuckCount : Nat) : Nat :=
  min (stuckCount - 1) (recoveryActions.length - 1)

/-- The method `recoverFromStuck()`, every device call succeeding: the commands
sent and the explorer afterwards. -/
def SmartExplorer.recoverFromStuck (s : SmartExplorer) : List DeviceCommand × SmartExplorer :=
  let s1 := { s with stuckCount := s.stuckCount + 1 }
  if s1.stuckCount > MAX_STUCK_COUNT then s1.fullRecovery
  else
    match recoveryActions.get? (recoveryIndex s1.stuckCount) with
    | some action => action s1
    | none => ([], s1)

/-! ## Action executor: submit discovery -/

/-- The list `submitPatterns` of `findAndClickSubmit`. -/
def submitPatterns : List String :=
  ["send", "post", "submit", "publish", "share", "reply", "comment",
   "전송", "보내기", "게시", "공유", "댓글", "답글", "작성",
   "done", "ok", "confirm", "apply", "save",
   "확인", "완료", "저장", "적용"]

/-- The filter that builds `buttonElements`. -/
def isButtonElement (e : UIElement) : Bool :=
  e.clickable && (includes (toLowerCase e.className) "button" || includes e.resourceId "button")

/-- The test of the inner loop of stage 1 for one pattern and one element. -/
def matchesPattern (pattern : String) (e : UIElement) : Bool :=
  e.clickable &&
    includes (toLowerCase (joinThree e.text e.desc e.resourceId)) (toLowerCase pattern)

/-- Stage 1: the first element, in the order of the two nested loops, that is
clickable and contains the pattern. -/
def submitByKeyword (elements : List UIElement) : Option UIElement :=
  let buttonElements := elements.filter isButtonElement
  submitPatterns.findSome? (fun pattern =>
    (buttonElements ++ elements).find? (matchesPattern pattern))

/-- The stable sort `xs.sort((a, b) => b.centerX - a.centerX)`. -/
def sortByCenterXDesc (xs : List UIElement) : List UIElement :=
  xs.insertionSort (fun a b => b.centerX ≤ a.centerX)

/-- Stage 2: the rightmost clickable element at the height of the input field
in the right part of the screen. -/
def submitByPosition (width : Nat) (elements : List UIElement)
    (nearElement : Option UIElement) : Option UIElement :=
  let inputY : Int :=
    match nearElement with
    | some e => if e.centerY = 0 then 1200 else e.centerY
    | none => 1200
  let nearbyButtons := elements.filter (fun e =>
    e.clickable && decide ((e.centerY - inputY).natAbs < 100) && gtMul e.centerX width c07)
  (sortByCenterXDesc nearbyButtons).head?

/-- Stage 3: the rightmost clickable element in the top right of the screen. -/
def submitByTopRight (width : Nat) (elements : List UIElement) : Option UIElement :=
  let topRightButtons := elements.filter (fun e =>
    e.clickable && decide (e.centerY < 200) && gtMul e.centerX width c07)
  (sortByCenterXDesc topRightButtons).head?

/-- What `findAndClickSubmit` does once the screen is parsed. -/
inductive SubmitAction where
  | tapKeyword (e : UIElement)
  | tapNearby (e : UIElement)
  | tapTopRight (e : UIElement)
  | enterKey
deriving DecidableEq, Repr

/-- The cascade of `findAndClickSubmit(nearElement)` on the parsed element
list, every device call succeeding; `explorerScreen` is the screen size of the
explorer, whose width defaults to 1080 when it is 0. -/
def findSubmitAction (explorerScreen : ScreenSize) (elements : List UIElement)
    (nearElement : Option UIElement) : SubmitAction :=
  let width := if explorerScreen.width = 0 then 1080 else explorerScreen.width
  match submitByKeyword elements with
  | some e => SubmitAction.tapKeyword e
  | none =>
    match submitByPosition width elements nearElement with
    | some e => SubmitAction.tapNearby e
    | none =>
      match submitByTopRight width elements with
      | some e => SubmitAction.tapTopRight e
      | none => SubmitAction.enterKey

/-- The screen size that `findAndClickSubmit` gives its parser:
`screenSize?.width || 1080` and `screenSize?.height || 2400`. -/
def submitParserScreen (explorerScreen : ScreenSize) : ScreenSize :=
  ⟨if explorerScreen.width = 0 then 1080 else explorerScreen.width,
   if explorerScreen.height = 0 then 2400 else explorerScreen.height⟩

/-- The method `findAndClickSubmit(nearElement)` on the dump text `out` read
from the device, every device call succeeding. -/
def findAndClickSubmit (explorerScreen : ScreenSize) (out : String)
    (nearElement : Option UIElement) : SubmitAction :=
  findSubmitAction explorerScreen (parse (submitParserScreen explorerScreen) out) nearElement

/-! ## Exploration policy (`UniversalAutomation.explore`) -/

/-- The filter that builds `inputCandidates`. -/
def isInputCandidate (e : UIElement) : Bool :=
  (!e.className.data.isEmpty &&
      (includes e.className "EditText" || includes e.className "AutoComplete")) ||
  (!e.elementType.data.isEmpty && startsWith e.elementType.data "input_".data) ||
  (e.focusable &&
    includesAny (toLowerCase (e.text ++ " " ++ e.desc))
      ["comment", "댓글", "write", "작성", "message", "메시지", "search", "검색"])

/-- A gap between two literal parts of a blacklist pattern: `\s*` or `.*`. -/
inductive RegexGap where
  | spaces
  | anyChars
deriving DecidableEq, Repr

/-- The characters a gap may pass: white space for `\s*`, every character that
is not a line terminator for `.*`. -/
def RegexGap.allows (g : RegexGap) (c : Char) : Bool :=
  match g with
  | RegexGap.spaces => isJsSpace c
  | RegexGap.anyChars =>
    !(c.toNat == 10 || c.toNat == 13 || c.toNat == 8232 || c.toNat == 8233)

/-- A blacklist pattern: a literal part followed by gaps and further literal
parts.  The flag `i` of the source has no effect, since the patterns are only
tested on lower-cased text. -/
structure BlacklistPattern where
  head : String
  tail : List (RegexGap × String) := []

/-- A gap followed by the literal `lit` and the rest of the pattern `k`, matched
at the start of a text. -/
def gapThen (ok : Char → Bool) (lit : List Char) (k : List Char → Bool) : List Char → Bool
  | [] => lit.isEmpty && k []
  | c :: cs =>
    (startsWith (c :: cs) lit && k ((c :: cs).drop lit.length)) || (ok c && gapThen ok lit k cs)

/-- The gaps and literal parts after the first literal, matched at the start of
a text. -/
def matchTail : List (RegexGap × String) → List Char → Bool
  | [] => fun _ => true
  | (g, lit) :: rest => gapThen g.allows lit.data (matchTail rest)

/-- The pattern matched at the start of a text. -/
def BlacklistPattern.matchAt (p : BlacklistPattern) (s : List Char) : Bool :=
  startsWith s p.head.data && matchTail p.tail (s.drop p.head.data.length)

/-- The pattern matched somewhere in a text. -/
def BlacklistPattern.search (p : BlacklistPattern) : List Char → Bool
  | [] => p.matchAt []
  | c :: cs => p.matchAt (c :: cs) || p.search cs

/-- The call `p.test(text)`. -/
def BlacklistPattern.test (p : BlacklistPattern) (text : String) : Bool := p.search text.data

/-- The list `BLACKLIST_PATTERNS`. -/
def BLACKLIST_PATTERNS : List BlacklistPattern :=
  [ ⟨"이용", [(RegexGap.spaces, "약관")]⟩, ⟨"terms", []⟩, ⟨"개인정보", []⟩, ⟨"privacy", []⟩,
    ⟨"정책", []⟩, ⟨"policy", []⟩,
    ⟨"신고", []⟩, ⟨"report", []⟩, ⟨"도움말", []⟩, ⟨"help", []⟩, ⟨"문의", []⟩, ⟨"contact", []⟩,
    ⟨"로그아웃", []⟩, ⟨"logout", []⟩, ⟨"탈퇴", []⟩, ⟨"delete", [(RegexGap.anyChars, "account")]⟩,
    ⟨"설정", [(RegexGap.anyChars, "및"), (RegexGap.anyChars, "개인정보")]⟩,
    ⟨"계정", [(RegexGap.anyChars, "삭제")]⟩,
    ⟨"play.google", []⟩, ⟨"app", [(RegexGap.spaces, "store")]⟩, ⟨"market:", []⟩,
    ⟨"외부", [(RegexGap.anyChars, "링크")]⟩, ⟨"external", []⟩,
    ⟨"facebook.com/legal", []⟩, ⟨"facebook.com/help", []⟩,
    ⟨"facebook.com/privacy", []⟩, ⟨"facebook.com/policies", []⟩,
    ⟨"광고", [(RegexGap.anyChars, "정보")]⟩, ⟨"about", [(RegexGap.anyChars, "ads")]⟩,
    ⟨"쿠키", []⟩, ⟨"cookie", []⟩ ]

/-- The closure `shouldSkipElement` of `explore` on a detector screen of size
`screen`. -/
def shouldSkipElement (screen : ScreenSize) (e : UIElement) : Bool :=
  let text := toLowerCase (joinThree e.text e.desc e.resourceId)
  if BLACKLIST_PATTERNS.any (fun p => p.test text) then true
  else if includes (toLowerCase e.className) "webview" &&
      gtMul e.centerY screen.height c085 then true
  else if includes e.className "android.view.View" && gtMul e.centerY screen.height c085 &&
      includesAny text ["약관", "정책", "privacy", "terms", "help", "신고"] then true
  else false

/-- The closure `isLikelyClickable` of `explore`.  The test
`inputCandidates.includes(e)` is by object identity on a filter of the very
list `e` comes from, so it holds exactly when `e` passes that filter. -/
def isLikelyClickable (screen : ScreenSize) (e : UIElement) : Bool :=
  if shouldSkipElement screen e then false
  else if e.clickable then true
  else if isInputCandidate e then true
  else
    let cls := toLowerCase e.className
    if (includes cls "button" || includes cls "imageview" || includes cls "textview" ||
        includes cls "framelayout" || includes cls "linearlayout" ||
        includes cls "relativelayout") &&
       (optGt e.width 20 && optGt e.height 20 && optLtMul e.width screen.width c09 &&
        optLtMul e.height screen.height c05) then true
    else if e.focusable then true
    else false

/-- The list `clickables` that `explore` builds from the detected elements. -/
def clickables (screen : ScreenSize) (elements : List UIElement) : List UIElement :=
  elements.filter (isLikelyClickable screen)

/-! ## The library hash of `computeScreenHash` -/

/-- The per-round shift amounts of MD5 (RFC 1321). -/
def md5Shifts : List Nat :=
  [7, 12, 17, 22, 7, 12, 17, 22, 7, 12, 17, 22, 7, 12, 17, 22,
   5, 9, 14, 20, 5, 9, 14, 20, 5, 9, 14, 20, 5, 9, 14, 20,
   4, 11, 16, 23, 4, 11, 16, 23, 4, 11, 16, 23, 4, 11, 16, 23,
   6, 10, 15, 21, 6, 10, 15, 21, 6, 10, 15, 21, 6, 10, 15, 21]

/-- The per-round constants of MD5, `floor(2^32 * |sin(i + 1)|)`. -/
def md5Constants : List Nat :=
  [3614090360, 3905402710, 606105819, 3250441966, 4118548399, 1200080426,
   2821735955, 4249261313, 1770035416, 2336552879, 4294925233, 2304563134,
   1804603682, 4254626195, 2792965006, 1236535329, 4129170786, 3225465664,
   643717713, 3921069994, 3593408605, 38016083, 3634488961, 3889429448,
   568446438, 3275163606, 4107603335, 1163531501, 2850285829, 4243563512,
   1735328473, 2368359562, 4294588738, 2272392833, 1839030562, 4259657740,
   2763975236, 1272893353, 4139469664, 3200236656, 681279174, 3936430074,
   3572445317, 76029189, 3654602809, 3873151461, 530742520, 3299628645,
   4096336452, 1126891415, 2878612391, 4237533241, 1700485571, 2399980690,
   4293915773, 2240044497, 1873313359, 4264355552, 2734768916, 1309151649,
   4149444226, 3174756917, 718787259, 3951481745]

/-- The UTF-8 bytes of a character. -/
def utf8Bytes (c : Char) : List Nat :=
  let n := c.toNat
  if n < 128 then [n]
  else if n < 2048 then [192 + n / 64, 128 + n % 64]
  else if n < 65536 then [224 + n / 4096, 128 + n / 64 % 64, 128 + n % 64]
  else [240 + n / 262144, 128 + n / 4096 % 64, 128 + n / 64 % 64, 128 + n % 64]

/-- The `count` low bytes of `n`, least significant first. -/
def littleEndian : Nat → Nat → List Nat
  | 0, _ => []
  | count + 1, n => n % 256 :: littleEndian count (n / 256)

/-- The number that the bytes `bytes` spell, least significant first. -/
def fromLittleEndian : List Nat → Nat
  | [] => 0
  | b :: bs => b + 256 * fromLittleEndian bs

/-- The message padded to a multiple of 64 bytes: the byte 128, zero bytes up to
56 modulo 64, and the bit length in 8 bytes. -/
def md5Pad (message : List Nat) : List Nat :=
  message ++ [128] ++ List.replicate ((119 - message.length % 64) % 64) 0
    ++ littleEndian 8 (8 * message.length % 2 ^ 64)

/-- A list cut into pieces of `size` elements; `fuel` bounds the number of pieces. -/
def chunks (size : Nat) : Nat → List Nat → List (List Nat)
  | 0, _ => []
  | fuel + 1, xs => if xs.isEmpty then [] else xs.take size :: chunks size fuel (xs.drop size)

/-- Rotation of a 32-bit word to the left. -/
def rotateLeft32 (x c : Nat) : Nat := ((x <<< c) ||| (x >>> (32 - c))) % 2 ^ 32

/-- The bitwise complement of a 32-bit word. -/
def not32 (x : Nat) : Nat := 4294967295 - x

/-- The registers A, B, C, D of MD5. -/
structure Md5State where
  a : Nat
  b : Nat
  c : Nat
  d : Nat
deriving DecidableEq, Repr

/-- Operation `i` of the 64 operations of MD5 on one block of 16 words. -/
def md5Round (words : List Nat) (st : Md5State) (i : Nat) : Md5State :=
  let f :=
    if i < 16 then (st.b &&& st.c) ||| (not32 st.b &&& st.d)
    else if i < 32 then (st.d &&& st.b) ||| (not32 st.d &&& st.c)
    else if i < 48 then st.b ^^^ st.c ^^^ st.d
    else st.c ^^^ (st.b ||| not32 st.d)
  let g :=
    if i < 16 then i
    else if i < 32 then (5 * i + 1) % 16
    else if i < 48 then (3 * i + 5) % 16
    else 7 * i % 16
  let sum := (f + st.a + md5Constants.getD i 0 + words.getD g 0) % 2 ^ 32
  { a := st.d, d := st.c, c := st.b,
    b := (st.b + rotateLeft32 sum (md5Shifts.getD i 0)) % 2 ^ 32 }

/-- One 64-byte block of MD5. -/
def md5Block (st : Md5State) (block : List Nat) : Md5State :=
  let words := (chunks 4 16 block).map fromLittleEndian
  let r := (List.range 64).foldl (md5Round words) st
  { a := (st.a + r.a) % 2 ^ 32, b := (st.b + r.b) % 2 ^ 32,
    c := (st.c + r.c) % 2 ^ 32, d := (st.d + r.d) % 2 ^ 32 }

/-- The two lower-case hexadecimal digits of a byte. -/
def hexByte (b : Nat) : List Char :=
  ["0123456789abcdef".data.getD (b / 16) '0', "0123456789abcdef".data.getD (b % 16) '0']

/-- The library call `crypto.createHash('md5').update(sig).digest('hex')`: the
MD5 digest of the UTF-8 bytes of `sig` as 32 hexadecimal digits. -/
def md5Hex (sig : String) : String :=
  let message := sig.data.flatMap utf8Bytes
  let padded := md5Pad message
  let st := (chunks 64 (padded.length / 64) padded).foldl md5Block
    { a := 1732584193, b := 4023233417, c := 2562383102, d := 271733878 }
  ⟨(littleEndian 4 st.a ++ littleEndian 4 st.b ++ littleEndian 4 st.c
      ++ littleEndian 4 st.d).flatMap hexByte⟩

/-- The hash of `computeScreenHash`,
`crypto.createHash('md5').update(sig).digest('hex').substring(0, 8)`. -/
def md5Prefix (sig : String) : String := ⟨(md5Hex sig).data.take 8⟩

/-! ## Notions and inputs used in the statements -/

/-- The dump that holds the single `EditText` node of the example scenario. -/
def singleEditTextDump : String :=
  "<node bounds=\"[100,200][300,260]\" class=\"android.widget.EditText\" clickable=\"true\"/>"

/-- A character that can start the decimal string of an integer. -/
def numStart (c : Char) : Bool := isJsDigit c || c == '-'

/-- The element types that `inferElementType` can return. -/
def classifierTypes : List String :=
  ["input_search", "input_email", "input_password", "input_phone", "input_message",
   "input_comment", "input_name", "input_text", "button_submit", "button_cancel", "fab",
   "button", "navigation", "checkbox", "radio", "switch", "scrollable", "webview",
   "clickable", "focusable", "other"]

/-- Whether the text holds an underscore followed by a digit or a minus sign. -/
def hasNumSep : List Char → Bool
  | [] => false
  | c :: cs =>
    (c == '_' && (match cs with
      | [] => false
      | d :: _ => numStart d)) || hasNumSep cs

/-- Two elements of type `input_text` with the same centre, one without
resource id and one whose resource id is `noid`. -/
def sigElemNoId : UIElement :=
  { centerX := 200, centerY := 230, elementType := "input_text", resourceId := "" }

/-- The second element of the pair. -/
def sigElemNamedNoid : UIElement :=
  { centerX := 200, centerY := 230, elementType := "input_text", resourceId := "noid" }

/-- The screen of the jitter example: one element centred at (99, 50). -/
def jitterBefore : List UIElement := [{ centerX := 99, centerY := 50 }]

/-- The same screen with the element shifted right by 5 pixels. -/
def jitterAfter : List UIElement := [{ centerX := 104, centerY := 50 }]

/-- Two elements are in the same 100-pixel bucket on both axes. -/
def sameBucket (a b : UIElement) : Prop :=
  a.centerX / 100 = b.centerX / 100 ∧ a.centerY / 100 = b.centerY / 100

/-- The element `b` is `a` shifted by fewer than 15 pixels on each axis, and the
centre of `a` lies at least 15 pixels inside its 100-pixel bucket. -/
def smallShiftInside (a b : UIElement) : Prop :=
  (b.centerX - a.centerX).natAbs < 15 ∧ (b.centerY - a.centerY).natAbs < 15 ∧
  15 ≤ a.centerX % 100 ∧ a.centerX % 100 < 85 ∧ 15 ≤ a.centerY % 100 ∧ a.centerY % 100 < 85

/-- The screen of the witness: one element centred at (150, 250). -/
def stableBefore : List UIElement := [{ centerX := 150, centerY := 250 }]

/-- The same screen with the element shifted by 5 pixels on the x axis. -/
def stableAfter : List UIElement := [{ centerX := 155, centerY := 250 }]

/-- The last `n` items of a list, `xs.slice(-n)`. -/
def lastN (n : Nat) (xs : List String) : List String := xs.drop (xs.length - n)

/-- The explorer after recording the hashes `hs` in order. -/
def SmartExplorer.recordAll (s : SmartExplorer) (hs : List String) : SmartExplorer :=
  hs.foldl SmartExplorer.recordScreenHash s

/-- The lower-cased text, description or resource id of the element contains
one of the submit patterns. -/
def hasSubmitKeyword (e : UIElement) : Prop :=
  ∃ p ∈ submitPatterns, includes (toLowerCase e.text) p = true ∨
    includes (toLowerCase e.desc) p = true ∨ includes (toLowerCase e.resourceId) p = true

/-- A screen with a `Send` text view on the left and an unlabelled clickable
icon at the height of the input field on the right. -/
def submitDump : String :=
  "<hierarchy rotation=\"0\"><node text=\"\" class=\"android.widget.ImageView\" clickable=\"true\" bounds=\"[980,1150][1060,1250]\"/><node text=\"Send\" class=\"android.widget.TextView\" clickable=\"true\" bounds=\"[100,600][300,700]\"/></hierarchy>"

instance hasSubmitKeyword_decidable : DecidablePred hasSubmitKeyword := fun e => by
  unfold hasSubmitKeyword
  infer_instance

/-- The number, counted from 1, of the rung of the ladder that
`recoverFromStuck` runs when the incremented stuck counter is `n`; full
recovery, which is run directly above `MAX_STUCK_COUNT`, is rung 5. -/
def remedyNumber (n : Nat) : Nat :=
  if n > MAX_STUCK_COUNT then recoveryActions.length else recoveryIndex n + 1

/-- The floating-action-button point of the adaptive grid. -/
def gridFab (w h : Nat) : UIElement :=
  { centerX := (w : Int) - 80, centerY := (h : Int) - 200,
    elementType := "fab", signature := "grid_fab", priority := 20 }

/-- The points of the adaptive grid before the floating-action-button point. -/
def gridFront (w h : Nat) : List UIElement :=
  [ { centerX := 60, centerY := 100,
      elementType := "toolbar_left", signature := "grid_toolbar_left", priority := 15 },
    { centerX := (w : Int) - 60, centerY := 100,
      elementType := "toolbar_right", signature := "grid_toolbar_right", priority := 15 } ]
  ++ (List.range' 1 5).map (gridNavPoint w h)
  ++ (List.range 5).flatMap (fun row => (List.range 3).map (fun col => gridPoint w h row col))

/-- A clickable 100x100 element in the bottom region of a 1000x1920 screen,
centred at (x, 1850). -/
def bottomElem (x : Int) : UIElement :=
  { className := "android.widget.FrameLayout", clickable := true,
    centerX := x, centerY := 1850, width := some 100, height := some 100 }

/-- The five bottom-region elements of the example, in document order. -/
def fiveBottomElems : List UIElement :=
  [bottomElem 500, bottomElem 100, bottomElem 900, bottomElem 300, bottomElem 700]

/-- Two bottom-region elements 10 pixels apart. -/
def twoCloseElems : List UIElement := [bottomElem 500, bottomElem 510]

/-- The text contains the pattern `[x1,y1][x2,y2]` of four non-empty runs of
decimal digits. -/
def HasBoundsPattern (s : List Char) : Prop :=
  ∃ pre d1 d2 d3 d4 post,
    d1 ≠ [] ∧ d2 ≠ [] ∧ d3 ≠ [] ∧ d4 ≠ [] ∧
    (∀ c ∈ d1 ++ d2 ++ d3 ++ d4, isJsDigit c = true) ∧
    s = pre ++ '[' :: (d1 ++ ',' :: (d2 ++ ']' :: '[' :: (d3 ++ ',' :: (d4 ++ ']' :: post))))

/-- A dump with one node of each kind of bad bounds and one good node. -/
def badBoundsDump : String :=
  "<node clickable=\"true\"/><node clickable=\"true\" bounds=\"[a,b][c,d]\"/><node clickable=\"true\" bounds=\"[-5,0][100,100]\"/><node clickable=\"true\" bounds=\"[300,200][100,260]\"/><node clickable=\"true\" bounds=\"[100,200][105,260]\"/><node clickable=\"true\" bounds=\"[0,0][10,10]\"/>"

/-- The attributes of a plain container of 60x50 pixels, whose area is 3000. -/
def containerOfArea3000 : Attrs :=
  [("class", "android.view.ViewGroup"), ("bounds", "[0,0][60,50]")]

/-- The attributes of a plain container of 100x100 pixels. -/
def containerOfArea10000 : Attrs :=
  [("class", "android.widget.FrameLayout"), ("bounds", "[0,0][100,100]")]

/-- The node has no capability flag set, no NAF marker, and a class name that
contains `ViewGroup` or `Layout` but none of the interactive widget names. -/
def isPlainContainer (attrs : Attrs) : Prop :=
  attrIsTrue attrs "clickable" = false ∧ attrIsTrue attrs "checkable" = false ∧
  attrIsTrue attrs "scrollable" = false ∧ attrIsTrue attrs "long-clickable" = false ∧
  attrIsTrue attrs "focusable" = false ∧ attrIsTrue attrs "NAF" = false ∧
  includesAny (attrOrEmpty attrs "class") actionableClasses = false ∧
  (includes (attrOrEmpty attrs "class") "ViewGroup" = true ∨
    includes (attrOrEmpty attrs "class") "Layout" = true)

instance isPlainContainer_decidable : DecidablePred isPlainContainer := fun attrs => by
  unfold isPlainContainer
  infer_instance

/-- Standard escaping of one character of an attribute value. -/
def escapeChar (c : Char) : List Char :=
  if c = '&' then "&amp;".data
  else if c = '<' then "&lt;".data
  else if c = '>' then "&gt;".data
  else if c = '"' then "&quot;".data
  else if c = '\n' then "&#10;".data
  else if c = '\r' then "&#13;".data
  else [c]

/-- Standard escaping of a string: `&`, `<`, `>`, the double quote, newline and
carriage return are replaced by their entities. -/
def escapeEntities (s : String) : String := ⟨s.data.flatMap escapeChar⟩

/-- The attribute text `text="e"` where `e` is the escaped form of `s`. -/
def textAttribute (s : String) : String := "text=\"" ++ escapeEntities s ++ "\""

/-- The keyword groups of the edit-field rule, in the order they are tested,
each with the input kind it gives. -/
def inputKeywordGroups : List (String × List String) :=
  [("input_search", ["search", "검색"]), ("input_email", ["email", "이메일"]),
   ("input_password", ["password", "비밀번호"]), ("input_phone", ["phone", "전화"]),
   ("input_message", ["message", "메시지"]), ("input_comment", ["comment", "댓글"]),
   ("input_name", ["name", "이름"])]

/-- The input kind of the first keyword group that occurs in `combined`, and
`input_text` when none occurs. -/
def firstInputKind (combined : String) : String :=
  match inputKeywordGroups.find? (fun g => includesAny combined g.2) with
  | some g => g.1
  | none => "input_text"

/-- The lower-cased class name contains `edittext` or `autocomplete`. -/
def isEditFieldClass (e : UIElement) : Prop :=
  includes (toLowerCase e.className) "edittext" = true ∨
    includes (toLowerCase e.className) "autocomplete" = true

instance isEditFieldClass_decidable : DecidablePred isEditFieldClass := fun e => by
  unfold isEditFieldClass
  infer_instance

/-- An edit field whose hint names both a password and an email. -/
def emailPasswordField : UIElement :=
  { className := "android.widget.EditText", text := "Password for your Email",
    centerX := 540, centerY := 900 }

/-- None of the classifier rules that precede the custom-input rule matches the
element: it is no edit field, no button, no navigation item, no toggle, not
scrollable and no web view. -/
def noEarlierRule (e : UIElement) : Prop :=
  includes (toLowerCase e.className) "edittext" = false ∧
  includes (toLowerCase e.className) "autocomplete" = false ∧
  includes (toLowerCase e.className) "button" = false ∧
  includes (toLowerCase e.resourceId) "tab" = false ∧
  includes (toLowerCase e.resourceId) "nav" = false ∧
  includes (toLowerCase e.resourceId) "bottom" = false ∧
  includes (toLowerCase e.className) "bottomnavigation" = false ∧
  includes (toLowerCase e.className) "checkbox" = false ∧
  includes (toLowerCase e.className) "radio" = false ∧
  includes (toLowerCase e.className) "switch" = false ∧
  includes (toLowerCase e.className) "toggle" = false ∧
  e.scrollable = false ∧
  includes (toLowerCase e.className) "webview" = false

instance noEarlierRule_decidable : DecidablePred noEarlierRule := fun e => by
  unfold noEarlierRule
  infer_instance

/-- The input-like keywords of the custom-input rule. -/
def inputLikeKeywords : List String :=
  ["comment", "댓글", "message", "메시지", "post", "게시", "입력", "쓰기", "write", "type"]

/-- The lower-cased text, description or resource id of the element contains
an input-like keyword. -/
def hasInputLikeKeyword (e : UIElement) : Prop :=
  ∃ kw ∈ inputLikeKeywords, includes (toLowerCase e.text) kw = true ∨
    includes (toLowerCase e.desc) kw = true ∨ includes (toLowerCase e.resourceId) kw = true

instance hasInputLikeKeyword_decidable : DecidablePred hasInputLikeKeyword := fun e => by
  unfold hasInputLikeKeyword
  infer_instance

/-- A focusable, not clickable plain view whose text invites to write a
comment. -/
def commentBox : UIElement :=
  { className := "android.view.View", text := "Write a comment...", focusable := true,
    centerX := 540, centerY := 1000, width := some 900, height := some 120 }

/-- An element that collects every bonus on a screen of height 220: a
navigation item with the text `Send photo` and the NAF marker, centred at
y = 190. -/
def everyBonusElem : UIElement :=
  { className := "android.view.View", text := "Send photo", resourceId := "tab_send",
    NAF := true, clickable := true, centerX := 100, centerY := 190,
    elementType := "navigation" }

/-- An element whose type is the inherited property name `constructor`, with
no text, centred at (0, 500). -/
def constructorElem : UIElement := { centerX := 0, centerY := 500, elementType := "constructor" }

/-- A submit button and a navigation item that differ in their type only, with
no text, centred at (0, 500). -/
def plainSubmitButton : UIElement := { centerX := 0, centerY := 500, elementType := "button_submit" }

/-- The navigation item of the pair. -/
def plainNavigationItem : UIElement := { centerX := 0, centerY := 500, elementType := "navigation" }

/-- The centre of `existing` is fewer than 40 pixels from the centre of
`newElem` on both the x and the y axis. -/
def isNear (existing newElem : UIElement) : Prop :=
  (existing.centerX - newElem.centerX).natAbs < 40 ∧
  (existing.centerY - newElem.centerY).natAbs < 40

/-- A base element and three additions: the first addition is near the base
element, the second is far from it, the third is near the second. -/
def mergeBase : List UIElement := [{ centerX := 100, centerY := 100 }]

/-- The additions of the merge example. -/
def mergeAdditions : List UIElement :=
  [{ centerX := 120, centerY := 90 }, { centerX := 300, centerY := 100 },
   { centerX := 310, centerY := 130 }]

instance isNear_decidable (a b : UIElement) : Decidable (isNear a b) := by
  unfold isNear
  infer_instance

/-- The lists returned by successive calls of `getElements`, the call number
`i` made at the time and with the stage outcomes of the entry number `i`. -/
def MultiLayerUIDetector.callSequence (d : MultiLayerUIDetector) :
    List (Int × StageOutcomes) → List (List UIElement)
  | [] => []
  | (now, o) :: rest => (d.getElements now o).1 :: (d.getElements now o).2.callSequence rest

/-- The list is sorted by descending priority: each element's priority is
greater than or equal to the priority of every later element. -/
def SortedByPriorityDesc (xs : List UIElement) : Prop :=
  xs.Pairwise (fun a b => a.priority ≥ b.priority)

/-- Three parsed-like elements of priorities 5, 40 and 12. -/
def unsortedElems : List UIElement :=
  [{ centerX := 100, centerY := 100, priority := 5 },
   { centerX := 300, centerY := 300, priority := 40 },
   { centerX := 500, centerY := 500, priority := 12 }]

/-- Stage outcomes where the hierarchy dump gives `unsortedElems` and the other
sources give nothing. -/
def threeElementOutcomes : StageOutcomes :=
  { uiAutomator := some unsortedElems, dumpsys := none, vision := true, cv := [] }

/-- Stage outcomes of a total detection failure: the hierarchy dump and the
window dump throw and the vision classifier finds nothing. -/
def failedOutcomes : StageOutcomes :=
  { uiAutomator := none, dumpsys := none, vision := true, cv := [] }

/-- The element sets none of the fields that `isLikelyClickable` looks at: no
class, text, description or resource id, not clickable, not focusable, and a
type that does not start with `input_`. -/
def isBareElement (e : UIElement) : Prop :=
  e.className = "" ∧ e.text = "" ∧ e.desc = "" ∧ e.resourceId = "" ∧
  e.clickable = false ∧ e.focusable = false ∧
  startsWith e.elementType.data "input_".data = false

/-- The left toolbar point of the adaptive grid. -/
def gridToolbarLeft : UIElement :=
  { centerX := 60, centerY := 100,
    elementType := "toolbar_left", signature := "grid_toolbar_left", priority := 15 }

/-- One clickable element in the bottom region of a 1000x1920 screen. -/
def oneBottomElem : List UIElement := [bottomElem 500]

/-! ## Smart explorer: screen visits (`updateScreenState`) -/

/-- The constant `CONFIG.MAX_SAME_SCREEN`. -/
def MAX_SAME_SCREEN : Nat := 5

/-- The call `set.add(x)` on a set kept in insertion order. -/
def setAdd (set : List String) (x : String) : List String :=
  if set.contains x then set else set ++ [x]

/-- The call `map.set(key, value)` on a map kept in insertion order: the value
of an existing key is replaced in place, a new key is appended. -/
def mapSet {β : Type} (m : List (String × β)) (key : String) (value : β) : List (String × β) :=
  if (m.lookup key).isSome then m.map (fun kv => if kv.1 = key then (kv.1, value) else kv)
  else m ++ [(key, value)]

/-- The method `updateScreenState(elements)`: the returned flag and the
explorer afterwards. -/
def SmartExplorer.updateScreenState (shortHash : String → String) (s : SmartExplorer)
    (elements : List UIElement) : Bool × SmartExplorer :=
  let newHash := computeScreenHash shortHash s.currentActivity elements
  if newHash = s.lastScreenHash then
    (decide (s.sameScreenCount + 1 > MAX_SAME_SCREEN),
     { s with sameScreenCount := s.sameScreenCount + 1 })
  else
    let transitions :=
      if !s.lastScreenHash.data.isEmpty && decide (s.lastScreenHash ≠ newHash)
      then s.coverageTransitions + 1 else s.coverageTransitions
    let known := (s.screenVisits.lookup newHash).isSome
    let created := if known then s.screenVisits else mapSet s.screenVisits newHash ⟨0⟩
    let screens := if known then s.coverageScreens else setAdd s.coverageScreens newHash
    let counted :=
      match created.lookup newHash with
      | some visit => mapSet created newHash ⟨visit.count + 1⟩
      | none => created
    (decide (0 > MAX_SAME_SCREEN),
     { s with
       coverageTransitions := transitions
       lastScreenHash := newHash
       currentScreen := newHash
       sameScreenCount := 0
       lastHashForTimeout := newHash
       screenVisits := counted
       coverageScreens := screens })

/-! ## Notions and inputs used in the statements on screen visits -/

/-- One observation of the screen: the activity in the foreground, which
`getCurrentState` has stored in `currentActivity`, and the elements given to
`updateScreenState`. -/
structure Observation where
  activity : String
  elements : List UIElement

/-- The hash of an observation. -/
def Observation.hash (shortHash : String → String) (o : Observation) : String :=
  computeScreenHash shortHash o.activity o.elements

/-- The explorer after one observation. -/
def SmartExplorer.observe (shortHash : String → String) (s : SmartExplorer) (o : Observation) :
    SmartExplorer :=
  (({ s with currentActivity := o.activity }).updateScreenState shortHash o.elements).2

/-- The explorer after a sequence of observations. -/
def SmartExplorer.observeAll (shortHash : String → String) (s : SmartExplorer)
    (obs : List Observation) : SmartExplorer :=
  obs.foldl (SmartExplorer.observe shortHash) s

/-- The visit count stored for a screen hash, 0 when the map has no entry. -/
def SmartExplorer.visitCount (s : SmartExplorer) (hash : String) : Nat :=
  ((s.screenVisits.lookup hash).map (fun v => v.count)).getD 0

/-- The number of hashes of a sequence that equal `hash` and do not directly
follow an equal hash; `prev` is the hash before the sequence, if there is one. -/
def arrivals (hash : String) : Option String → List String → Nat
  | _, [] => 0
  | prev, h :: hs => (if h = hash ∧ prev ≠ some h then 1 else 0) + arrivals hash (some h) hs

/-- A stand-in for the md5 prefix in the examples: the first 8 characters after
a marker, never empty. -/
def sampleHash (sig : String) : String := ⟨'h' :: sig.data.take 7⟩

/-- An observation of one element at (150, 250) on the activity `com.app/.Main`. -/
def mainObservation : Observation :=
  { activity := "com.app/.Main", elements := [{ centerX := 150, centerY := 250 }] }

/-- An observation of one element at (450, 250) on the activity `com.app/.Menu`. -/
def menuObservation : Observation :=
  { activity := "com.app/.Menu", elements := [{ centerX := 450, centerY := 250 }] }

/-! ## Smart explorer: foreground state (`getCurrentState`) -/

/-- The object `{ state, activity, package }` that `getCurrentState` returns. -/
structure AppState where
  state : String
  activity : String
  package : String
deriving DecidableEq, Repr

/-- The expression `fullActivity.split('/')[0]`: the text before the first
slash. -/
def firstSegment (fullActivity : String) : String :=
  ⟨fullActivity.data.takeWhile (fun c => c != '/')⟩

/-- The part `\s+([^\s}]+)\s+` of the two patterns of `getCurrentState`,
matched at the start of a text: one white-space character, the longest run of
characters that are not white space, then white space. -/
def spaceThenToken : List Char → Option (List Char)
  | [] => none
  | c :: cs =>
    if isJsSpace c then
      let token := cs.takeWhile (fun d => !isJsSpace d)
      match cs.drop token.length with
      | d :: _ => if !token.isEmpty && isJsSpace d then some token else none
      | [] => none
    else none

/-- The part `[^}]*\s+([^\s}]+)\s+` on the text `inside` between an opening
brace and the next closing brace: the greedy `[^}]*` leaves the last run of
characters that stands between two white-space characters to the group. -/
def lastToken : List Char → Option (List Char)
  | [] => none
  | c :: cs =>
    match lastToken cs with
    | some token => some token
    | none => spaceThenToken (c :: cs)

/-- The pattern `key[^{]*\{[^}]*\s+([^\s}]+)\s+` matched at the start of a
text: the captured group. -/
def matchActivityAt (key : List Char) (s : List Char) : Option (List Char) :=
  if startsWith s key then
    match (s.drop key.length).dropWhile (fun c => c != '{') with
    | _ :: inside => lastToken (inside.takeWhile (fun c => c != '}'))
    | [] => none
  else none

/-- The call `out.match(/key[^{]*\{[^}]*\s+([^\s}]+)\s+/)`: the group of
the leftmost match. -/
def searchActivity (key : List Char) : List Char → Option (List Char)
  | [] => none
  | c :: cs =>
    match matchActivityAt key (c :: cs) with
    | some token => some token
    | none => searchActivity key cs

/-- The local `match[1]` of `getCurrentState`: the group of the pattern on
`mResumedActivity`, or else of the pattern on `mCurrentFocus`. -/
def capturedActivity (out : String) : Option String :=
  match searchActivity "mResumedActivity".data out.data with
  | some token => some ⟨token⟩
  | none => (searchActivity "mCurrentFocus".data out.data).map (fun token => ⟨token⟩)

/-- The classification of `getCurrentState` once the activity in the
foreground is captured: the returned object and the explorer afterwards;
`none` stands for no match. -/
def SmartExplorer.stateOfActivity (s : SmartExplorer) (captured : Option String) :
    AppState × SmartExplorer :=
  match captured with
  | some fullActivity =>
    let pkg := firstSegment fullActivity
    if includes pkg "launcher" || includes pkg "home" then
      ({ state := "LAUNCHER", activity := fullActivity, package := pkg }, s)
    else if !includes fullActivity s.pkg then
      ({ state := "OUT_OF_APP", activity := fullActivity, package := pkg }, s)
    else
      ({ state := "IN_APP", activity := fullActivity, package := pkg },
       { s with
         currentActivity := fullActivity
         coverageActivities := setAdd s.coverageActivities fullActivity })
  | none => ({ state := "UNKNOWN", activity := "unknown", package := "unknown" }, s)

/-- The method `getCurrentState()`: the returned object and the explorer
afterwards.  `out` is the output of `dumpsys activity activities`, and `none`
when the device call fails. -/
def SmartExplorer.getCurrentState (s : SmartExplorer) (out : Option String) :
    AppState × SmartExplorer :=
  s.stateOfActivity (out.bind capturedActivity)

/-- What an iteration of `explore` does with the state it has read. -/
inductive StateBranch where
  | relaunchFromLauncher
  | returnToApp
  | proceed
deriving DecidableEq, Repr

/-- The two state tests at the head of an iteration of `explore`: on `LAUNCHER`
and on `OUT_OF_APP` the app is relaunched and the iteration ends, with no action
counted. -/
def stateBranch (st : AppState) : StateBranch :=
  if st.state = "LAUNCHER" then StateBranch.relaunchFromLauncher
  else if st.state = "OUT_OF_APP" then StateBranch.returnToApp
  else StateBranch.proceed

/-! ## Notions and inputs used in the statements on the foreground state -/

/-- The activity string `P/A` of the package `P` and the activity `A`. -/
def activityOf (pkg activity : String) : String := pkg ++ "/" ++ activity

/-! ## Exploration policy: escape, periodic scroll and target choice -/

/-- The closure `getCoordKey(x, y)`: the coordinates rounded down to a multiple
of 10. -/
def getCoordKey (x y : Int) : String :=
  intToString (x / 10 * 10) ++ "_" ++ intToString (y / 10 * 10)

/-- The list `unvisited`: the candidates whose coordinate key is not yet in
`globalClickedCoords`. -/
def unvisitedOf (s : SmartExplorer) (clickables : List UIElement) : List UIElement :=
  clickables.filter (fun e => !s.globalClickedCoords.contains (getCoordKey e.centerX e.centerY))

/-- What an iteration of `explore` does to the outside. -/
inductive ExploreEffect where
  | adb (c : DeviceCommand)
  | inputText (text : String)
  | relaunchWithFrida (reason : String)
  | checkFridaConnection
deriving DecidableEq, Repr

/-- The binary64 value of `0.1 + navIdx * 0.2` for `navIdx` from 0 to 4: 0.1,
0.30000000000000004, 0.5, 0.7000000000000001 and 0.9. -/
def navRatio : Fin 5 → F64
  | 0 => c01
  | 1 => ⟨1351079888211149, 52⟩
  | 2 => c05
  | 3 => ⟨6305039478318695, 53⟩
  | 4 => c09

/-- The fields of a `UniversalAutomation` that the modelled part of `explore`
reads or writes. -/
structure UniversalAutomation where
  explorer : SmartExplorer
  totalActions : Nat := 0
deriving DecidableEq, Repr

/-- The values drawn from `Math.random()` in one iteration of `explore`:
`navIdx` is `Math.floor(Math.random() * 5)`, `swipeUp` is
`Math.random() < 0.5`, and `navPick`, `anyPick` are the indices
`Math.floor(Math.random() * xs.length)` into `navElements` and `unvisited`. -/
structure Randoms where
  navIdx : Fin 5
  swipeUp : Bool
  navPick : Nat
  anyPick : Nat
deriving DecidableEq, Repr

/-- The branch `unvisited.length === 0` of `explore` up to `totalActions++`,
every device call succeeding: the effects and the automation afterwards.
`out` is the device output read by the `getCurrentState` call of the first
remedy. -/
def escapeStep (screen : ScreenSize) (navIdx : Fin 5) (out : Option String)
    (a : UniversalAutomation) : List ExploreEffect × UniversalAutomation :=
  let count := a.explorer.noNewElementCount + 1
  let s1 := { a.explorer with noNewElementCount := count }
  if count ≥ 5 then
    let checked := s1.getCurrentState out
    (List.replicate 5 (ExploreEffect.adb (DeviceCommand.keyevent "KEYCODE_BACK"))
       ++ (if checked.1.state ≠ "IN_APP" then [ExploreEffect.relaunchWithFrida "stuck_recovery"]
           else [])
       ++ [ExploreEffect.checkFridaConnection],
     { a with explorer := { checked.2 with globalClickedCoords := [], noNewElementCount := 0 } })
  else if count ≥ 3 then
    ([ExploreEffect.adb (DeviceCommand.tap (floorMul screen.width (navRatio navIdx))
        ((screen.height : Int) - 50))],
     { a with explorer :=
        { s1 with globalClickedCoords :=
            if s1.globalClickedCoords.length > 30 then lastN 30 s1.globalClickedCoords
            else s1.globalClickedCoords } })
  else if count = 1 then
    ([ExploreEffect.adb (DeviceCommand.swipe 540 1500 540 500 300)], { a with explorer := s1 })
  else
    ([ExploreEffect.adb (DeviceCommand.keyevent "KEYCODE_BACK")], { a with explorer := s1 })

/-- The test `v === 'true'` of the scroll filter on the boolean (or missing)
property `scrollable` of an element: a strict comparison of a boolean or of
`undefined` with a string is false. -/
def strictEqualsTrueString (_scrollable : Bool) : Bool := false

/-- The filter that builds the list `scrollable` of the periodic scroll step. -/
def isScrollContainer (e : UIElement) : Bool :=
  strictEqualsTrueString e.scrollable ||
  (!e.className.data.isEmpty &&
    (includes e.className "RecyclerView" || includes e.className "ScrollView" ||
     includes e.className "ListView"))

/-- The filter that builds the list `inputs` of the target choice. -/
def isInputTarget (e : UIElement) : Bool :=
  if !e.className.data.isEmpty &&
      (includes e.className "EditText" || includes e.className "AutoComplete" ||
       includes e.className "SearchView") then true
  else if !e.elementType.data.isEmpty && startsWith e.elementType.data "input_".data then true
  else if e.focusable then
    includesAny (toLowerCase (joinThree e.text e.desc e.resourceId))
      ["comment", "댓글", "write", "작성", "message", "메시지", "post", "게시", "type", "입력",
       "search", "검색"]
  else false

/-- The choice of `target` among the unvisited candidates: a random element of
the bottom 15% every fifth action, else the first input, else a random
element. -/
def chooseTarget (screen : ScreenSize) (totalActions : Nat) (rnd : Randoms)
    (unvisited : List UIElement) : Option UIElement :=
  let navElements := unvisited.filter (fun e => gtMul e.centerY screen.height c085)
  let fromNav :=
    if !navElements.isEmpty && totalActions % 5 == 0 then navElements.get? rnd.navPick else none
  match fromNav with
  | some target => some target
  | none =>
    match (unvisited.filter isInputTarget).head? with
    | some target => some target
    | none => unvisited.get? rnd.anyPick

/-- The periodic return to the home screen of the app, the branch
`totalActions > 0 && totalActions % 30 === 0` of `explore`, every device call
succeeding: the effects and the automation afterwards.  `out` is the device
output read by its `getCurrentState` call. -/
def homeReturn (out : Option String) (a : UniversalAutomation) :
    List ExploreEffect × UniversalAutomation :=
  let checked := a.explorer.getCurrentState out
  (List.replicate 5 (ExploreEffect.adb (DeviceCommand.keyevent "KEYCODE_BACK"))
     ++ (if checked.1.state ≠ "IN_APP" then [ExploreEffect.relaunchWithFrida "home_return"]
         else [])
     ++ [ExploreEffect.checkFridaConnection],
   { explorer := { checked.2 with globalClickedCoords := [], noNewElementCount := 0 }
     totalActions := a.totalActions + 1 })

/-- How the part of an iteration of `explore` from the detected elements to the
choice of `target` ends. -/
inductive StageOutcome where
  | returnedHome (effects : List ExploreEffect)
  | wentBack (effects : List ExploreEffect)
  | escaped (effects : List ExploreEffect)
  | scrolled (up : Bool)
  | chose (target : UIElement)
  | noTarget
deriving DecidableEq, Repr

/-- The part of an iteration of `explore` from the detected list `elements` to
the recording of the chosen target, every device call succeeding: the periodic
return to the home screen every 30 actions, the exit on an empty candidate
list, which presses BACK, the escape ladder, the periodic scroll and the
choice of the target.  `clickables` is the list of candidates that the
iteration builds from `elements`, and `out` the device output read by the
`getCurrentState` call that the iteration may make. -/
def selectionStage (screen : ScreenSize) (rnd : Randoms) (out : Option String)
    (a : UniversalAutomation) (elements clickables : List UIElement) :
    StageOutcome × UniversalAutomation :=
  if decide (a.totalActions > 0) && a.totalActions % 30 == 0 then
    (StageOutcome.returnedHome (homeReturn out a).1, (homeReturn out a).2)
  else if clickables.isEmpty then
    (StageOutcome.wentBack [ExploreEffect.adb (DeviceCommand.keyevent "KEYCODE_BACK")],
     { a with totalActions := a.totalActions + 1 })
  else
    let unvisited := unvisitedOf a.explorer clickables
    if unvisited.isEmpty then
      let escape := escapeStep screen rnd.navIdx out a
      (StageOutcome.escaped escape.1, { escape.2 with totalActions := escape.2.totalActions + 1 })
    else
      let a1 := { a with explorer := { a.explorer with noNewElementCount := 0 } }
      if decide (a1.totalActions > 0) && a1.totalActions % 5 == 0 &&
          !(elements.filter isScrollContainer).isEmpty then
        (StageOutcome.scrolled rnd.swipeUp, { a1 with totalActions := a1.totalActions + 1 })
      else
        match chooseTarget screen a1.totalActions rnd unvisited with
        | some target =>
          let coordKey := getCoordKey target.centerX target.centerY
          let clicked := setAdd a1.explorer.globalClickedCoords coordKey
          (StageOutcome.chose target,
           { a1 with explorer := { a1.explorer with globalClickedCoords := clicked } })
        | none => (StageOutcome.noTarget, a1)

/-- The test `isInputField` on the chosen target. -/
def isInputField (target : UIElement) : Bool :=
  (!target.className.data.isEmpty &&
    (includes target.className "EditText" || includes target.className "AutoComplete" ||
     includes target.className "SearchView")) ||
  (!target.elementType.data.isEmpty && startsWith target.elementType.data "input_".data) ||
  (target.focusable &&
    includesAny (toLowerCase (joinThree target.text target.desc target.resourceId))
      ["comment", "댓글", "write", "작성", "message", "메시지", "post", "게시", "search", "검색"])

/-- The submit button `submitBtn` that `explore` looks for after typing into an
input field: the first candidate to the right of the target, at its height,
that is clickable. -/
def submitButtonOf (clickables : List UIElement) (target : UIElement) : Option UIElement :=
  clickables.find? (fun e =>
    decide (e.centerX > target.centerX) &&
    decide ((e.centerY - target.centerY).natAbs < 150) && e.clickable)

/-- The taps and key presses that `explore` sends for the chosen target, every
device call succeeding. -/
def tapTarget (screen : ScreenSize) (clickables : List UIElement) (target : UIElement) :
    List ExploreEffect :=
  if isInputField target then
    [ExploreEffect.adb (DeviceCommand.tap target.centerX target.centerY),
     ExploreEffect.inputText "test123"] ++
    (match submitButtonOf clickables target with
     | some submitBtn => [ExploreEffect.adb (DeviceCommand.tap submitBtn.centerX submitBtn.centerY)]
     | none =>
       [ExploreEffect.adb (DeviceCommand.tap ((screen.width : Int) - 80) 120),
        ExploreEffect.adb (DeviceCommand.keyevent "66")])
  else [ExploreEffect.adb (DeviceCommand.tap target.centerX target.centerY)]

/-! ## Notions and inputs used in the statements on the exploration policy -/

/-- A clickable element centred at (x, y). -/
def clickableAt (x y : Int) : UIElement := { clickable := true, centerX := x, centerY := y }

/-- The coordinate keys `0_0`, `10_0`, ..., `310_0`: 32 keys in the order they
were added. -/
def manyCoords : List String := (List.range 32).map (fun i => getCoordKey (10 * (i : Int)) 0)

/-- An automation whose explorer has counted `count` iterations without an
untried element and holds the tried coordinates `coords`. -/
def automationWith (count : Nat) (coords : List String) : UniversalAutomation :=
  { explorer :=
      { SmartExplorer.fresh "com.app" with
        noNewElementCount := count, globalClickedCoords := coords } }

/-- Sample random draws. -/
def sampleRandoms : Randoms := { navIdx := 3, swipeUp := true, navPick := 0, anyPick := 0 }

/-- Consecutive runs of the escape branch of `explore`: the automation after
the branch has run once for each pair of a random navigation index and a
device output. -/
def escapeRun (screen : ScreenSize) :
    List (Fin 5 × Option String) → UniversalAutomation → UniversalAutomation
  | [], a => a
  | step :: rest, a => escapeRun screen rest (escapeStep screen step.1 step.2 a).2

/-! ## Notions and inputs used in the statements on the order of stage 1 -/

/-- The element is of a button class: its lower-cased class name contains
`button`. -/
def isButtonClass (e : UIElement) : Prop := includes (toLowerCase e.className) "button" = true

instance isButtonClass_decidable : DecidablePred isButtonClass := fun e => by
  unfold isButtonClass
  infer_instance

/-- A screen with a clickable `OK` button and a clickable `Send` text view. -/
def okSendDump : String :=
  "<hierarchy rotation=\"0\"><node text=\"OK\" class=\"android.widget.Button\" clickable=\"true\" bounds=\"[100,600][300,700]\"/><node text=\"Send\" class=\"android.widget.TextView\" clickable=\"true\" bounds=\"[700,600][900,700]\"/></hierarchy>"

/-- A screen with a clickable `Send` text view before a clickable `Send`
button. -/
def sendSendDump : String :=
  "<hierarchy rotation=\"0\"><node text=\"Send\" class=\"android.widget.TextView\" clickable=\"true\" bounds=\"[100,600][300,700]\"/><node text=\"Send now\" class=\"android.widget.Button\" clickable=\"true\" bounds=\"[700,600][900,700]\"/></hierarchy>"

/-! ## Notions and inputs used in the statements on the blacklist -/

/-- The lower-cased text, description or resource id of the element matches a
blacklist pattern. -/
def isBlacklisted (e : UIElement) : Prop :=
  ∃ p ∈ BLACKLIST_PATTERNS, p.test (toLowerCase e.text) = true ∨
    p.test (toLowerCase e.desc) = true ∨ p.test (toLowerCase e.resourceId) = true

instance isBlacklisted_decidable : DecidablePred isBlacklisted := fun e => by
  unfold isBlacklisted
  infer_instance

/-- A clickable, focusable button labelled `Privacy Policy` with a forensic
keyword in its resource id. -/
def privacyButton : UIElement :=
  { className := "android.widget.Button", text := "Privacy Policy",
    resourceId := "com.app:id/message_settings", clickable := true, focusable := true,
    centerX := 800, centerY := 600, width := some 200, height := some 100 }

/-- An edit field labelled `Write a comment` to the left of the button. -/
def commentField : UIElement :=
  { className := "android.widget.EditText", text := "Write a comment", clickable := true,
    focusable := true, centerX := 300, centerY := 600, width := some 400, height := some 100,
    elementType := "input_comment" }

/-! ## Notions and inputs used in the statements on the periodic scroll -/

/-- A screen with one node: a scrollable frame. -/
def scrollableFrameDump : String :=
  "<hierarchy rotation=\"0\"><node text=\"\" class=\"android.widget.FrameLayout\" scrollable=\"true\" clickable=\"true\" bounds=\"[0,200][1080,1700]\"/></hierarchy>"

/-- A screen with one node: a recycler view whose `scrollable` is false. -/
def recyclerDump : String :=
  "<hierarchy rotation=\"0\"><node text=\"\" class=\"androidx.recyclerview.widget.RecyclerView\" scrollable=\"false\" clickable=\"true\" bounds=\"[0,200][1080,1700]\"/></hierarchy>"

/-- The class name contains `RecyclerView`, `ScrollView` or `ListView`. -/
def hasScrollClass (e : UIElement) : Bool :=
  includes e.className "RecyclerView" || includes e.className "ScrollView" ||
  includes e.className "ListView"

/-! ## Instrumentation agent: path filter (`isValidPath`) -/

/-- The UTF-16 code units of a string, on which a regular expression without
the flag `u` works. -/
def utf16Units (s : String) : List Nat :=
  s.data.flatMap (fun c =>
    if c.toNat < 65536 then [c.toNat]
    else [55296 + (c.toNat - 65536) / 1024, 56320 + (c.toNat - 65536) % 1024])

/-- Whether a code unit is matched by `\s`. -/
def isSpaceUnit (u : Nat) : Bool := isJsSpace (Char.ofNat u)

/-- The two shapes of the patterns of `CONFIG.PATH_PATTERNS`: a directory
literal followed by `[^\s]+`, and an extension literal followed by `$`. -/
inductive PathPattern where
  | directory (lit : String)
  | extension (lit : String)
deriving DecidableEq, Repr

/-- The length of the match of a pattern at the start of `rest`, the remainder
of the input, if there is one. -/
def PathPattern.matchLength (p : PathPattern) (rest : List Nat) : Option Nat :=
  match p with
  | PathPattern.directory lit =>
    if (utf16Units lit).isPrefixOf rest then
      let run := (rest.drop (utf16Units lit).length).takeWhile (fun u => !isSpaceUnit u)
      if run.isEmpty then none else some ((utf16Units lit).length + run.length)
    else none
  | PathPattern.extension lit =>
    if rest = utf16Units lit then some (utf16Units lit).length else none

/-- The search of `RegExpBuiltinExec`: the end index of the first match that
starts at index `i` or later, `rest` being the input from index `i` on. -/
def PathPattern.searchFrom (p : PathPattern) : Nat → List Nat → Option Nat
  | i, [] => (p.matchLength []).map (fun len => i + len)
  | i, u :: us =>
    match p.matchLength (u :: us) with
    | some len => some (i + len)
    | none => p.searchFrom (i + 1) us

/-- A regular expression object with the flag `g`: its pattern and its
property `lastIndex`. -/
structure PathRegex where
  pattern : PathPattern
  lastIndex : Nat := 0
deriving DecidableEq, Repr

/-- The call `pattern.test(str)` on a regular expression with the flag `g`: the
search starts at `lastIndex`; a match stores its end index in `lastIndex`, a
failure stores 0. -/
def PathRegex.test (r : PathRegex) (units : List Nat) : Bool × PathRegex :=
  if r.lastIndex > units.length then (false, { r with lastIndex := 0 })
  else
    match r.pattern.searchFrom r.lastIndex (units.drop r.lastIndex) with
    | some e => (true, { r with lastIndex := e })
    | none => (false, { r with lastIndex := 0 })

/-- The array `CONFIG.PATH_PATTERNS` when the agent is loaded. -/
def PATH_PATTERNS : List PathRegex :=
  [ { pattern := PathPattern.directory "/data/" },
    { pattern := PathPattern.directory "/storage/" },
    { pattern := PathPattern.directory "/sdcard/" },
    { pattern := PathPattern.directory "/android/" },
    { pattern := PathPattern.directory "/cache/" },
    { pattern := PathPattern.directory "/files/" },
    { pattern := PathPattern.directory "/databases/" },
    { pattern := PathPattern.directory "/shared_prefs/" },
    { pattern := PathPattern.directory "/Download/" },
    { pattern := PathPattern.directory "/DCIM/" },
    { pattern := PathPattern.directory "/Pictures/" },
    { pattern := PathPattern.directory "/Documents/" },
    { pattern := PathPattern.directory "/Android/data/" },
    { pattern := PathPattern.directory "/Android/media/" },
    { pattern := PathPattern.directory "/Android/obb/" },
    { pattern := PathPattern.extension ".db" },
    { pattern := PathPattern.extension ".sqlite" },
    { pattern := PathPattern.extension ".xml" },
    { pattern := PathPattern.extension ".json" },
    { pattern := PathPattern.extension ".jpg" },
    { pattern := PathPattern.extension ".png" },
    { pattern := PathPattern.extension ".mp4" },
    { pattern := PathPattern.extension ".txt" },
    { pattern := PathPattern.extension ".log" },
    { pattern := PathPattern.extension ".tmp" },
    { pattern := PathPattern.extension ".temp" },
    { pattern := PathPattern.extension ".cache" } ]

/-- The call `patterns.some(pattern => pattern.test(str))`: the patterns are
tested in order until one matches; the patterns tested have a new
`lastIndex`. -/
def someTest : List PathRegex → List Nat → Bool × List PathRegex
  | [], _ => (false, [])
  | r :: rest, units =>
    if (r.test units).1 then (true, (r.test units).2 :: rest)
    else ((someTest rest units).1, (r.test units).2 :: (someTest rest units).2)

/-- The function `isValidPath(str)` of the agent: the returned boolean and the
regular expressions of `CONFIG.PATH_PATTERNS` afterwards. -/
def isValidPath (patterns : List PathRegex) (str : String) : Bool × List PathRegex :=
  if str.data.isEmpty || decide (jsLength str < 4) || decide (jsLength str > 512) then
    (false, patterns)
  else someTest patterns (utf16Units str)

/-! ## Notions and inputs used in the statements on the path filter -/

/-- Some pattern of `CONFIG.PATH_PATTERNS` matches the string. -/
def matchesSomePattern (str : String) : Bool :=
  PATH_PATTERNS.any (fun r => (r.pattern.searchFrom 0 (utf16Units str)).isSome)

/-- The predicate that the claim gives for `isValidPath`. -/
def validPathSpec (str : String) : Bool :=
  decide (4 ≤ jsLength str ∧ jsLength str ≤ 512) && matchesSomePattern str

/-! ## Smart explorer: transitions (`recordTransition`) -/

/-- The method `recordTransition(element, toScreen, success)`. -/
def SmartExplorer.recordTransition (s : SmartExplorer) (element : UIElement) (toScreen : String)
    (success : Bool) : SmartExplorer :=
  let key := s.currentScreen ++ ":" ++ element.signature
  let created :=
    if (s.transitionGraph.lookup key).isSome then s.transitionGraph
    else mapSet s.transitionGraph key { destinations := [], leadsToNew := false }
  let graph :=
    match created.lookup key with
    | some entry =>
      if !entry.destinations.contains toScreen then
        mapSet created key
          { destinations := entry.destinations ++ [toScreen], leadsToNew := true }
      else created
    | none => created
  let started :=
    if (s.elementScores.lookup key).isSome then s.elementScores
    else mapSet s.elementScores key { attempts := 0, successes := 0, successRate := 0 }
  let scores :=
    match started.lookup key with
    | some stats =>
      let attempts := stats.attempts + 1
      let successes := if success then stats.successes + 1 else stats.successes
      mapSet started key
        { attempts := attempts, successes := successes
          successRate := (successes : ℚ) / (attempts : ℚ) }
    | none => started
  { s with transitionGraph := graph, elementScores := scores }

/-! ## Notions and inputs used in the statements on transitions -/

/-- One call of `recordTransition`: the value of `currentScreen` at the call
and the three arguments. -/
structure TransitionCall where
  screen : String
  element : UIElement
  toScreen : String
  success : Bool

/-- The explorer after a sequence of `recordTransition` calls. -/
def SmartExplorer.recordTransitions (s : SmartExplorer) (calls : List TransitionCall) :
    SmartExplorer :=
  calls.foldl (fun (s : SmartExplorer) (c : TransitionCall) =>
    ({ s with currentScreen := c.screen }).recordTransition c.element c.toScreen c.success) s

/-- The invariant of the transition graph. -/
def GraphInvariant (graph : List (String × TransitionEntry)) : Prop :=
  ∀ kv ∈ graph, kv.2.destinations ≠ [] ∧ kv.2.leadsToNew = true

/-- The invariant of the outcome statistics. -/
def ScoresInvariant (scores : List (String × ElementStats)) : Prop :=
  ∀ kv ∈ scores, 1 ≤ kv.2.attempts ∧ kv.2.successes ≤ kv.2.attempts ∧
    kv.2.successRate = (kv.2.successes : ℚ) / (kv.2.attempts : ℚ)

/-- A button with the signature `btn_ok`. -/
def okButton : UIElement := { centerX := 100, centerY := 100, signature := "btn_ok" }

/-- Three calls on the same element of the screen `s1`: to `s2` with success,
to `s2` without, to `s3` with success. -/
def threeTransitions : List TransitionCall :=
  [ { screen := "s1", element := okButton, toScreen := "s2", success := true },
    { screen := "s1", element := okButton, toScreen := "s2", success := false },
    { screen := "s1", element := okButton, toScreen := "s3", success := true } ]

/-! ## Smart explorer: action history (`recordAction`) -/

/-- The method `recordAction(action, element, result)`. -/
def SmartExplorer.recordAction (s : SmartExplorer) (action : String) (element : UIElement)
    (result : String) : SmartExplorer :=
  let record : ActionRecord :=
    { screen := s.currentScreen
      activity := s.currentActivity
      action := action
      element :=
        { type := element.elementType, signature := element.signature, text := element.text,
          desc := element.desc, x := element.centerX, y := element.centerY }
      result := result
      depth := s.depth }
  let s1 := { s with actionHistory := s.actionHistory ++ [record] }
  if result = "success" ∨ result = "sequence_complete" then { s1 with stuckCount := 0 } else s1

/-! ## Notions and inputs used in the statements on the stuck counter -/

/-- A call of one of the two methods that write the stuck counter. -/
inductive ExplorerCall where
  | recoverFromStuck
  | recordAction (action : String) (element : UIElement) (result : String)

/-- The explorer after one call, every device call succeeding. -/
def SmartExplorer.call (s : SmartExplorer) : ExplorerCall → SmartExplorer
  | ExplorerCall.recoverFromStuck => s.recoverFromStuck.2
  | ExplorerCall.recordAction action element result => s.recordAction action element result

/-- The explorer after a sequence of calls. -/
def SmartExplorer.callAll (s : SmartExplorer) (calls : List ExplorerCall) : SmartExplorer :=
  calls.foldl SmartExplorer.call s

/-- The stuck counter after each call of a sequence. -/
def SmartExplorer.stuckTrace (s : SmartExplorer) : List ExplorerCall → List Nat
  | [] => []
  | c :: cs => (s.call c).stuckCount :: (s.call c).stuckTrace cs

/-! ## Notions and inputs used in the statements on the device output -/

/-- The line of `dumpsys activity activities` that names the resumed activity,
for the activity string `fullActivity`. -/
def resumedDump (fullActivity : String) : String :=
  "mResumedActivity" ++ ": ActivityRecord" ++ "\x7b" ++ "8a1b2c3 u0" ++ " " ++ fullActivity
    ++ " t42" ++ "\x7d"

/-- The string has at least one character, no white space and no closing
brace: the shape of a component name in the device output. -/
def isComponentName (s : String) : Prop :=
  s.data ≠ [] ∧ ∀ c ∈ s.data, isJsSpace c = false ∧ c ≠ '}'

instance isComponentName_decidable : DecidablePred isComponentName := fun s => by
  unfold isComponentName
  infer_instance

/-! ## Theorems -/

/-- C1: with the default screen size 1080x1920, `parse` applied to the dump that
holds the single node with bounds `[100,200][300,260]`, class
`android.widget.EditText` and `clickable="true"` returns exactly one element;
its centre is (200, 230), its type is `input_text` and its priority is 35, the
base weight of `input_text`: the centre is neither in the top 200 pixels nor
below 85% of the screen height, so no position bonus applies. -/
theorem C1_single_edittext_node :
    (parse defaultScreenSize singleEditTextDump).map
        (fun e => (e.centerX, e.centerY, e.elementType, e.priority))
      = [(200, 230, "input_text", 35)]
    ∧ typeScore "input_text" = 35
    ∧ ¬ ((230 : Int) < 200)
    ∧ gtMul 230 defaultScreenSize.height c085 = false := by
  decide

/-! ### Decimal digits -/

theorem digitChar_spec : ∀ k, k < 10 →
    (Nat.digitChar k).toNat - 48 = k ∧ isJsDigit (Nat.digitChar k) = true := by
  decide

theorem digitsValue_nil (acc : Nat) : digitsValue acc [] = acc := rfl

theorem digitsValue_cons (acc : Nat) (c : Char) (cs : List Char) :
    digitsValue acc (c :: cs) = digitsValue (acc * 10 + (c.toNat - 48)) cs := rfl

theorem digitsValue_acc (l : List Char) : ∀ acc,
    digitsValue acc l = acc * 10 ^ l.length + digitsValue 0 l := by
  induction l with
  | nil => intro acc; rw [digitsValue_nil, digitsValue_nil]; simp
  | cons c cs ih =>
    intro acc
    rw [digitsValue_cons, digitsValue_cons, ih (acc * 10 + (c.toNat - 48)),
      ih (0 * 10 + (c.toNat - 48)), List.length_cons]
    ring

theorem digitsValue_toDigitsCore (fuel : Nat) : ∀ n ds, n < fuel →
    digitsValue 0 (Nat.toDigitsCore 10 fuel n ds) = n * 10 ^ ds.length + digitsValue 0 ds := by
  induction fuel with
  | zero => intro n ds h; omega
  | succ f ih =>
    intro n ds h
    have hd := (digitChar_spec (n % 10) (Nat.mod_lt _ (by decide))).1
    simp only [Nat.toDigitsCore]
    split
    · rename_i h0
      have hn : n % 10 = n := by omega
      rw [digitsValue_cons, digitsValue_acc, hd, hn]
      ring
    · rename_i h0
      rw [ih (n / 10) _ (by omega), digitsValue_cons, digitsValue_acc ds, hd, List.length_cons]
      have e : n * 10 ^ ds.length = (10 * (n / 10) + n % 10) * 10 ^ ds.length := by
        rw [Nat.div_add_mod n 10]
      rw [e]; ring

/-- Reading back the decimal digits of a number gives the number. -/
theorem parseInt_toDigits (n : Nat) : parseInt (Nat.toDigits 10 n) = n := by
  unfold parseInt Nat.toDigits
  rw [digitsValue_toDigitsCore (n + 1) n [] (by omega), digitsValue_nil]
  simp

theorem toDigitsCore_digits (fuel : Nat) : ∀ n ds c,
    c ∈ Nat.toDigitsCore 10 fuel n ds → isJsDigit c = true ∨ c ∈ ds := by
  induction fuel with
  | zero => intro n ds c h; exact Or.inr (by simpa [Nat.toDigitsCore] using h)
  | succ f ih =>
    intro n ds c h
    have hd := (digitChar_spec (n % 10) (Nat.mod_lt _ (by decide))).2
    simp only [Nat.toDigitsCore] at h
    split at h
    · rcases List.mem_cons.1 h with rfl | h
      · exact Or.inl hd
      · exact Or.inr h
    · rcases ih _ _ _ h with h | h
      · exact Or.inl h
      · rcases List.mem_cons.1 h with rfl | h
        · exact Or.inl hd
        · exact Or.inr h

theorem toDigits_digits (n : Nat) (c : Char) (h : c ∈ Nat.toDigits 10 n) :
    isJsDigit c = true := by
  rcases toDigitsCore_digits _ _ _ _ h with h | h
  · exact h
  · simp at h

theorem toDigitsCore_ne_nil (fuel : Nat) : ∀ n ds,
    0 < fuel → Nat.toDigitsCore 10 fuel n ds ≠ [] := by
  induction fuel with
  | zero => intro n ds h; omega
  | succ f ih =>
    intro n ds _
    simp only [Nat.toDigitsCore]
    split
    · simp
    · intro h
      have := congrArg List.length h
      rw [Nat.toDigitsCore_lens_eq] at this
      simp at this

theorem toDigits_ne_nil (n : Nat) : Nat.toDigits 10 n ≠ [] :=
  toDigitsCore_ne_nil _ _ _ (by omega)

/-- The decimal string of an integer is not empty, starts with a digit or a
minus sign, and holds no underscore. -/
theorem intToString_shape (z : Int) :
    (∃ c cs, (intToString z).data = c :: cs ∧ numStart c = true) ∧
    '_' ∉ (intToString z).data := by
  have key : ∀ n, (∃ c cs, Nat.toDigits 10 n = c :: cs ∧ isJsDigit c = true) ∧
      '_' ∉ Nat.toDigits 10 n := by
    intro n
    refine ⟨?_, fun h => by have := toDigits_digits n _ h; revert this; decide⟩
    cases hl : Nat.toDigits 10 n with
    | nil => exact absurd hl (toDigits_ne_nil n)
    | cons c cs => exact ⟨c, cs, rfl, toDigits_digits n c (by rw [hl]; simp)⟩
  cases z with
  | ofNat n =>
    obtain ⟨⟨c, cs, h1, h2⟩, h3⟩ := key n
    exact ⟨⟨c, cs, h1, by simp [numStart, h2]⟩, h3⟩
  | negSucc n =>
    refine ⟨⟨'-', _, rfl, by decide⟩, ?_⟩
    intro h
    rcases List.mem_cons.1 h with h | h
    · revert h; decide
    · exact (key _).2 h

/-- The decimal string determines the integer. -/
theorem intToString_injective (a b : Int) (h : intToString a = intToString b) : a = b := by
  have hd : (intToString a).data = (intToString b).data := by rw [h]
  cases a with
  | ofNat m =>
    cases b with
    | ofNat n =>
      have e : Nat.toDigits 10 m = Nat.toDigits 10 n := hd
      have := congrArg parseInt e
      rw [parseInt_toDigits, parseInt_toDigits] at this
      rw [this]
    | negSucc n =>
      exfalso
      have e : Nat.toDigits 10 m = '-' :: Nat.toDigits 10 (n + 1) := hd
      have := toDigits_digits m '-' (by rw [e]; simp)
      revert this; decide
  | negSucc m =>
    cases b with
    | ofNat n =>
      exfalso
      have e : '-' :: Nat.toDigits 10 (m + 1) = Nat.toDigits 10 n := hd
      have := toDigits_digits n '-' (by rw [← e]; simp)
      revert this; decide
    | negSucc n =>
      have e : '-' :: Nat.toDigits 10 (m + 1) = '-' :: Nat.toDigits 10 (n + 1) := hd
      have e2 := (List.cons.inj e).2
      have := congrArg parseInt e2
      rw [parseInt_toDigits, parseInt_toDigits] at this
      have : m = n := by omega
      rw [this]

/-! ### Signatures -/

theorem classifierTypes_noNumSep : ∀ t ∈ classifierTypes, hasNumSep t.data = false := by
  decide

theorem ite_mem_of {c : Prop} [Decidable c] {a b : String} {l : List String}
    (ha : a ∈ l) (hb : b ∈ l) : (if c then a else b) ∈ l := by
  split <;> assumption

theorem inferElementType_mem (screen : ScreenSize) (elem : UIElement) :
    inferElementType screen elem ∈ classifierTypes := by
  unfold inferElementType
  dsimp only
  repeat' apply ite_mem_of
  all_goals decide

/-- A text without separator, followed by an underscore and a number, splits in
one way only. -/
theorem split_type (t1 : List Char) : ∀ (t2 u1 u2 : List Char) (c1 c2 : Char) (r1 r2 : List Char),
    hasNumSep t1 = false → hasNumSep t2 = false →
    u1 = c1 :: r1 → numStart c1 = true → u2 = c2 :: r2 → numStart c2 = true →
    t1 ++ '_' :: u1 = t2 ++ '_' :: u2 → t1 = t2 ∧ u1 = u2 := by
  have us : numStart '_' = false := by decide
  induction t1 with
  | nil =>
    intro t2 u1 u2 c1 c2 r1 r2 _ h2 e1 n1 e2 n2 h
    cases t2 with
    | nil => simpa using h
    | cons a t2 =>
      exfalso
      simp only [List.nil_append, List.cons_append, List.cons.injEq] at h
      obtain ⟨ha, hu⟩ := h
      subst ha
      cases t2 with
      | nil =>
        rw [e1] at hu
        simp only [List.nil_append, List.cons.injEq] at hu
        rw [hu.1, us] at n1
        exact Bool.noConfusion n1
      | cons b t2 =>
        rw [e1] at hu
        simp only [List.cons_append, List.cons.injEq] at hu
        rw [← hu.1] at h2
        simp [hasNumSep, n1] at h2
  | cons a t1 ih =>
    intro t2 u1 u2 c1 c2 r1 r2 h1 h2 e1 n1 e2 n2 h
    cases t2 with
    | nil =>
      exfalso
      simp only [List.nil_append, List.cons_append, List.cons.injEq] at h
      obtain ⟨ha, hu⟩ := h
      subst ha
      cases t1 with
      | nil =>
        rw [e2] at hu
        simp only [List.nil_append, List.cons.injEq] at hu
        rw [← hu.1, us] at n2
        exact Bool.noConfusion n2
      | cons b t1 =>
        rw [e2] at hu
        simp only [List.cons_append, List.cons.injEq] at hu
        rw [hu.1] at h1
        simp [hasNumSep, n2] at h1
    | cons b t2 =>
      simp only [List.cons_append, List.cons.injEq] at h
      have h1' : hasNumSep t1 = false := by
        simp only [hasNumSep, Bool.or_eq_false_iff] at h1; exact h1.2
      have h2' : hasNumSep t2 = false := by
        simp only [hasNumSep, Bool.or_eq_false_iff] at h2; exact h2.2
      obtain ⟨e, hu⟩ := ih t2 u1 u2 c1 c2 r1 r2 h1' h2' e1 n1 e2 n2 h.2
      exact ⟨by rw [h.1, e], hu⟩

/-- A text without underscore, followed by an underscore, splits in one way
only. -/
theorem split_number (x1 : List Char) : ∀ (x2 v1 v2 : List Char),
    '_' ∉ x1 → '_' ∉ x2 → x1 ++ '_' :: v1 = x2 ++ '_' :: v2 → x1 = x2 ∧ v1 = v2 := by
  induction x1 with
  | nil =>
    intro x2 v1 v2 _ h2 h
    cases x2 with
    | nil => simpa using h
    | cons a x2 =>
      simp only [List.nil_append, List.cons_append, List.cons.injEq] at h
      exact absurd (by rw [← h.1]; simp) h2
  | cons a x1 ih =>
    intro x2 v1 v2 h1 h2 h
    cases x2 with
    | nil =>
      simp only [List.nil_append, List.cons_append, List.cons.injEq] at h
      exact absurd (by rw [h.1]; simp) h1
    | cons b x2 =>
      simp only [List.cons_append, List.cons.injEq] at h
      obtain ⟨e, hv⟩ := ih x2 v1 v2 (fun m => h1 (List.mem_cons_of_mem _ m))
        (fun m => h2 (List.mem_cons_of_mem _ m)) h.2
      exact ⟨by rw [h.1, e], hv⟩

theorem generateSignature_data (e : UIElement) :
    (generateSignature e).data =
      e.elementType.data ++ '_' :: ((intToString (e.centerX / 30)).data ++
        '_' :: ((intToString (e.centerY / 30)).data ++ '_' :: (orElse e.resourceId "noid").data)) := by
  unfold generateSignature
  simp only [String.data_append, List.append_assoc]
  rfl

/-- The signature of an element whose type holds no numeric separator
determines the type, the two buckets and the resource id or its default. -/
theorem generateSignature_inj (e1 e2 : UIElement)
    (h1 : hasNumSep e1.elementType.data = false) (h2 : hasNumSep e2.elementType.data = false)
    (h : generateSignature e1 = generateSignature e2) :
    e1.elementType = e2.elementType ∧ e1.centerX / 30 = e2.centerX / 30 ∧
      e1.centerY / 30 = e2.centerY / 30 ∧
      orElse e1.resourceId "noid" = orElse e2.resourceId "noid" := by
  have hd : (generateSignature e1).data = (generateSignature e2).data := by rw [h]
  rw [generateSignature_data, generateSignature_data] at hd
  obtain ⟨⟨c1, r1, ex1, n1⟩, ux1⟩ := intToString_shape (e1.centerX / 30)
  obtain ⟨⟨c2, r2, ex2, n2⟩, ux2⟩ := intToString_shape (e2.centerX / 30)
  obtain ⟨_, uy1⟩ := intToString_shape (e1.centerY / 30)
  obtain ⟨_, uy2⟩ := intToString_shape (e2.centerY / 30)
  obtain ⟨et, hu⟩ := split_type _ _ _ _ c1 c2 _ _ h1 h2
    (by rw [ex1]; rfl) n1 (by rw [ex2]; rfl) n2 hd
  obtain ⟨exs, hv⟩ := split_number _ _ _ _ ux1 ux2 hu
  obtain ⟨eys, hr⟩ := split_number _ _ _ _ uy1 uy2 hv
  exact ⟨String.ext et, intToString_injective _ _ (String.ext exs),
    intToString_injective _ _ (String.ext eys), String.ext hr⟩

/-- C2, as stated, fails: two elements of type `input_text` that differ only in
resource id, the empty one and `noid`, get the same signature. -/
theorem C2_counterexample :
    sigElemNoId.elementType ∈ classifierTypes ∧ sigElemNamedNoid.elementType ∈ classifierTypes ∧
    sigElemNoId.resourceId ≠ sigElemNamedNoid.resourceId ∧
    generateSignature sigElemNoId = generateSignature sigElemNamedNoid := by
  decide

/-- C2, amended: for two elements whose type is in the classifier's
enumeration, the signatures are equal if and only if the types, the buckets
`floor(centerX/30)` and `floor(centerY/30)`, and the resource ids after the
default `noid` for an empty one, are equal. -/
theorem C2_signature_iff (e1 e2 : UIElement)
    (h1 : e1.elementType ∈ classifierTypes) (h2 : e2.elementType ∈ classifierTypes) :
    generateSignature e1 = generateSignature e2 ↔
      (e1.elementType = e2.elementType ∧ e1.centerX / 30 = e2.centerX / 30 ∧
        e1.centerY / 30 = e2.centerY / 30 ∧
        orElse e1.resourceId "noid" = orElse e2.resourceId "noid") := by
  constructor
  · exact generateSignature_inj e1 e2 (classifierTypes_noNumSep _ h1)
      (classifierTypes_noNumSep _ h2)
  · rintro ⟨ht, hx, hy, hr⟩
    unfold generateSignature
    simp only [ht, hx, hy, hr]

/-- C2, amended, at two elements with different resource ids, neither empty:
their signatures differ. -/
theorem C2_signature_iff_witness :
    generateSignature { sigElemNoId with resourceId := "a" } =
        generateSignature { sigElemNoId with resourceId := "b" } ↔
      ("input_text" = "input_text" ∧ (200 : Int) / 30 = 200 / 30 ∧ (230 : Int) / 30 = 230 / 30 ∧
        orElse "a" "noid" = orElse "b" "noid") :=
  C2_signature_iff { sigElemNoId with resourceId := "a" } { sigElemNoId with resourceId := "b" }
    (by decide) (by decide)

/-! ### Screen hash -/

theorem smallShiftInside_sameBucket (a b : UIElement) (h : smallShiftInside a b) :
    sameBucket a b := by
  obtain ⟨h1, h2, h3, h4, h5, h6⟩ := h
  constructor <;> omega

theorem positionKey_congr (a b : UIElement) (h : sameBucket a b) :
    positionKey a = positionKey b := by
  unfold positionKey
  rw [h.1, h.2]

theorem map_positionKey_congr (before after : List UIElement)
    (h : List.Forall₂ sameBucket before after) :
    before.map positionKey = after.map positionKey := by
  induction h with
  | nil => rfl
  | cons hab _ ih => simp only [List.map_cons, positionKey_congr _ _ hab, ih]

theorem screenSignature_congr (act : String) (before after : List UIElement)
    (h : List.Forall₂ sameBucket before after) :
    screenSignature act before = screenSignature act after := by
  unfold screenSignature screenPositions
  rw [List.map_take, List.map_take, map_positionKey_congr before after h]

theorem computeScreenHash_congr (shortHash : String → String) (act : String)
    (before after : List UIElement) (h : List.Forall₂ sameBucket before after) :
    computeScreenHash shortHash act before = computeScreenHash shortHash act after := by
  unfold computeScreenHash
  rw [screenSignature_congr act before after h]
  cases h <;> rfl

/-- C3, as stated, fails: the one-element screen whose element is shifted by 5
pixels, from x = 99 to x = 104, has a different signature string. -/
theorem C3_counterexample :
    ((104 : Int) - 99).natAbs < 15 ∧
    screenSignature "com.app/.Main" jitterBefore ≠ screenSignature "com.app/.Main" jitterAfter := by
  decide

/-- C3, amended: the signature string that `computeScreenHash` hashes, and so
the returned hash, is unchanged by a shift of the centres that leaves
`floor(centerX/100)` and `floor(centerY/100)` of every element unchanged; this
covers every shift by fewer than 15 pixels on each axis of centres that lie at
least 15 pixels inside their 100-pixel bucket. -/
theorem C3_hash_stable_within_bucket (shortHash : String → String) (act : String)
    (before after : List UIElement) :
    (List.Forall₂ sameBucket before after →
      screenSignature act before = screenSignature act after ∧
      computeScreenHash shortHash act before = computeScreenHash shortHash act after) ∧
    (List.Forall₂ smallShiftInside before after →
      screenSignature act before = screenSignature act after ∧
      computeScreenHash shortHash act before = computeScreenHash shortHash act after) := by
  refine ⟨fun h => ⟨screenSignature_congr act _ _ h, computeScreenHash_congr _ act _ _ h⟩,
    fun h => ?_⟩
  have h' : List.Forall₂ sameBucket before after :=
    h.imp (fun a b hab => smallShiftInside_sameBucket a b hab)
  exact ⟨screenSignature_congr act _ _ h', computeScreenHash_congr _ act _ _ h'⟩

/-- C3, amended, at a one-element screen whose element moves from x = 150 to
x = 155. -/
theorem C3_hash_stable_within_bucket_witness :
    List.Forall₂ sameBucket stableBefore stableAfter ∧
    List.Forall₂ smallShiftInside stableBefore stableAfter ∧
    screenSignature "com.app/.Main" stableBefore = screenSignature "com.app/.Main" stableAfter ∧
    computeScreenHash id "com.app/.Main" stableBefore
      = computeScreenHash id "com.app/.Main" stableAfter :=
  have hb : List.Forall₂ sameBucket stableBefore stableAfter :=
    List.Forall₂.cons ⟨by decide, by decide⟩ List.Forall₂.nil
  have hs : List.Forall₂ smallShiftInside stableBefore stableAfter :=
    List.Forall₂.cons ⟨by decide, by decide, by decide, by decide, by decide, by decide⟩
      List.Forall₂.nil
  ⟨hb, hs, ((C3_hash_stable_within_bucket id "com.app/.Main" stableBefore stableAfter).2 hs).1,
    ((C3_hash_stable_within_bucket id "com.app/.Main" stableBefore stableAfter).1 hb).2⟩

set_option maxRecDepth 100000 in
theorem md5Hex_empty : md5Hex "" = "d41d8cd98f00b204e9800998ecf8427e" := by decide

set_option maxRecDepth 100000 in
theorem md5Hex_abc : md5Hex "abc" = "900150983cd24fb0d6963f7d28e17f72" := by decide

set_option maxRecDepth 100000 in
theorem md5Hex_alphabet :
    md5Hex "abcdefghijklmnopqrstuvwxyz" = "c3fcd3d76192e4007dfb496cca67e13b" := by decide

set_option maxRecDepth 100000 in
/-- C4, as stated, fails: two different activity identifiers that end in the
same segment after the last slash give the same signature string, and the
same hash, `1e3582f2`. -/
theorem C4_counterexample :
    "com.app/.Main" ≠ "com.app.debug/.Main" ∧
    screenSignature "com.app/.Main" jitterBefore
      = screenSignature "com.app.debug/.Main" jitterBefore ∧
    computeScreenHash md5Prefix "com.app/.Main" jitterBefore = "1e3582f2" ∧
    computeScreenHash md5Prefix "com.app.debug/.Main" jitterBefore = "1e3582f2" := by
  decide

/-- C4, amended: for every element list and every two activity identifiers
whose segments after the last slash differ, the signature strings that
`computeScreenHash` hashes differ; on a non-empty list the returned hashes are
the hashes of these two strings, for every hash function, so they differ
exactly when the hash function does not collide on the two strings. -/
theorem C4_signature_differs (a1 a2 : String) (elements : List UIElement)
    (h : activitySignature a1 ≠ activitySignature a2) :
    screenSignature a1 elements ≠ screenSignature a2 elements ∧
    ∀ shortHash : String → String, elements ≠ [] →
      computeScreenHash shortHash a1 elements = shortHash (screenSignature a1 elements) ∧
      computeScreenHash shortHash a2 elements = shortHash (screenSignature a2 elements) ∧
      (computeScreenHash shortHash a1 elements ≠ computeScreenHash shortHash a2 elements ↔
        shortHash (screenSignature a1 elements) ≠ shortHash (screenSignature a2 elements)) := by
  have key : screenSignature a1 elements ≠ screenSignature a2 elements := by
    intro e
    apply h
    unfold screenSignature at e
    have e' := congrArg String.data e
    simp only [String.data_append] at e'
    exact String.ext (List.append_cancel_right (List.append_cancel_right e'))
  refine ⟨key, fun shortHash hne => ?_⟩
  have hc : ∀ a : String,
      computeScreenHash shortHash a elements = shortHash (screenSignature a elements) := by
    intro a
    unfold computeScreenHash
    cases elements with
    | nil => exact absurd rfl hne
    | cons x xs => rfl
  exact ⟨hc a1, hc a2, by rw [hc a1, hc a2]⟩

set_option maxRecDepth 100000 in
/-- C4, amended, at the activities `com.app/.Main` and `com.app/.Settings` on a
one-element screen: the signature strings differ, and so do the hashes that
the md5 prefix of the code returns, `1e3582f2` and `214d2f6a`. -/
theorem C4_signature_differs_witness :
    screenSignature "com.app/.Main" jitterBefore ≠ screenSignature "com.app/.Settings" jitterBefore ∧
    computeScreenHash md5Prefix "com.app/.Main" jitterBefore
      ≠ computeScreenHash md5Prefix "com.app/.Settings" jitterBefore ∧
    computeScreenHash md5Prefix "com.app/.Main" jitterBefore = "1e3582f2" ∧
    computeScreenHash md5Prefix "com.app/.Settings" jitterBefore = "214d2f6a" :=
  ⟨(C4_signature_differs "com.app/.Main" "com.app/.Settings" jitterBefore (by decide)).1,
   (((C4_signature_differs "com.app/.Main" "com.app/.Settings" jitterBefore (by decide)).2
      md5Prefix (by decide)).2.2).2 (by decide),
   by decide, by decide⟩

/-! ### Loop detection -/

theorem jsSet_fold (items : List String) : ∀ seen : List String, seen.Nodup →
    (items.foldl (fun seen x => if seen.contains x then seen else seen ++ [x]) seen).Nodup ∧
    (items.foldl (fun seen x => if seen.contains x then seen else seen ++ [x]) seen).toFinset
      = seen.toFinset ∪ items.toFinset := by
  induction items with
  | nil => intro seen h; simp [h]
  | cons x xs ih =>
    intro seen h
    simp only [List.foldl_cons]
    by_cases hx : x ∈ seen
    · have hc : seen.contains x = true := by simpa using hx
      rw [hc]
      simp only [if_true]
      obtain ⟨h1, h2⟩ := ih seen h
      refine ⟨h1, ?_⟩
      rw [h2]
      ext y
      simp only [Finset.mem_union, List.mem_toFinset, List.mem_cons]
      constructor
      · rintro (hy | hy)
        · exact Or.inl hy
        · exact Or.inr (Or.inr hy)
      · rintro (hy | hy | hy)
        · exact Or.inl hy
        · exact Or.inl (hy ▸ hx)
        · exact Or.inr hy
    · have hc : seen.contains x = false := by simpa using hx
      rw [hc]
      simp only [Bool.false_eq_true, if_false]
      have hn : (seen ++ [x]).Nodup := by
        rw [List.nodup_append]
        refine ⟨h, List.nodup_singleton x, ?_⟩
        intro a ha hb
        rw [List.mem_singleton] at hb
        exact hx (hb ▸ ha)
      obtain ⟨h1, h2⟩ := ih (seen ++ [x]) hn
      refine ⟨h1, ?_⟩
      rw [h2]
      ext y
      simp only [Finset.mem_union, List.mem_toFinset, List.mem_cons, List.mem_append,
        List.mem_singleton]
      tauto

/-- The size of `new Set(items)` is the number of distinct items. -/
theorem jsSet_length (items : List String) : (jsSet items).length = items.toFinset.card := by
  obtain ⟨h1, h2⟩ := jsSet_fold items [] List.nodup_nil
  unfold jsSet
  rw [← List.toFinset_card_of_nodup h1, h2]
  simp

theorem isStuckInLoop_iff (s : SmartExplorer) :
    s.isStuckInLoop = true ↔
      6 ≤ s.recentScreenHashes.length ∧ (lastN 6 s.recentScreenHashes).toFinset.card ≤ 2 := by
  unfold SmartExplorer.isStuckInLoop lastN
  by_cases h : s.recentScreenHashes.length < 6
  · simp only [h, if_true, Bool.false_eq_true, false_iff]
    omega
  · simp only [h, if_false, decide_eq_true_eq, jsSet_length]
    constructor
    · intro h2; exact ⟨by omega, h2⟩
    · intro h2; exact h2.2

theorem recordScreenHash_recent (s : SmartExplorer) (h : String)
    (hl : s.recentScreenHashes.length ≤ 20) :
    (s.recordScreenHash h).recentScreenHashes = lastN 20 (s.recentScreenHashes ++ [h]) := by
  unfold SmartExplorer.recordScreenHash lastN
  simp only [List.length_append, List.length_singleton]
  by_cases h20 : s.recentScreenHashes.length + 1 > 20
  · have e : s.recentScreenHashes.length + 1 - 20 = 1 := by omega
    simp only [h20, if_true, e]
  · have e : s.recentScreenHashes.length + 1 - 20 = 0 := by omega
    simp only [h20, if_false, e, List.drop_zero]

theorem lastN_append_singleton (l : List String) (h : String) :
    lastN 20 (lastN 20 l ++ [h]) = lastN 20 (l ++ [h]) := by
  unfold lastN
  rw [← List.drop_append_of_le_length (by omega : l.length - 20 ≤ l.length), List.drop_drop]
  congr 1
  simp only [List.length_drop, List.length_append, List.length_singleton]
  omega

theorem lastN_length_le (n : Nat) (l : List String) : (lastN n l).length ≤ n := by
  unfold lastN
  rw [List.length_drop]
  omega

/-- The history kept by the explorer holds the last 20 of the recorded
hashes. -/
theorem recordAll_recent (hs : List String) : ∀ (s : SmartExplorer) (full : List String),
    s.recentScreenHashes = lastN 20 full →
    (s.recordAll hs).recentScreenHashes = lastN 20 (full ++ hs) := by
  induction hs with
  | nil => intro s full h; simpa [SmartExplorer.recordAll] using h
  | cons x xs ih =>
    intro s full h
    have hstep : (s.recordScreenHash x).recentScreenHashes = lastN 20 (full ++ [x]) := by
      rw [recordScreenHash_recent s x (by rw [h]; exact lastN_length_le 20 full), h,
        lastN_append_singleton]
    have := ih (s.recordScreenHash x) (full ++ [x]) hstep
    simpa [SmartExplorer.recordAll, List.append_assoc] using this

theorem lastN_six_of_twenty (l : List String) :
    (6 ≤ (lastN 20 l).length ↔ 6 ≤ l.length) ∧ lastN 6 (lastN 20 l) = lastN 6 l := by
  unfold lastN
  refine ⟨by rw [List.length_drop]; omega, ?_⟩
  rw [List.drop_drop]
  congr 1
  rw [List.length_drop]
  omega

/-- C5: for every history of hashes recorded on a fresh explorer,
`isStuckInLoop` returns true if and only if the history holds at least 6 hashes
and its 6 most recent hashes contain at most 2 distinct values; so 6 or more
identical hashes give true and a history of 6 hashes with 3 or more distinct
values gives false. -/
theorem C5_isStuckInLoop_iff (pkg : String) (hs : List String) :
    (((SmartExplorer.fresh pkg).recordAll hs).isStuckInLoop = true ↔
      6 ≤ hs.length ∧ (lastN 6 hs).toFinset.card ≤ 2) ∧
    (∀ (h : String) (n : Nat), 6 ≤ n → hs = List.replicate n h →
      ((SmartExplorer.fresh pkg).recordAll hs).isStuckInLoop = true) ∧
    (hs.length = 6 → 3 ≤ hs.toFinset.card →
      ((SmartExplorer.fresh pkg).recordAll hs).isStuckInLoop = false) := by
  have hrec : ((SmartExplorer.fresh pkg).recordAll hs).recentScreenHashes = lastN 20 hs := by
    have := recordAll_recent hs (SmartExplorer.fresh pkg) [] rfl
    simpa using this
  have hiff : ((SmartExplorer.fresh pkg).recordAll hs).isStuckInLoop = true ↔
      6 ≤ hs.length ∧ (lastN 6 hs).toFinset.card ≤ 2 := by
    rw [isStuckInLoop_iff, hrec, (lastN_six_of_twenty hs).1, (lastN_six_of_twenty hs).2]
  refine ⟨hiff, ?_, ?_⟩
  · intro h n hn e
    rw [hiff]
    subst e
    refine ⟨by simpa using hn, ?_⟩
    have hsub : (lastN 6 (List.replicate n h)).toFinset ⊆ {h} := by
      intro x hx
      rw [List.mem_toFinset] at hx
      have := List.mem_of_mem_drop hx
      rw [Finset.mem_singleton]
      exact List.eq_of_mem_replicate this
    have := Finset.card_le_card hsub
    simp only [Finset.card_singleton] at this
    omega
  · intro h6 h3
    have hl : lastN 6 hs = hs := by
      unfold lastN
      rw [h6]
      rfl
    cases hb : ((SmartExplorer.fresh pkg).recordAll hs).isStuckInLoop with
    | false => rfl
    | true =>
      rw [hiff, hl] at hb
      omega

/-- C5 at two histories: seven times the hash `a`, and six hashes with three
distinct values. -/
theorem C5_isStuckInLoop_iff_witness :
    ((SmartExplorer.fresh "com.app").recordAll (List.replicate 7 "a")).isStuckInLoop = true ∧
    ((SmartExplorer.fresh "com.app").recordAll ["a", "b", "c", "a", "b", "c"]).isStuckInLoop
      = false :=
  ⟨(C5_isStuckInLoop_iff "com.app" (List.replicate 7 "a")).2.1 "a" 7 (by decide) rfl,
   (C5_isStuckInLoop_iff "com.app" ["a", "b", "c", "a", "b", "c"]).2.2 rfl (by decide)⟩

/-! ### Submit discovery -/

theorem lowerChars_append (a b : List Char) :
    lowerChars (a ++ b) = lowerChars a ++ lowerChars b := by
  induction a with
  | nil => rfl
  | cons c cs ih =>
    show lowerChar c ++ lowerChars (cs ++ b) = (lowerChar c ++ lowerChars cs) ++ lowerChars b
    rw [ih, List.append_assoc]

theorem toLowerCase_joinThree (a b c : String) :
    toLowerCase (joinThree a b c) = joinThree (toLowerCase a) (toLowerCase b) (toLowerCase c) := by
  apply String.ext
  simp only [toLowerCase, joinThree, String.data_append, lowerChars_append]
  rfl

theorem startsWith_append_space (p : List Char) : ∀ (a b : List Char), ' ' ∉ p →
    startsWith (a ++ ' ' :: b) p = startsWith a p := by
  induction p with
  | nil => intro a b _; cases a <;> rfl
  | cons q ps ih =>
    intro a b hp
    cases a with
    | nil =>
      have hq : (' ' == q) = false := by
        rw [beq_eq_false_iff_ne]
        intro e
        exact hp (by rw [← e]; simp)
      simp only [List.nil_append, startsWith, hq, Bool.false_and]
    | cons x xs =>
      show (x == q && startsWith (xs ++ ' ' :: b) ps) = (x == q && startsWith xs ps)
      rw [ih xs b (fun m => hp (List.mem_cons_of_mem _ m))]

theorem includesChars_append_space (p : List Char) (hp : ' ' ∉ p) (hne : p ≠ []) :
    ∀ (a b : List Char),
    includesChars (a ++ ' ' :: b) p = (includesChars a p || includesChars b p) := by
  have hemp : p.isEmpty = false := by cases p with
    | nil => exact absurd rfl hne
    | cons _ _ => rfl
  intro a b
  induction a with
  | nil =>
    have h0 := startsWith_append_space p [] b hp
    simp only [List.nil_append] at h0
    have h1 : startsWith [] p = false := by cases p with
      | nil => exact absurd rfl hne
      | cons _ _ => rfl
    simp only [List.nil_append, includesChars, h0, h1, hemp, Bool.false_or]
  | cons x xs ih =>
    have h0 := startsWith_append_space p (x :: xs) b hp
    show (startsWith ((x :: xs) ++ ' ' :: b) p || includesChars (xs ++ ' ' :: b) p)
      = ((startsWith (x :: xs) p || includesChars xs p) || includesChars b p)
    rw [h0, ih, Bool.or_assoc]

theorem includes_joinThree (a b c p : String) (hp : ' ' ∉ p.data) (hne : p.data ≠ []) :
    includes (joinThree a b c) p = (includes a p || includes b p || includes c p) := by
  unfold includes joinThree
  simp only [String.data_append]
  have e : a.data ++ (" " : String).data ++ b.data ++ (" " : String).data ++ c.data
      = a.data ++ ' ' :: (b.data ++ ' ' :: c.data) := by
    simp only [List.append_assoc]; rfl
  rw [e, includesChars_append_space p.data hp hne, includesChars_append_space p.data hp hne,
    Bool.or_assoc]

theorem submitPatterns_shape : ∀ p ∈ submitPatterns,
    toLowerCase p = p ∧ ' ' ∉ p.data ∧ p.data ≠ [] := by
  decide

theorem matchesPattern_iff (p : String) (hp : p ∈ submitPatterns) (e : UIElement) :
    matchesPattern p e = true ↔
      e.clickable = true ∧ (includes (toLowerCase e.text) p = true ∨
        includes (toLowerCase e.desc) p = true ∨ includes (toLowerCase e.resourceId) p = true) := by
  obtain ⟨h1, h2, h3⟩ := submitPatterns_shape p hp
  unfold matchesPattern
  rw [h1, toLowerCase_joinThree, includes_joinThree _ _ _ p h2 h3]
  simp only [Bool.and_eq_true, Bool.or_eq_true, or_assoc]

theorem submitByKeyword_some (elements : List UIElement)
    (h : ∃ e ∈ elements, e.clickable = true ∧ hasSubmitKeyword e) :
    ∃ e ∈ elements, submitByKeyword elements = some e ∧
      e.clickable = true ∧ hasSubmitKeyword e := by
  obtain ⟨e0, he0, hc0, p0, hp0, hk0⟩ := h
  cases hres : submitByKeyword elements with
  | none =>
    exfalso
    unfold submitByKeyword at hres
    rw [List.findSome?_eq_none_iff] at hres
    have hn := hres p0 hp0
    rw [List.find?_eq_none] at hn
    exact hn e0 (List.mem_append_right _ he0) ((matchesPattern_iff p0 hp0 e0).2 ⟨hc0, hk0⟩)
  | some e =>
    unfold submitByKeyword at hres
    obtain ⟨p, hp, hf⟩ := List.exists_of_findSome?_eq_some hres
    have hmem := List.mem_of_find?_eq_some hf
    have hmatch := (matchesPattern_iff p hp e).1 (List.find?_some hf)
    have hin : e ∈ elements := by
      rcases List.mem_append.1 hmem with hm | hm
      · exact List.mem_of_mem_filter hm
      · exact hm
    exact ⟨e, hin, rfl, hmatch.1, p, hp, hmatch.2⟩

theorem findSubmitAction_keyword (screen : ScreenSize) (elements : List UIElement)
    (nearElement : Option UIElement)
    (h : ∃ e ∈ elements, e.clickable = true ∧ hasSubmitKeyword e) :
    ∃ e ∈ elements, findSubmitAction screen elements nearElement = SubmitAction.tapKeyword e ∧
      e.clickable = true ∧ hasSubmitKeyword e := by
  obtain ⟨e, hin, hs, hc, hk⟩ := submitByKeyword_some elements h
  refine ⟨e, hin, ?_, hc, hk⟩
  unfold findSubmitAction
  simp only [hs]

/-- C6: in `findAndClickSubmit`, for every parsed screen that contains a
clickable element whose text, description or resource id contains a submit
keyword, the element that is tapped is one of those keyword-matching elements,
whatever else the screen contains, such as a clickable element at the height of
the input field in the right 30% of the screen. -/
theorem C6_keyword_before_position (explorerScreen : ScreenSize) (out : String)
    (nearElement : Option UIElement)
    (h : ∃ e ∈ parse (submitParserScreen explorerScreen) out,
      e.clickable = true ∧ hasSubmitKeyword e) :
    ∃ e ∈ parse (submitParserScreen explorerScreen) out,
      findAndClickSubmit explorerScreen out nearElement = SubmitAction.tapKeyword e ∧
      e.clickable = true ∧ hasSubmitKeyword e :=
  findSubmitAction_keyword explorerScreen _ nearElement h

set_option maxRecDepth 20000 in
/-- C6 at a screen with a clickable `Send` text view and a clickable icon at
the height of the input field in the right 30% of the screen: the icon is a
stage-2 candidate and the tapped element is a keyword match. -/
theorem C6_keyword_before_position_witness :
    (submitByPosition 1080 (parse (submitParserScreen defaultScreenSize) submitDump) none).isSome
      = true ∧
    ∃ e ∈ parse (submitParserScreen defaultScreenSize) submitDump,
      findAndClickSubmit defaultScreenSize submitDump none = SubmitAction.tapKeyword e ∧
      e.clickable = true ∧ hasSubmitKeyword e :=
  ⟨by decide, C6_keyword_before_position defaultScreenSize submitDump none (by decide)⟩

/-! ### Recovery ladder -/

theorem remedyNumber_eq (n : Nat) :
    remedyNumber n = if n > 10 then 5 else min (n - 1) 4 + 1 := rfl

/-- C7: `recoverFromStuck` first increments the stuck counter to N and then
selects the remedy by N alone: for 1 <= N <= 10 it runs remedy number
min(N, 5) of the ladder (back; back twice; swipe and back; home and relaunch;
full recovery), for N > 10 it runs full recovery directly, and the remedy
number never decreases as N grows. -/
theorem C7_recovery_ladder (s : SmartExplorer) :
    (recoveryActions.get? (remedyNumber (s.stuckCount + 1) - 1)).map
        (fun action => action { s with stuckCount := s.stuckCount + 1 })
      = some s.recoverFromStuck ∧
    (s.stuckCount + 1 ≤ 10 → remedyNumber (s.stuckCount + 1) = min (s.stuckCount + 1) 5) ∧
    (10 < s.stuckCount + 1 → remedyNumber (s.stuckCount + 1) = 5 ∧
      s.recoverFromStuck = SmartExplorer.fullRecovery { s with stuckCount := s.stuckCount + 1 }) ∧
    (∀ m n : Nat, m ≤ n → remedyNumber m ≤ remedyNumber n) ∧
    recoveryActions.map (fun action => (action { s with stuckCount := s.stuckCount + 1 }).1)
      = [[DeviceCommand.keyevent "KEYCODE_BACK"],
         [DeviceCommand.keyevent "KEYCODE_BACK", DeviceCommand.keyevent "KEYCODE_BACK"],
         [DeviceCommand.swipe 540 1600 540 400 200, DeviceCommand.keyevent "KEYCODE_BACK"],
         [DeviceCommand.keyevent "KEYCODE_HOME", DeviceCommand.launch s.pkg],
         [DeviceCommand.forceStop s.pkg, DeviceCommand.keyevent "KEYCODE_HOME",
          DeviceCommand.launch s.pkg]] := by
  refine ⟨?_, ?_, ?_, ?_, rfl⟩
  · by_cases h : s.stuckCount + 1 > 10
    · have e : remedyNumber (s.stuckCount + 1) = 5 := by rw [remedyNumber_eq]; simp [h]
      rw [e]
      unfold SmartExplorer.recoverFromStuck
      simp only [MAX_STUCK_COUNT, h, if_true]
      rfl
    · have hk : s.stuckCount < 10 := by omega
      have hidx : recoveryIndex (s.stuckCount + 1) = remedyNumber (s.stuckCount + 1) - 1 := by
        rw [remedyNumber_eq]; simp only [h, if_false]; rfl
      unfold SmartExplorer.recoverFromStuck
      simp only [MAX_STUCK_COUNT, h, if_false, hidx]
      have hlt : remedyNumber (s.stuckCount + 1) - 1 < recoveryActions.length := by
        rw [remedyNumber_eq]; simp only [h, if_false]
        show min (s.stuckCount + 1 - 1) 4 + 1 - 1 < 5
        omega
      rw [List.get?_eq_get hlt]
      rfl
  · intro h
    rw [remedyNumber_eq]
    have : ¬ s.stuckCount + 1 > 10 := by omega
    simp only [this, if_false]
    omega
  · intro h
    have e : remedyNumber (s.stuckCount + 1) = 5 := by rw [remedyNumber_eq]; simp [h]
    refine ⟨e, ?_⟩
    unfold SmartExplorer.recoverFromStuck
    simp only [MAX_STUCK_COUNT, gt_iff_lt, h, if_true]
  · intro m n hmn
    rw [remedyNumber_eq, remedyNumber_eq]
    split <;> split <;> omega

/-- C7 at the explorers whose stuck counter is 2 and 11: the third call runs
swipe and back, the twelfth runs full recovery. -/
theorem C7_recovery_ladder_witness :
    remedyNumber 3 = min 3 5 ∧
    ({ SmartExplorer.fresh "com.app" with stuckCount := 2 } : SmartExplorer).recoverFromStuck.1
      = [DeviceCommand.swipe 540 1600 540 400 200, DeviceCommand.keyevent "KEYCODE_BACK"] ∧
    remedyNumber 12 = 5 ∧
    ({ SmartExplorer.fresh "com.app" with stuckCount := 11 } : SmartExplorer).recoverFromStuck
      = SmartExplorer.fullRecovery { SmartExplorer.fresh "com.app" with stuckCount := 12 } ∧
    remedyNumber 3 ≤ remedyNumber 12 :=
  ⟨(C7_recovery_ladder { SmartExplorer.fresh "com.app" with stuckCount := 2 }).2.1 (by decide),
   by decide,
   ((C7_recovery_ladder { SmartExplorer.fresh "com.app" with stuckCount := 11 }).2.2.1
      (by decide)).1,
   ((C7_recovery_ladder { SmartExplorer.fresh "com.app" with stuckCount := 11 }).2.2.1
      (by decide)).2,
   (C7_recovery_ladder (SmartExplorer.fresh "com.app")).2.2.2.1 3 12 (by decide)⟩

/-! ### Adaptive grid -/

theorem generateAdaptiveGrid_eq (w h : Nat) :
    generateAdaptiveGrid ⟨w, h⟩ = gridFront w h ++ [gridFab w h] := rfl

theorem mergeElements_append_singleton (base adds : List UIElement) (x : UIElement) :
    mergeElements base (adds ++ [x]) =
      if isDuplicate (mergeElements base adds) x then mergeElements base adds
      else mergeElements base adds ++ [x] := by
  unfold mergeElements
  rw [List.foldl_append]
  rfl

theorem mergeElements_subset (adds : List UIElement) : ∀ (base : List UIElement) (e : UIElement),
    e ∈ mergeElements base adds → e ∈ base ∨ e ∈ adds := by
  induction adds with
  | nil => intro base e h; exact Or.inl h
  | cons a as ih =>
    intro base e h
    unfold mergeElements at h
    rw [List.foldl_cons] at h
    by_cases hd : isDuplicate base a = true
    · simp only [hd, if_true] at h
      rcases ih base e h with h | h
      · exact Or.inl h
      · exact Or.inr (List.mem_cons_of_mem _ h)
    · simp only [hd, if_false] at h
      rcases ih (base ++ [a]) e h with h | h
      · rcases List.mem_append.1 h with h | h
        · exact Or.inl h
        · rw [List.mem_singleton] at h
          exact Or.inr (h ▸ List.mem_cons_self _ _)
      · exact Or.inr (List.mem_cons_of_mem _ h)

theorem isDuplicate_false (result : List UIElement) (x : UIElement)
    (h : ∀ e ∈ result, ¬ ((e.centerX - x.centerX).natAbs < 40 ∧
      (e.centerY - x.centerY).natAbs < 40)) :
    isDuplicate result x = false := by
  unfold isDuplicate
  rw [List.any_eq_false]
  intro e he
  have := h e he
  simpa using this

theorem gridFront_far (w h : Nat) (hsize : (315 ≤ w ∧ (h ≤ 260 ∨ 340 ≤ h)) ∨ 791 ≤ h) :
    ∀ e ∈ gridFront w h, ¬ ((e.centerX - (gridFab w h).centerX).natAbs < 40 ∧
      (e.centerY - (gridFab w h).centerY).natAbs < 40) := by
  have hlist : gridFront w h =
      [ { centerX := 60, centerY := 100,
          elementType := "toolbar_left", signature := "grid_toolbar_left", priority := 15 },
        { centerX := (w : Int) - 60, centerY := 100,
          elementType := "toolbar_right", signature := "grid_toolbar_right", priority := 15 },
        gridNavPoint w h 1, gridNavPoint w h 2, gridNavPoint w h 3, gridNavPoint w h 4,
        gridNavPoint w h 5,
        gridPoint w h 0 0, gridPoint w h 0 1, gridPoint w h 0 2,
        gridPoint w h 1 0, gridPoint w h 1 1, gridPoint w h 1 2,
        gridPoint w h 2 0, gridPoint w h 2 1, gridPoint w h 2 2,
        gridPoint w h 3 0, gridPoint w h 3 1, gridPoint w h 3 2,
        gridPoint w h 4 0, gridPoint w h 4 1, gridPoint w h 4 2 ] := rfl
  intro e he
  rw [hlist] at he
  simp only [List.mem_cons, List.mem_singleton, List.not_mem_nil, or_false] at he
  rcases he with rfl | rfl | rfl | rfl | rfl | rfl | rfl | rfl | rfl | rfl | rfl | rfl | rfl |
    rfl | rfl | rfl | rfl | rfl | rfl | rfl | rfl | rfl <;>
  simp only [gridNavPoint, gridPoint, gridFab, Nat.cast_ofNat, Nat.cast_zero, Nat.cast_one] <;>
  omega

/-- C8, as stated, fails: on a 480x320 screen the floating-action-button point
(400, 120) lies within 40 pixels of the right toolbar point (420, 100) and the
merge drops it, so the output holds no element of type `fab`. -/
theorem C8_counterexample :
    ¬ ∃ e ∈ mergeElements [] (generateAdaptiveGrid ⟨480, 320⟩), e.elementType = "fab" := by
  decide

/-- C8, amended: for every screen of width at least 315 whose height is at most
260 or at least 340, and for every screen of height at least 791, when the
earlier stages return no element, the stage-4 output
`mergeElements([], generateAdaptiveGrid())` contains an element of type `fab`
with centre (w - 80, h - 200). -/
theorem C8_grid_keeps_fab (w h : Nat) (hsize : (315 ≤ w ∧ (h ≤ 260 ∨ 340 ≤ h)) ∨ 791 ≤ h) :
    ∃ e ∈ mergeElements [] (generateAdaptiveGrid ⟨w, h⟩),
      e.elementType = "fab" ∧ e.centerX = (w : Int) - 80 ∧ e.centerY = (h : Int) - 200 := by
  refine ⟨gridFab w h, ?_, rfl, rfl, rfl⟩
  rw [generateAdaptiveGrid_eq, mergeElements_append_singleton]
  have hfar : isDuplicate (mergeElements [] (gridFront w h)) (gridFab w h) = false := by
    apply isDuplicate_false
    intro e he
    rcases mergeElements_subset _ _ _ he with h0 | h0
    · exact absurd h0 (List.not_mem_nil _)
    · exact gridFront_far w h hsize e h0
  rw [hfar]
  simp

/-- C8, amended, at the default 1080x1920 screen. -/
theorem C8_grid_keeps_fab_witness :
    ∃ e ∈ mergeElements [] (generateAdaptiveGrid ⟨1080, 1920⟩),
      e.elementType = "fab" ∧ e.centerX = ((1080 : Nat) : Int) - 80 ∧
      e.centerY = ((1920 : Nat) : Int) - 200 :=
  C8_grid_keeps_fab 1080 1920 (Or.inl ⟨by decide, Or.inr (by decide)⟩)

/-! ### Navigation tabs -/

theorem clusterStep_spec (acc : List NavTab) (e : UIElement) :
    (clusterStep acc e = acc ∧ ∃ t ∈ acc, (t.x - e.centerX).natAbs < 80) ∨
    (clusterStep acc e = acc ++ [tabOfElement acc.length e] ∧
      ∀ t ∈ acc, ¬ (t.x - e.centerX).natAbs < 80) := by
  unfold clusterStep
  by_cases h : (acc.any fun t => decide ((t.x - e.centerX).natAbs < 80)) = true
  · left
    rw [if_pos h]
    refine ⟨rfl, ?_⟩
    rw [List.any_eq_true] at h
    obtain ⟨t, ht, hc⟩ := h
    exact ⟨t, ht, of_decide_eq_true hc⟩
  · right
    rw [if_neg h]
    refine ⟨rfl, ?_⟩
    intro t ht hc
    apply h
    rw [List.any_eq_true]
    exact ⟨t, ht, decide_eq_true hc⟩

theorem clusterFold_length (l : List UIElement) : ∀ acc : List NavTab,
    (l.foldl clusterStep acc).length ≤ acc.length + l.length := by
  induction l with
  | nil => intro acc; simp
  | cons e es ih =>
    intro acc
    rw [List.foldl_cons, List.length_cons]
    have := ih (clusterStep acc e)
    rcases clusterStep_spec acc e with ⟨h, _⟩ | ⟨h, _⟩
    · rw [h] at this ⊢; omega
    · rw [h] at this ⊢
      rw [List.length_append, List.length_singleton] at this
      omega

theorem clusterFold_pairwise (l : List UIElement) : ∀ acc : List NavTab,
    l.Pairwise (fun a b => a.centerX ≤ b.centerX) →
    acc.Pairwise (fun a b => a.x + 80 ≤ b.x) →
    (∀ t ∈ acc, ∀ e ∈ l, t.x ≤ e.centerX) →
    (l.foldl clusterStep acc).Pairwise (fun a b => a.x + 80 ≤ b.x) := by
  induction l with
  | nil => intro acc _ h _; exact h
  | cons e es ih =>
    intro acc hs hp hle
    rw [List.foldl_cons]
    rw [List.pairwise_cons] at hs
    rcases clusterStep_spec acc e with ⟨h, _⟩ | ⟨h, hfar⟩
    · rw [h]
      exact ih acc hs.2 hp (fun t ht e' he' => hle t ht e' (List.mem_cons_of_mem _ he'))
    · rw [h]
      apply ih _ hs.2
      · rw [List.pairwise_append]
        refine ⟨hp, List.pairwise_singleton _ _, ?_⟩
        intro t ht b hb
        rw [List.mem_singleton] at hb
        subst hb
        have h1 := hfar t ht
        have h2 := hle t ht e (List.mem_cons_self _ _)
        show t.x + 80 ≤ e.centerX
        omega
      · intro t ht e' he'
        rcases List.mem_append.1 ht with ht | ht
        · exact hle t ht e' (List.mem_cons_of_mem _ he')
        · rw [List.mem_singleton] at ht
          subst ht
          exact hs.1 e' he'

theorem clusterFold_mono (l : List UIElement) : ∀ (acc : List NavTab) (t : NavTab),
    t ∈ acc → t ∈ l.foldl clusterStep acc := by
  induction l with
  | nil => intro acc t h; exact h
  | cons e es ih =>
    intro acc t h
    rw [List.foldl_cons]
    apply ih
    rcases clusterStep_spec acc e with ⟨h', _⟩ | ⟨h', _⟩
    · rw [h']; exact h
    · rw [h']; exact List.mem_append_left _ h

theorem clusterFold_covers (l : List UIElement) : ∀ (acc : List NavTab), ∀ e ∈ l,
    ∃ t ∈ l.foldl clusterStep acc, (t.x - e.centerX).natAbs < 80 := by
  induction l with
  | nil => intro acc e h; exact absurd h (List.not_mem_nil _)
  | cons a as ih =>
    intro acc e he
    rw [List.foldl_cons]
    rcases List.mem_cons.1 he with rfl | he
    · rcases clusterStep_spec acc e with ⟨h', t, ht, hc⟩ | ⟨h', _⟩
      · exact ⟨t, clusterFold_mono as _ t (by rw [h']; exact ht), hc⟩
      · refine ⟨tabOfElement acc.length e, clusterFold_mono as _ _ (by rw [h']; simp), ?_⟩
        show (e.centerX - e.centerX).natAbs < 80
        simp
    · exact ih _ e he

theorem clusterFold_origin (l : List UIElement) : ∀ (acc : List NavTab),
    ∀ t ∈ l.foldl clusterStep acc,
    t ∈ acc ∨ ∃ e ∈ l, t.x = e.centerX ∧ t.y = e.centerY := by
  induction l with
  | nil => intro acc t h; exact Or.inl h
  | cons a as ih =>
    intro acc t ht
    rw [List.foldl_cons] at ht
    rcases ih _ t ht with h | ⟨e, he, hx⟩
    · rcases clusterStep_spec acc a with ⟨h', _⟩ | ⟨h', _⟩
      · rw [h'] at h; exact Or.inl h
      · rw [h'] at h
        rcases List.mem_append.1 h with h | h
        · exact Or.inl h
        · rw [List.mem_singleton] at h
          subst h
          exact Or.inr ⟨a, List.mem_cons_self _ _, rfl, rfl⟩
    · exact Or.inr ⟨e, List.mem_cons_of_mem _ he, hx⟩

theorem sortByCenterX_sorted (xs : List UIElement) :
    (sortByCenterX xs).Pairwise (fun a b => a.centerX ≤ b.centerX) := by
  haveI : IsTotal UIElement (fun a b => a.centerX ≤ b.centerX) := ⟨fun a b => le_total _ _⟩
  haveI : IsTrans UIElement (fun a b => a.centerX ≤ b.centerX) :=
    ⟨fun a b c h1 h2 => le_trans h1 h2⟩
  exact List.sorted_insertionSort (fun a b : UIElement => a.centerX ≤ b.centerX) xs

theorem sortByCenterX_mem (xs : List UIElement) (e : UIElement) :
    e ∈ sortByCenterX xs ↔ e ∈ xs :=
  (List.perm_insertionSort (fun a b : UIElement => a.centerX ≤ b.centerX) xs).mem_iff

theorem sortByCenterX_length (xs : List UIElement) : (sortByCenterX xs).length = xs.length :=
  List.length_insertionSort (fun a b : UIElement => a.centerX ≤ b.centerX) xs

theorem detectNavigationTabs_clusters (pkg : String) (screen : ScreenSize)
    (elements : List UIElement)
    (hnav : (elements.filter namesTabWidget).length < 3)
    (hcl : 2 ≤ (clusterTabs (sortByCenterX (elements.filter (isBottomCandidate screen)))).length) :
    (((SmartExplorer.fresh pkg).setScreenSize screen.width screen.height).detectNavigationTabs
      elements).1 = (clusterTabs (sortByCenterX (elements.filter (isBottomCandidate screen)))).take 8 := by
  have hlen : 2 ≤ (elements.filter (isBottomCandidate screen)).length := by
    have := clusterFold_length (sortByCenterX (elements.filter (isBottomCandidate screen))) []
    rw [sortByCenterX_length] at this
    unfold clusterTabs at hcl
    simp only [List.length_nil] at this
    omega
  unfold SmartExplorer.detectNavigationTabs
  have h1 : ¬ (elements.filter namesTabWidget).length ≥ 3 := by omega
  have h2 : ¬ (elements.filter (isBottomCandidate screen)).length < 2 := by omega
  simp only [SmartExplorer.fresh, SmartExplorer.setScreenSize, Bool.false_and, Bool.false_eq_true,
    if_false, h1, h2, hcl, ge_iff_le, if_true]

/-- C9, as stated, fails: on a fresh explorer with a 1000x1920 screen, two
bottom-region candidates 10 pixels apart, none of which names a tab widget,
form one cluster, and `detectNavigationTabs` returns no tab at all. -/
theorem C9_counterexample :
    (twoCloseElems.filter namesTabWidget).length < 3 ∧
    2 ≤ (twoCloseElems.filter (isBottomCandidate ⟨1000, 1920⟩)).length ∧
    (clusterTabs (sortByCenterX (twoCloseElems.filter (isBottomCandidate ⟨1000, 1920⟩)))).length
      = 1 ∧
    (((SmartExplorer.fresh "com.app").setScreenSize 1000 1920).detectNavigationTabs
      twoCloseElems).1 = [] := by
  decide

/-- C9, amended: on a fresh explorer, when fewer than 3 elements name a tab
widget and the elements that pass the bottom-region filter form at least 2
clusters, `detectNavigationTabs` returns the first 8 cluster tabs: between 2
and 8 tabs whose x coordinates are strictly ascending and pairwise at least 80
pixels apart, each at the centre of a candidate, and every candidate lies fewer
than 80 pixels from a cluster tab. -/
theorem C9_detect_clusters (pkg : String) (screen : ScreenSize) (elements : List UIElement)
    (hnav : (elements.filter namesTabWidget).length < 3)
    (hcl : 2 ≤ (clusterTabs (sortByCenterX (elements.filter (isBottomCandidate screen)))).length) :
    (((SmartExplorer.fresh pkg).setScreenSize screen.width screen.height).detectNavigationTabs
        elements).1
      = (clusterTabs (sortByCenterX (elements.filter (isBottomCandidate screen)))).take 8 ∧
    2 ≤ (((SmartExplorer.fresh pkg).setScreenSize screen.width screen.height).detectNavigationTabs
        elements).1.length ∧
    (((SmartExplorer.fresh pkg).setScreenSize screen.width screen.height).detectNavigationTabs
        elements).1.length ≤ 8 ∧
    (((SmartExplorer.fresh pkg).setScreenSize screen.width screen.height).detectNavigationTabs
        elements).1.Pairwise (fun a b => a.x + 80 ≤ b.x) ∧
    (∀ t ∈ (((SmartExplorer.fresh pkg).setScreenSize screen.width screen.height).detectNavigationTabs
        elements).1, ∃ c ∈ elements.filter (isBottomCandidate screen),
        t.x = c.centerX ∧ t.y = c.centerY) ∧
    (∀ c ∈ elements.filter (isBottomCandidate screen),
      ∃ t ∈ clusterTabs (sortByCenterX (elements.filter (isBottomCandidate screen))),
        (t.x - c.centerX).natAbs < 80) := by
  rw [detectNavigationTabs_clusters pkg screen elements hnav hcl]
  refine ⟨rfl, ?_, ?_, ?_, ?_, ?_⟩
  · rw [List.length_take]; omega
  · rw [List.length_take]; omega
  · exact (clusterFold_pairwise _ [] (sortByCenterX_sorted _) List.Pairwise.nil
      (fun t ht => absurd ht (List.not_mem_nil _))).sublist (List.take_sublist _ _)
  · intro t ht
    rcases clusterFold_origin _ [] t (List.mem_of_mem_take ht) with h | ⟨e, he, hx⟩
    · exact absurd h (List.not_mem_nil _)
    · exact ⟨e, (sortByCenterX_mem _ e).1 he, hx⟩
  · intro c hc
    exact clusterFold_covers _ [] c ((sortByCenterX_mem _ c).2 hc)

/-- C9, amended, at the example: 5 bottom-region clickable elements centred at
x = 100, 300, 500, 700, 900 on a screen of width 1000 give exactly 5 tabs with
x = 100, 300, 500, 700, 900 in that order. -/
theorem C9_detect_clusters_witness :
    ((((SmartExplorer.fresh "com.app").setScreenSize 1000 1920).detectNavigationTabs
        fiveBottomElems).1.map (fun t => t.x) = [100, 300, 500, 700, 900]) ∧
    (((SmartExplorer.fresh "com.app").setScreenSize 1000 1920).detectNavigationTabs
        fiveBottomElems).1.Pairwise (fun a b => a.x + 80 ≤ b.x) :=
  ⟨by decide,
   (C9_detect_clusters "com.app" ⟨1000, 1920⟩ fiveBottomElems (by decide) (by decide)).2.2.2.1⟩

/-! ### Bounds -/

theorem span_digits (l : List Char) (d r : List Char) (h : l.span isJsDigit = (d, r)) :
    l = d ++ r ∧ ∀ c ∈ d, isJsDigit c = true := by
  rw [List.span_eq_take_drop] at h
  simp only [Prod.mk.injEq] at h
  obtain ⟨h1, h2⟩ := h
  subst h1 h2
  exact ⟨(List.takeWhile_append_dropWhile isJsDigit l).symm,
    fun c hc => List.mem_takeWhile_imp hc⟩

theorem matchBoundsAt_some (s : List Char) (b : Bounds) (h : matchBoundsAt s = some b) :
    ∃ d1 d2 d3 d4 post,
      d1 ≠ [] ∧ d2 ≠ [] ∧ d3 ≠ [] ∧ d4 ≠ [] ∧
      (∀ c ∈ d1 ++ d2 ++ d3 ++ d4, isJsDigit c = true) ∧
      s = '[' :: (d1 ++ ',' :: (d2 ++ ']' :: '[' :: (d3 ++ ',' :: (d4 ++ ']' :: post)))) ∧
      b = ⟨parseInt d1, parseInt d2, parseInt d3, parseInt d4⟩ := by
  unfold matchBoundsAt at h
  split at h
  · rename_i r1
    split at h
    · rename_i d1 r2 e1
      split at h
      · rename_i d2 r3 e2
        split at h
        · rename_i d3 r4 e3
          split at h
          · rename_i d4 post e4
            split at h
            · exact absurd h (by simp)
            · rename_i hne
              simp only [Bool.or_eq_true, List.isEmpty_iff, not_or] at hne
              obtain ⟨⟨⟨n1, n2⟩, n3⟩, n4⟩ := hne
              obtain ⟨s1, g1⟩ := span_digits _ _ _ e1
              obtain ⟨s2, g2⟩ := span_digits _ _ _ e2
              obtain ⟨s3, g3⟩ := span_digits _ _ _ e3
              obtain ⟨s4, g4⟩ := span_digits _ _ _ e4
              refine ⟨d1, d2, d3, d4, post, n1, n2, n3, n4, ?_, ?_, ?_⟩
              · intro c hc
                simp only [List.mem_append] at hc
                rcases hc with ((hc | hc) | hc) | hc
                · exact g1 c hc
                · exact g2 c hc
                · exact g3 c hc
                · exact g4 c hc
              · rw [s1, s2, s3, s4]
              · exact (Option.some.inj h).symm
          · exact absurd h (by simp)
        · exact absurd h (by simp)
      · exact absurd h (by simp)
    · exact absurd h (by simp)
  · exact absurd h (by simp)

theorem searchBounds_some (s : List Char) : ∀ b, searchBounds s = some b →
    HasBoundsPattern s := by
  induction s with
  | nil => intro b h; exact absurd h (by simp [searchBounds])
  | cons c cs ih =>
    intro b h
    unfold searchBounds at h
    split at h
    · rename_i b' hb
      obtain ⟨d1, d2, d3, d4, post, n1, n2, n3, n4, hd, hs, _⟩ := matchBoundsAt_some _ _ hb
      exact ⟨[], d1, d2, d3, d4, post, n1, n2, n3, n4, hd, by rw [hs]; rfl⟩
    · obtain ⟨pre, d1, d2, d3, d4, post, n1, n2, n3, n4, hd, hs⟩ := ih b h
      exact ⟨c :: pre, d1, d2, d3, d4, post, n1, n2, n3, n4, hd, by rw [hs]; rfl⟩

theorem span_digits_append (d r : List Char) (x : Char) (hd : ∀ c ∈ d, isJsDigit c = true)
    (hx : isJsDigit x = false) : (d ++ x :: r).span isJsDigit = (d, x :: r) := by
  rw [List.span_eq_take_drop]
  induction d with
  | nil => simp [List.takeWhile, List.dropWhile, hx]
  | cons c cs ih =>
    have hc := hd c (List.mem_cons_self _ _)
    have := ih (fun c' h' => hd c' (List.mem_cons_of_mem _ h'))
    simp only [Prod.mk.injEq] at this
    simp only [List.cons_append, List.takeWhile_cons, List.dropWhile_cons, hc, if_true,
      Prod.mk.injEq, List.cons.injEq, true_and]
    exact this

theorem matchBoundsAt_complete (d1 d2 d3 d4 post : List Char)
    (n1 : d1 ≠ []) (n2 : d2 ≠ []) (n3 : d3 ≠ []) (n4 : d4 ≠ [])
    (hd : ∀ c ∈ d1 ++ d2 ++ d3 ++ d4, isJsDigit c = true) :
    matchBoundsAt ('[' :: (d1 ++ ',' :: (d2 ++ ']' :: '[' :: (d3 ++ ',' :: (d4 ++ ']' :: post)))))
      = some ⟨parseInt d1, parseInt d2, parseInt d3, parseInt d4⟩ := by
  have h1 : ∀ c ∈ d1, isJsDigit c = true := fun c h => hd c (by simp [h])
  have h2 : ∀ c ∈ d2, isJsDigit c = true := fun c h => hd c (by simp [h])
  have h3 : ∀ c ∈ d3, isJsDigit c = true := fun c h => hd c (by simp [h])
  have h4 : ∀ c ∈ d4, isJsDigit c = true := fun c h => hd c (by simp [h])
  unfold matchBoundsAt
  simp only [span_digits_append d1 _ ',' h1 (by decide),
    span_digits_append d2 _ ']' h2 (by decide),
    span_digits_append d3 _ ',' h3 (by decide),
    span_digits_append d4 _ ']' h4 (by decide)]
  have : (d1.isEmpty || d2.isEmpty || d3.isEmpty || d4.isEmpty) = false := by
    cases d1 <;> cases d2 <;> cases d3 <;> cases d4 <;> simp_all
  simp only [this, Bool.false_eq_true, if_false]

/-- The search of `parseBounds` finds a match in every text that contains the
bounds pattern. -/
theorem searchBounds_complete (s : List Char) (h : HasBoundsPattern s) :
    ∃ b, searchBounds s = some b := by
  obtain ⟨pre, d1, d2, d3, d4, post, n1, n2, n3, n4, hd, hs⟩ := h
  subst hs
  induction pre with
  | nil =>
    refine ⟨⟨parseInt d1, parseInt d2, parseInt d3, parseInt d4⟩, ?_⟩
    show searchBounds ('[' :: _) = _
    unfold searchBounds
    rw [matchBoundsAt_complete d1 d2 d3 d4 post n1 n2 n3 n4 hd]
  | cons c cs ih =>
    obtain ⟨b, hb⟩ := ih
    show ∃ b, searchBounds (c :: (cs ++ _)) = some b
    unfold searchBounds
    split
    · exact ⟨_, rfl⟩
    · exact ⟨b, hb⟩

theorem parseBounds_some (o : Option String) (b : Bounds) (h : parseBounds o = some b) :
    ∃ s, o = some s ∧ HasBoundsPattern s.data := by
  unfold parseBounds at h
  split at h
  · exact absurd h (by simp)
  · rename_i s
    split at h
    · exact absurd h (by simp)
    · exact ⟨s, rfl, searchBounds_some _ b h⟩

theorem createUIElement_some (screen : ScreenSize) (attrs : Attrs) (e : UIElement)
    (h : createUIElement screen attrs = some e) :
    ∃ b, parseBounds (attrGet attrs "bounds") = some b ∧ e.bounds = some b ∧
      b.x1 < b.x2 ∧ b.y1 < b.y2 ∧
      e.width = some ((b.x2 : Int) - b.x1) ∧ (10 : Int) ≤ (b.x2 : Int) - b.x1 ∧
      e.height = some ((b.y2 : Int) - b.y1) ∧ (10 : Int) ≤ (b.y2 : Int) - b.y1 ∧
      e.area = some (((b.x2 : Int) - b.x1) * ((b.y2 : Int) - b.y1)) ∧
      e.centerX = (((b.x1 + b.x2) / 2 : Nat) : Int) ∧
      e.centerY = (((b.y1 + b.y2) / 2 : Nat) : Int) := by
  unfold createUIElement at h
  split at h
  · exact absurd h (by simp)
  · rename_i b hb
    split at h
    · exact absurd h (by simp)
    · rename_i hdeg
      simp only [Bool.or_eq_true, decide_eq_true_eq, not_or, not_le] at hdeg
      simp only [] at h
      split at h
      · exact absurd h (by simp)
      · rename_i hsmall
        simp only [Bool.or_eq_true, decide_eq_true_eq, not_or, not_lt] at hsmall
        have he := (Option.some.inj h).symm
        subst he
        exact ⟨b, hb, rfl, hdeg.1, hdeg.2, rfl, hsmall.1, rfl, hsmall.2, rfl, rfl, rfl⟩

theorem parseNode_some (screen : ScreenSize) (attrString : List Char) (e : UIElement)
    (h : parseNode screen attrString = some e) :
    createUIElement screen (parseAttributes ⟨attrString⟩) = some e := by
  unfold parseNode at h
  simp only [] at h
  split at h
  · exact h
  · exact absurd h (by simp)

/-- C10: `parse` is total and drops a node with bad bounds: a node produces no
element whenever its bounds attribute is absent, does not contain the pattern
`[x1,y1][x2,y2]` of non-negative integers, has x2 <= x1 or y2 <= y1, or has
width or height below 10; and every element that `parse` returns has
width = x2 - x1 >= 10, height = y2 - y1 >= 10, area = width * height,
centerX = floor((x1 + x2) / 2) and centerY = floor((y1 + y2) / 2). -/
theorem C10_bounds_fail_closed (screen : ScreenSize) :
    (∀ attrString : List Char,
      (attrGet (parseAttributes ⟨attrString⟩) "bounds" = none ∨
       (∃ s, attrGet (parseAttributes ⟨attrString⟩) "bounds" = some s ∧
          ¬ HasBoundsPattern s.data) ∨
       (∃ b, parseBounds (attrGet (parseAttributes ⟨attrString⟩) "bounds") = some b ∧
          (b.x2 ≤ b.x1 ∨ b.y2 ≤ b.y1 ∨ (b.x2 : Int) - b.x1 < 10 ∨ (b.y2 : Int) - b.y1 < 10))) →
      parseNode screen attrString = none) ∧
    (∀ xml : String, ∀ e ∈ parse screen xml,
      ∃ b, e.bounds = some b ∧
        e.width = some ((b.x2 : Int) - b.x1) ∧ (10 : Int) ≤ (b.x2 : Int) - b.x1 ∧
        e.height = some ((b.y2 : Int) - b.y1) ∧ (10 : Int) ≤ (b.y2 : Int) - b.y1 ∧
        e.area = some (((b.x2 : Int) - b.x1) * ((b.y2 : Int) - b.y1)) ∧
        e.centerX = (((b.x1 + b.x2) / 2 : Nat) : Int) ∧
        e.centerY = (((b.y1 + b.y2) / 2 : Nat) : Int)) := by
  constructor
  · intro attrString hbad
    cases hres : parseNode screen attrString with
    | none => rfl
    | some e =>
      exfalso
      obtain ⟨b, hb, _, hx, hy, _, hw, _, hh, _⟩ :=
        createUIElement_some screen _ e (parseNode_some screen attrString e hres)
      rcases hbad with h | ⟨s, hs, hp⟩ | ⟨b', hb', hdeg⟩
      · rw [h] at hb
        exact absurd hb (by simp [parseBounds])
      · obtain ⟨s', hs', hp'⟩ := parseBounds_some _ b hb
        rw [hs] at hs'
        exact hp ((Option.some.inj hs') ▸ hp')
      · rw [hb] at hb'
        have e' := Option.some.inj hb'
        subst e'
        omega
  · intro xml e he
    unfold parse at he
    simp only [] at he
    rw [List.mem_filterMap] at he
    obtain ⟨attrString, _, hnode⟩ := he
    obtain ⟨b, _, hbounds, _, _, hw, hw10, hh, hh10, ha, hcx, hcy⟩ :=
      createUIElement_some screen _ e (parseNode_some screen attrString e hnode)
    exact ⟨b, hbounds, hw, hw10, hh, hh10, ha, hcx, hcy⟩

set_option maxRecDepth 20000 in
/-- C10 at a dump with a node without bounds, a node with malformed bounds, a
node with a negative origin, a node with x2 <= x1, a node of width 5 and a node of width and height 10: only
the last node gives an element. -/
theorem C10_bounds_fail_closed_witness :
    parseNode defaultScreenSize "clickable=\"true\"".data = none ∧
    ((parse defaultScreenSize badBoundsDump).map
      (fun e => (e.bounds, e.width, e.height, e.area, e.centerX, e.centerY))
        = [(some ⟨0, 0, 10, 10⟩, some 10, some 10, some 100, 5, 5)]) ∧
    (∀ e ∈ parse defaultScreenSize badBoundsDump,
      ∃ b, e.bounds = some b ∧
        e.width = some ((b.x2 : Int) - b.x1) ∧ (10 : Int) ≤ (b.x2 : Int) - b.x1 ∧
        e.height = some ((b.y2 : Int) - b.y1) ∧ (10 : Int) ≤ (b.y2 : Int) - b.y1 ∧
        e.area = some (((b.x2 : Int) - b.x1) * ((b.y2 : Int) - b.y1)) ∧
        e.centerX = (((b.x1 + b.x2) / 2 : Nat) : Int) ∧
        e.centerY = (((b.y1 + b.y2) / 2 : Nat) : Int)) :=
  ⟨(C10_bounds_fail_closed defaultScreenSize).1 "clickable=\"true\"".data (Or.inl (by decide)),
   by decide,
   (C10_bounds_fail_closed defaultScreenSize).2 badBoundsDump⟩

/-! ### Actionable containers -/

/-- C11, as stated, fails: a plain container whose bounds `[0,0][60,50]` parse
and whose area is exactly 3000, an end of the closed interval, is not
actionable. -/
theorem C11_counterexample :
    isPlainContainer containerOfArea3000 ∧
    parseBounds (attrGet containerOfArea3000 "bounds") = some ⟨0, 0, 60, 50⟩ ∧
    ((60 : Int) - 0) * ((50 : Int) - 0) = 3000 ∧
    isActionableElement containerOfArea3000 = false := by
  decide

/-- C11, amended: for every node that has no capability flag set, no NAF marker
and a class name that contains `ViewGroup` or `Layout` but none of the
interactive widget names, `isActionableElement` returns true if and only if its
bounds parse and the area (x2 - x1) * (y2 - y1) lies strictly between 3000 and
300000. -/
theorem C11_container_area (attrs : Attrs) (h : isPlainContainer attrs) :
    isActionableElement attrs = true ↔
      ∃ b, parseBounds (attrGet attrs "bounds") = some b ∧
        3000 < ((b.x2 : Int) - b.x1) * ((b.y2 : Int) - b.y1) ∧
        ((b.x2 : Int) - b.x1) * ((b.y2 : Int) - b.y1) < 300000 := by
  obtain ⟨h1, h2, h3, h4, h5, h6, h7, h8⟩ := h
  have hl : (includes (attrOrEmpty attrs "class") "ViewGroup" ||
      includes (attrOrEmpty attrs "class") "Layout") = true := by
    rcases h8 with h8 | h8 <;> simp [h8]
  unfold isActionableElement
  simp only [h1, h2, h3, h4, h5, h6, h7, hl, Bool.or_self, Bool.false_eq_true, if_false, if_true]
  cases hb : parseBounds (attrGet attrs "bounds") with
  | none => simp
  | some b => simp

/-- C11, amended, at a plain container of 100x100 pixels. -/
theorem C11_container_area_witness :
    isActionableElement containerOfArea10000 = true ↔
      ∃ b, parseBounds (attrGet containerOfArea10000 "bounds") = some b ∧
        3000 < ((b.x2 : Int) - b.x1) * ((b.y2 : Int) - b.y1) ∧
        ((b.x2 : Int) - b.x1) * ((b.y2 : Int) - b.y1) < 300000 :=
  C11_container_area containerOfArea10000 (by decide)

/-! ### Entity decoding -/

/-- C12 at the text `&quot;`: its escaped form is `&amp;quot;`, and
`parseAttributes` applied to `text="&amp;quot;"` returns the text value `"`,
a double quote, not `&quot;`: the chain of replacements decodes `&amp;` before
`&quot;`, `&#10;` and `&#13;`, so these three are decoded twice.  A text without
such a sequence, here `a<b & "c"`, is read back unchanged. -/
theorem C12_entity_decoded_twice :
    escapeEntities "&quot;" = "&amp;quot;" ∧
    attrGet (parseAttributes (textAttribute "&quot;")) "text" = some "\"" ∧
    attrGet (parseAttributes (textAttribute "&quot;")) "text" ≠ some "&quot;" ∧
    attrGet (parseAttributes (textAttribute "&#10;")) "text" = some "\n" ∧
    attrGet (parseAttributes (textAttribute "a<b & \"c\"")) "text" = some "a<b & \"c\"" := by
  decide

/-! ### Classifier -/

theorem firstInputKind_eq (c : String) :
    firstInputKind c =
      if includes c "search" || includes c "검색" then "input_search"
      else if includes c "email" || includes c "이메일" then "input_email"
      else if includes c "password" || includes c "비밀번호" then "input_password"
      else if includes c "phone" || includes c "전화" then "input_phone"
      else if includes c "message" || includes c "메시지" then "input_message"
      else if includes c "comment" || includes c "댓글" then "input_comment"
      else if includes c "name" || includes c "이름" then "input_name"
      else "input_text" := by
  unfold firstInputKind inputKeywordGroups
  simp only [List.find?_cons, includesAny, List.any_cons, List.any_nil, Bool.or_false]
  generalize (includes c "search" || includes c "검색") = b1
  generalize (includes c "email" || includes c "이메일") = b2
  generalize (includes c "password" || includes c "비밀번호") = b3
  generalize (includes c "phone" || includes c "전화") = b4
  generalize (includes c "message" || includes c "메시지") = b5
  generalize (includes c "comment" || includes c "댓글") = b6
  generalize (includes c "name" || includes c "이름") = b7
  cases b1 <;> cases b2 <;> cases b3 <;> cases b4 <;> cases b5 <;> cases b6 <;> cases b7 <;> rfl

theorem inferElementType_editField (screen : ScreenSize) (elem : UIElement)
    (h : isEditFieldClass elem) :
    inferElementType screen elem
      = firstInputKind (toLowerCase (joinThree elem.text elem.desc elem.resourceId)) := by
  have hc : (includes (toLowerCase elem.className) "edittext" ||
      includes (toLowerCase elem.className) "autocomplete") = true := by
    rcases h with h | h <;> simp [h]
  rw [toLowerCase_joinThree, firstInputKind_eq]
  unfold inferElementType
  simp only [hc, if_true]

/-- C13: for every element whose lower-cased class name contains `edittext` or
`autocomplete`, `inferElementType` returns the input kind of the first keyword
group, in the order search, email, password, phone, message, comment, name, that
occurs in the lower-cased text, description and resource id joined by spaces,
and `input_text` when none occurs; the result depends on no other attribute of
the element and not on the screen size. -/
theorem C13_edit_field_kind (screen : ScreenSize) (elem : UIElement)
    (h : isEditFieldClass elem) :
    inferElementType screen elem
      = firstInputKind (toLowerCase (joinThree elem.text elem.desc elem.resourceId)) ∧
    ∀ (screen' : ScreenSize) (elem' : UIElement),
      elem'.className = elem.className → elem'.text = elem.text → elem'.desc = elem.desc →
      elem'.resourceId = elem.resourceId →
      inferElementType screen' elem' = inferElementType screen elem := by
  refine ⟨inferElementType_editField screen elem h, ?_⟩
  intro screen' elem' hc ht hd hr
  have h' : isEditFieldClass elem' := by
    unfold isEditFieldClass at h ⊢
    rw [hc]; exact h
  rw [inferElementType_editField screen' elem' h', inferElementType_editField screen elem h,
    ht, hd, hr]

/-- C13 at an edit field whose hint names a password and an email: `email` is
tested before `password`, so the kind is `input_email`, also for a clickable
copy of the element on another screen. -/
theorem C13_edit_field_kind_witness :
    inferElementType defaultScreenSize emailPasswordField = "input_email" ∧
    inferElementType ⟨720, 1280⟩ { emailPasswordField with clickable := true, centerY := 5 }
      = inferElementType defaultScreenSize emailPasswordField :=
  ⟨(C13_edit_field_kind defaultScreenSize emailPasswordField (by decide)).1.trans (by decide),
   (C13_edit_field_kind defaultScreenSize emailPasswordField (by decide)).2 ⟨720, 1280⟩
     { emailPasswordField with clickable := true, centerY := 5 } rfl rfl rfl rfl⟩

theorem includesAny_joinThree (a b c : String) (kws : List String)
    (hk : ∀ kw ∈ kws, ' ' ∉ kw.data ∧ kw.data ≠ []) :
    includesAny (joinThree a b c) kws = true ↔
      ∃ kw ∈ kws, includes a kw = true ∨ includes b kw = true ∨ includes c kw = true := by
  unfold includesAny
  rw [List.any_eq_true]
  constructor
  · rintro ⟨kw, hm, h⟩
    rw [includes_joinThree a b c kw (hk kw hm).1 (hk kw hm).2] at h
    simp only [Bool.or_eq_true] at h
    exact ⟨kw, hm, by tauto⟩
  · rintro ⟨kw, hm, h⟩
    refine ⟨kw, hm, ?_⟩
    rw [includes_joinThree a b c kw (hk kw hm).1 (hk kw hm).2]
    simp only [Bool.or_eq_true]
    tauto

theorem inputLikeKeywords_shape : ∀ kw ∈ inputLikeKeywords, ' ' ∉ kw.data ∧ kw.data ≠ [] := by
  decide

/-- C14, as stated, fails: a focusable, not clickable plain view with the text
`Write a comment...` is classified `input_comment`, not `input_text`. -/
theorem C14_counterexample :
    commentBox.focusable = true ∧ commentBox.clickable = false ∧ noEarlierRule commentBox ∧
    hasInputLikeKeyword commentBox ∧
    inferElementType defaultScreenSize commentBox = "input_comment" ∧
    inferElementType defaultScreenSize commentBox ≠ "input_text" := by
  decide

/-- C14, amended: for every element that is focusable and not clickable, is
matched by none of the earlier classifier rules and whose lower-cased text,
description or resource id contains an input-like keyword, `inferElementType`
returns `input_comment`. -/
theorem C14_custom_input_is_comment (screen : ScreenSize) (elem : UIElement)
    (hf : elem.focusable = true) (hc : elem.clickable = false) (hn : noEarlierRule elem)
    (hk : hasInputLikeKeyword elem) :
    inferElementType screen elem = "input_comment" := by
  obtain ⟨h1, h2, h3, h4, h5, h6, h7, h8, h9, h10, h11, h12, h13⟩ := hn
  have hany : includesAny (joinThree (toLowerCase elem.text) (toLowerCase elem.desc)
      (toLowerCase elem.resourceId)) inputLikeKeywords = true :=
    (includesAny_joinThree _ _ _ _ inputLikeKeywords_shape).2 hk
  unfold inputLikeKeywords at hany
  unfold inferElementType
  simp only [h1, h2, h3, h4, h5, h6, h7, h8, h9, h10, h11, h12, h13, hf, hc, hany,
    Bool.or_self, Bool.false_eq_true, if_false, Bool.not_false, Bool.and_self, if_true]

/-- C14, amended, at the comment box. -/
theorem C14_custom_input_is_comment_witness :
    inferElementType defaultScreenSize commentBox = "input_comment" :=
  C14_custom_input_is_comment defaultScreenSize commentBox (by decide) (by decide) (by decide)
    (by decide)

/-! ### Binary64 products -/

theorem dropBits_spec (fuel : Nat) : ∀ n, n ≤ fuel →
    n / 2 ^ dropBits fuel n < 2 ^ 53 ∧
    (0 < dropBits fuel n → 2 ^ 52 ≤ n / 2 ^ dropBits fuel n) := by
  induction fuel with
  | zero =>
    intro n hn
    have : n = 0 := by omega
    subst this
    simp [dropBits]
  | succ f ih =>
    intro n hn
    unfold dropBits
    by_cases h : n < 2 ^ 53
    · simp only [h, if_true, pow_zero, Nat.div_one, lt_self_iff_false, false_implies, and_true]
    · simp only [h, if_false]
      have hf : n / 2 ≤ f := by omega
      obtain ⟨h1, h2⟩ := ih (n / 2) hf
      have e : n / 2 ^ (1 + dropBits f (n / 2)) = n / 2 / 2 ^ dropBits f (n / 2) := by
        rw [pow_add, pow_one, Nat.div_div_eq_div_mul]
      rw [e]
      refine ⟨h1, fun _ => ?_⟩
      by_cases h0 : 0 < dropBits f (n / 2)
      · exact h2 h0
      · have : dropBits f (n / 2) = 0 := by omega
        rw [this, pow_zero, Nat.div_one]
        omega

theorem dropBits_le (n : Nat) (hn : n < 2 ^ 101) : dropBits n n ≤ 48 := by
  by_contra hc
  have hs : 49 ≤ dropBits n n := by omega
  obtain ⟨_, h2⟩ := dropBits_spec n n (le_refl n)
  have h3 := h2 (by omega)
  have h4 : 2 ^ 49 ≤ 2 ^ dropBits n n := Nat.pow_le_pow_right (by decide) hs
  have h5 : n / 2 ^ dropBits n n ≤ n / 2 ^ 49 := Nat.div_le_div_left h4 (by positivity)
  have h6 : n / 2 ^ 49 < 2 ^ 52 := by
    rw [Nat.div_lt_iff_lt_mul (by positivity)]
    calc n < 2 ^ 101 := hn
      _ = 2 ^ 52 * 2 ^ 49 := by norm_num
  omega

theorem round53_cases (n : Nat) :
    round53 n = n / 2 ^ dropBits n n * 2 ^ dropBits n n ∨
    round53 n = (n / 2 ^ dropBits n n + 1) * 2 ^ dropBits n n := by
  unfold round53
  simp only []
  split
  · exact Or.inr rfl
  · exact Or.inl rfl

theorem round53_eq (n : Nat) :
    round53 n =
      if 2 ^ dropBits n n < 2 * (n % 2 ^ dropBits n n) ∨
          (2 * (n % 2 ^ dropBits n n) = 2 ^ dropBits n n ∧ n / 2 ^ dropBits n n % 2 = 1)
      then (n / 2 ^ dropBits n n + 1) * 2 ^ dropBits n n
      else n / 2 ^ dropBits n n * 2 ^ dropBits n n := by
  unfold round53
  simp only [gt_iff_lt, Bool.or_eq_true, decide_eq_true_eq, Bool.and_eq_true, beq_iff_eq]

set_option maxHeartbeats 4000000 in
/-- The binary64 comparison `cy > H * 0.85` agrees with the exact comparison
`17 H < 20 cy` for every screen height below `2^48`. -/
theorem gtMul_c085_iff (cy : Int) (H : Nat) (hH : H < 2 ^ 48) :
    gtMul cy H c085 = true ↔ 17 * (H : Int) < 20 * cy := by
  unfold gtMul c085
  simp only [decide_eq_true_eq]
  have hn : H * 7656119366529843 < 2 ^ 101 := by
    have : H * 7656119366529843 < 2 ^ 48 * 2 ^ 53 :=
      Nat.mul_lt_mul'' hH (by norm_num)
    calc H * 7656119366529843 < 2 ^ 48 * 2 ^ 53 := this
      _ = 2 ^ 101 := by norm_num
  have hs := dropBits_le _ hn
  obtain ⟨h1, h2⟩ := dropBits_spec _ _ (le_refl (H * 7656119366529843))
  rw [round53_eq]
  generalize dropBits (H * 7656119366529843) (H * 7656119366529843) = s at hs h1 h2 ⊢
  interval_cases s <;> simp only [Nat.reducePow, pow_zero] at h1 h2 ⊢ <;> split <;> omega

/-! ### Priority -/

theorem lookup_bounds (l : List (String × Int)) (hl : ∀ p ∈ l, 0 ≤ p.2 ∧ p.2 ≤ 55)
    (t : String) : 0 ≤ (l.lookup t).getD 0 ∧ (l.lookup t).getD 0 ≤ 55 := by
  induction l with
  | nil => simp [List.lookup]
  | cons p ps ih =>
    obtain ⟨k, v⟩ := p
    simp only [List.lookup]
    split
    · exact hl (k, v) (List.mem_cons_self _ _)
    · exact ih (fun q hq => hl q (List.mem_cons_of_mem _ hq))

theorem typeScore_bounds (t : String) : 0 ≤ typeScore t ∧ typeScore t ≤ 55 :=
  lookup_bounds typeScores (by decide) t

theorem lookup_not_mem (l : List (String × Int)) (t : String) (h : t ∉ l.map Prod.fst) :
    l.lookup t = none := by
  induction l with
  | nil => rfl
  | cons p ps ih =>
    obtain ⟨k, v⟩ := p
    simp only [List.map_cons, List.mem_cons, not_or] at h
    simp only [List.lookup]
    have : (t == k) = false := by simpa using h.1
    rw [this]
    exact ih h.2

/-- The score of a type outside the table is 0. -/
theorem typeScore_outside (t : String) (h : t ∉ typeScores.map Prod.fst) : typeScore t = 0 := by
  unfold typeScore
  rw [lookup_not_mem typeScores t h]
  rfl

/-- The score of a type of the table is the weight the table gives it. -/
theorem typeScore_inside : ∀ p ∈ typeScores, typeScore p.1 = p.2 := by
  decide

theorem typeScoreOrZero_eq (t : String) (h : t ∉ inheritedPropertyNames) :
    typeScoreOrZero t = some (typeScore t) := by
  unfold typeScoreOrZero
  have hc : inheritedPropertyNames.contains t = false := by
    simpa using h
  rw [hc]
  rfl

theorem classifierTypes_not_inherited : ∀ t ∈ classifierTypes, t ∉ inheritedPropertyNames := by
  decide

theorem typeScores_not_inherited : ∀ p ∈ typeScores, p.1 ∉ inheritedPropertyNames := by
  decide

theorem calculatePriority_eq (screen : ScreenSize) (elem : UIElement)
    (h : elem.elementType ∉ inheritedPropertyNames) :
    calculatePriority screen elem = some
      (typeScore elem.elementType
      + (if includesAny (toLowerCase (joinThree elem.text elem.desc elem.resourceId))
            priorityForensicKeywords = true then 25 else 0)
      + (if includesAny (toLowerCase (joinThree elem.text elem.desc elem.resourceId))
            prioritySubmitKeywords = true then 35 else 0)
      + (if elem.centerY < 200 then 12 else 0)
      + (if gtMul elem.centerY screen.height c085 = true then 30 else 0)
      + (if elem.NAF = true then 5 else 0)
      + (if 1 ≤ jsLength elem.text ∧ jsLength elem.text ≤ 29 then 8 else 0)) := by
  unfold calculatePriority
  simp only [typeScoreOrZero_eq _ h, Bool.and_eq_true, decide_eq_true_eq]
  have e : (0 < jsLength elem.text ∧ jsLength elem.text < 30) ↔
      (1 ≤ jsLength elem.text ∧ jsLength elem.text ≤ 29) := by omega
  simp only [e]

/-- The priority that `createUIElement` computes is a number: the type that
`inferElementType` returns is never an inherited property name. -/
theorem calculatePriority_typed (screen : ScreenSize) (elem : UIElement)
    (h : elem.elementType = inferElementType screen elem) :
    (calculatePriority screen elem).isSome = true := by
  have hn : elem.elementType ∉ inheritedPropertyNames := by
    rw [h]
    exact classifierTypes_not_inherited _ (inferElementType_mem screen elem)
  rw [calculatePriority_eq screen elem hn]
  rfl

/-- C15, as stated, fails: `constructor` is a type outside the table, and for
an element of this type without any bonus `calculatePriority` does not return
0, nor any other number: the read `typeScores['constructor']` finds the
function that every object inherits, and adding it to 0 gives a string. -/
theorem C15_counterexample :
    "constructor" ∉ typeScores.map Prod.fst ∧
    typeScore constructorElem.elementType = 0 ∧
    calculatePriority defaultScreenSize constructorElem = none ∧
    calculatePriority defaultScreenSize constructorElem ≠ some 0 ∧
    calculatePriority defaultScreenSize { constructorElem with elementType := "grid_point" }
      = some 0 := by
  decide

/-- C15, amended: for every element whose type is not the name of a property
inherited from `Object.prototype`, which holds for every type of the table and
for every type that `inferElementType` returns, and for every screen height H,
`calculatePriority` returns typeWeight[elementType] (0 for a type outside the
table) + 25 if the lower-cased text, description and resource id contain a
forensic keyword + 35 if they contain a submit keyword + 12 if centerY < 200 +
30 if centerY > H * 0.85 (for H below 2^48 the binary64 comparison is the exact
comparison 17 H < 20 centerY) + 5 if the element has the NAF marker + 8 if its
text has between 1 and 29 characters; the result is an integer between 0 and
170. -/
theorem C15_priority_formula (screen : ScreenSize) (elem : UIElement)
    (h : elem.elementType ∉ inheritedPropertyNames) :
    calculatePriority screen elem = some
      (typeScore elem.elementType
      + (if includesAny (toLowerCase (joinThree elem.text elem.desc elem.resourceId))
            priorityForensicKeywords = true then 25 else 0)
      + (if includesAny (toLowerCase (joinThree elem.text elem.desc elem.resourceId))
            prioritySubmitKeywords = true then 35 else 0)
      + (if elem.centerY < 200 then 12 else 0)
      + (if gtMul elem.centerY screen.height c085 = true then 30 else 0)
      + (if elem.NAF = true then 5 else 0)
      + (if 1 ≤ jsLength elem.text ∧ jsLength elem.text ≤ 29 then 8 else 0)) ∧
    (screen.height < 2 ^ 48 →
      (gtMul elem.centerY screen.height c085 = true ↔
        17 * (screen.height : Int) < 20 * elem.centerY)) ∧
    (elem.elementType ∉ typeScores.map Prod.fst → typeScore elem.elementType = 0) ∧
    (∀ p ∈ typeScores, elem.elementType = p.1 → typeScore elem.elementType = p.2) ∧
    (∃ priority : Int, calculatePriority screen elem = some priority ∧
      0 ≤ priority ∧ priority ≤ 170) ∧
    (∀ p ∈ typeScores, p.1 ∉ inheritedPropertyNames) ∧
    (∀ (screen' : ScreenSize) (elem' : UIElement),
      inferElementType screen' elem' ∉ inheritedPropertyNames) := by
  have hb := typeScore_bounds elem.elementType
  have hform := calculatePriority_eq screen elem h
  refine ⟨hform, fun hH => gtMul_c085_iff _ _ hH, typeScore_outside _,
    fun p hp he => he ▸ typeScore_inside p hp, ⟨_, hform, ?_, ?_⟩, typeScores_not_inherited,
    fun screen' elem' => classifierTypes_not_inherited _ (inferElementType_mem screen' elem')⟩
  · have := hb.1
    split_ifs <;> omega
  · have := hb.2
    split_ifs <;> omega

/-- C15, amended, at an element that collects every bonus on a screen of
height 220: the priority is 55 + 25 + 35 + 12 + 30 + 5 + 8 = 170; and at a type
outside the table. -/
theorem C15_priority_formula_witness :
    calculatePriority ⟨240, 220⟩ everyBonusElem = some 170 ∧
    (gtMul everyBonusElem.centerY 220 c085 = true ↔ 17 * ((220 : Nat) : Int) < 20 * 190) ∧
    typeScore "grid_point" = 0 ∧
    typeScore "navigation" = 55 :=
  ⟨(C15_priority_formula ⟨240, 220⟩ everyBonusElem (by decide)).1.trans (by decide),
   (C15_priority_formula ⟨240, 220⟩ everyBonusElem (by decide)).2.1 (by decide),
   (C15_priority_formula ⟨240, 220⟩ { everyBonusElem with elementType := "grid_point" }
     (by decide)).2.2.1 (by decide),
   (C15_priority_formula ⟨240, 220⟩ everyBonusElem (by decide)).2.2.2.1 ("navigation", 55)
     (by decide) rfl⟩

/-- C16, as stated, fails: the table gives `button_cancel` the weight 10 and
`focusable` the weight 12, so the weight of `button_cancel` is not above that
of `focusable`. -/
theorem C16_counterexample :
    typeScore "button_cancel" = 10 ∧ typeScore "focusable" = 12 ∧
    ¬ (typeScore "button_cancel" > typeScore "focusable") := by
  decide

/-- C16, amended: the type-weight table of `calculatePriority` ranks
navigation > button_submit > fab > button > each of input_comment,
input_message and input_text > input_search > each of checkbox, radio and
switch > clickable > scrollable > webview > focusable > button_cancel > other. -/
theorem C16_type_weight_ranking :
    typeScore "navigation" > typeScore "button_submit" ∧
    typeScore "button_submit" > typeScore "fab" ∧
    typeScore "fab" > typeScore "button" ∧
    typeScore "button" > typeScore "input_comment" ∧
    typeScore "button" > typeScore "input_message" ∧
    typeScore "button" > typeScore "input_text" ∧
    typeScore "input_comment" > typeScore "input_search" ∧
    typeScore "input_message" > typeScore "input_search" ∧
    typeScore "input_text" > typeScore "input_search" ∧
    typeScore "input_search" > typeScore "checkbox" ∧
    typeScore "input_search" > typeScore "radio" ∧
    typeScore "input_search" > typeScore "switch" ∧
    typeScore "checkbox" > typeScore "clickable" ∧
    typeScore "radio" > typeScore "clickable" ∧
    typeScore "switch" > typeScore "clickable" ∧
    typeScore "clickable" > typeScore "scrollable" ∧
    typeScore "scrollable" > typeScore "webview" ∧
    typeScore "webview" > typeScore "focusable" ∧
    typeScore "focusable" > typeScore "button_cancel" ∧
    typeScore "button_cancel" > typeScore "other" := by
  decide

/-- C17 on the code: the table gives `button_submit` the weight 50 and
`navigation` the weight 55, so of two elements that differ in their type only
the navigation item gets the higher priority, against the comment on the entry
of `button_submit`, which calls the send and post button the top priority; the
rest of the ordering holds: each of `button_submit` and `navigation` is above
`input_text`, which is above `clickable`, `scrollable` and `button_cancel` in
this order. -/
theorem C17_submit_below_navigation :
    typeScore "button_submit" = 50 ∧ typeScore "navigation" = 55 ∧
    calculatePriority defaultScreenSize plainSubmitButton = some 50 ∧
    calculatePriority defaultScreenSize plainNavigationItem = some 55 ∧
    ¬ (typeScore "button_submit" > typeScore "navigation") ∧
    typeScore "button_submit" > typeScore "input_text" ∧
    typeScore "navigation" > typeScore "input_text" ∧
    typeScore "input_text" > typeScore "clickable" ∧
    typeScore "clickable" > typeScore "scrollable" ∧
    typeScore "scrollable" > typeScore "button_cancel" := by
  decide

/-! ### Merge -/

theorem isDuplicate_iff (result : List UIElement) (x : UIElement) :
    isDuplicate result x = true ↔ ∃ e ∈ result, isNear e x := by
  unfold isDuplicate isNear
  rw [List.any_eq_true]
  constructor
  · rintro ⟨e, he, h⟩
    simp only [Bool.and_eq_true, decide_eq_true_eq] at h
    exact ⟨e, he, h⟩
  · rintro ⟨e, he, h⟩
    refine ⟨e, he, ?_⟩
    simp only [Bool.and_eq_true, decide_eq_true_eq]
    exact h

theorem mergeElements_append (base xs ys : List UIElement) :
    mergeElements base (xs ++ ys) = mergeElements (mergeElements base xs) ys := by
  unfold mergeElements
  rw [List.foldl_append]

theorem mergeElements_shape (adds : List UIElement) : ∀ base : List UIElement,
    ∃ kept, mergeElements base adds = base ++ kept ∧ kept.Sublist adds := by
  induction adds with
  | nil => intro base; exact ⟨[], by simp [mergeElements], List.Sublist.slnil⟩
  | cons a as ih =>
    intro base
    have hstep : mergeElements base (a :: as) =
        mergeElements (if isDuplicate base a then base else base ++ [a]) as := by
      unfold mergeElements
      rw [List.foldl_cons]
    rw [hstep]
    by_cases hd : isDuplicate base a = true
    · rw [if_pos hd]
      obtain ⟨kept, h1, h2⟩ := ih base
      exact ⟨kept, h1, h2.cons a⟩
    · rw [if_neg hd]
      obtain ⟨kept, h1, h2⟩ := ih (base ++ [a])
      exact ⟨a :: kept, by rw [h1, List.append_assoc]; rfl, h2.cons₂ a⟩

/-- C18: for every base list and every list of additions, `mergeElements`
returns the base list unchanged and in order, followed by additions in their
order; an addition is kept exactly when no element already in the result at
that moment, a base element or an addition kept earlier, has its centre fewer
than 40 pixels away on both axes, and every other addition is suppressed. -/
theorem C18_merge_rule (base additions : List UIElement) :
    (∃ kept, mergeElements base additions = base ++ kept ∧ kept.Sublist additions) ∧
    (∀ (earlier later : List UIElement) (a : UIElement), additions = earlier ++ a :: later →
      (mergeElements base earlier) <+: (mergeElements base additions) ∧
      ((∃ e ∈ mergeElements base earlier, isNear e a) →
        mergeElements base (earlier ++ [a]) = mergeElements base earlier) ∧
      ((¬ ∃ e ∈ mergeElements base earlier, isNear e a) →
        mergeElements base (earlier ++ [a]) = mergeElements base earlier ++ [a]) ∧
      mergeElements base additions = mergeElements (mergeElements base (earlier ++ [a])) later) := by
  refine ⟨mergeElements_shape additions base, ?_⟩
  intro earlier later a hsplit
  subst hsplit
  refine ⟨?_, ?_, ?_, ?_⟩
  · rw [mergeElements_append]
    obtain ⟨kept, h1, _⟩ := mergeElements_shape (a :: later) (mergeElements base earlier)
    exact ⟨kept, h1.symm⟩
  · intro h
    rw [mergeElements_append_singleton, (isDuplicate_iff _ _).2 h]
    simp
  · intro h
    have hd : isDuplicate (mergeElements base earlier) a = false := by
      cases hb : isDuplicate (mergeElements base earlier) a with
      | false => rfl
      | true => exact absurd ((isDuplicate_iff _ _).1 hb) h
    rw [mergeElements_append_singleton, hd]
    simp
  · rw [← mergeElements_append, List.append_assoc]
    rfl

/-- C18 at a base element at (100, 100) and the additions (120, 90), near the
base element, (300, 100), far from it, and (310, 130), near the second
addition: only the second addition is kept. -/
theorem C18_merge_rule_witness :
    mergeElements mergeBase mergeAdditions = mergeBase ++ [{ centerX := 300, centerY := 100 }] ∧
    mergeElements mergeBase ([{ centerX := 120, centerY := 90 }, { centerX := 300, centerY := 100 }]
        ++ [{ centerX := 310, centerY := 130 }])
      = mergeElements mergeBase [{ centerX := 120, centerY := 90 }, { centerX := 300, centerY := 100 }] ∧
    mergeElements mergeBase ([{ centerX := 120, centerY := 90 }] ++ [{ centerX := 300, centerY := 100 }])
      = mergeElements mergeBase [{ centerX := 120, centerY := 90 }]
          ++ [{ centerX := 300, centerY := 100 }] :=
  ⟨by decide,
   ((C18_merge_rule mergeBase mergeAdditions).2
      [{ centerX := 120, centerY := 90 }, { centerX := 300, centerY := 100 }] []
      { centerX := 310, centerY := 130 } rfl).2.1 (by decide),
   ((C18_merge_rule mergeBase mergeAdditions).2
      [{ centerX := 120, centerY := 90 }] [{ centerX := 310, centerY := 130 }]
      { centerX := 300, centerY := 100 } rfl).2.2.1 (by decide)⟩

/-! ### Acquisition -/

theorem sortByPriorityDesc_sorted (xs : List UIElement) :
    SortedByPriorityDesc (sortByPriorityDesc xs) := by
  haveI : IsTotal UIElement (fun a b => b.priority ≤ a.priority) := ⟨fun a b => le_total _ _⟩
  haveI : IsTrans UIElement (fun a b => b.priority ≤ a.priority) :=
    ⟨fun a b c h1 h2 => le_trans h2 h1⟩
  exact List.sorted_insertionSort (fun a b : UIElement => b.priority ≤ a.priority) xs

theorem getElements_sorted (d : MultiLayerUIDetector) (now : Int) (o : StageOutcomes)
    (hcache : ∀ c, d.elementCache = some c → SortedByPriorityDesc c) :
    SortedByPriorityDesc (d.getElements now o).1 ∧
    (d.getElements now o).2.elementCache = some (d.getElements now o).1 := by
  unfold MultiLayerUIDetector.getElements
  cases hc : d.elementCache with
  | none => exact ⟨sortByPriorityDesc_sorted _, rfl⟩
  | some cache =>
    simp only []
    split
    · exact ⟨hcache cache hc, hc⟩
    · exact ⟨sortByPriorityDesc_sorted _, rfl⟩

theorem callSequence_sorted (calls : List (Int × StageOutcomes)) :
    ∀ d : MultiLayerUIDetector, (∀ c, d.elementCache = some c → SortedByPriorityDesc c) →
    ∀ r ∈ d.callSequence calls, SortedByPriorityDesc r := by
  induction calls with
  | nil => intro d _ r hr; exact absurd hr (List.not_mem_nil _)
  | cons call rest ih =>
    intro d hcache r hr
    obtain ⟨now, o⟩ := call
    obtain ⟨h1, h2⟩ := getElements_sorted d now o hcache
    simp only [MultiLayerUIDetector.callSequence, List.mem_cons] at hr
    rcases hr with rfl | hr
    · exact h1
    · refine ih _ ?_ r hr
      intro c hc
      rw [h2] at hc
      exact (Option.some.inj hc) ▸ h1

/-- C19: on a detector created with any screen size, for every sequence of calls
of `getElements` and every outcome of the four acquisition stages in each call,
the list that a call returns, freshly acquired or taken from the cache, is
sorted by descending priority, and it is the list the detector caches. -/
theorem C19_getElements_sorted (screen : ScreenSize) (calls : List (Int × StageOutcomes)) :
    (∀ r ∈ ({ screenSize := screen } : MultiLayerUIDetector).callSequence calls,
      SortedByPriorityDesc r ∧
      r.Chain' (fun a b => a.priority ≥ b.priority)) ∧
    (∀ (now : Int) (o : StageOutcomes),
      SortedByPriorityDesc
        (({ screenSize := screen } : MultiLayerUIDetector).getElements now o).1 ∧
      (({ screenSize := screen } : MultiLayerUIDetector).getElements now o).2.elementCache
        = some (({ screenSize := screen } : MultiLayerUIDetector).getElements now o).1) := by
  have hfresh : ∀ c, ({ screenSize := screen } : MultiLayerUIDetector).elementCache = some c →
      SortedByPriorityDesc c := fun c hc => by simp at hc
  refine ⟨fun r hr => ?_, fun now o => getElements_sorted _ now o hfresh⟩
  have h := callSequence_sorted calls _ hfresh r hr
  exact ⟨h, List.Pairwise.chain' h⟩

/-- C19 at two calls 100 ms apart on a 1080x1920 detector: the first acquires
three elements of priorities 5, 40, 12 and returns them in the order 40, 12, 5;
the second returns the cached list. -/
theorem C19_getElements_sorted_witness :
    (({ screenSize := defaultScreenSize } : MultiLayerUIDetector).callSequence
        [(1000, threeElementOutcomes), (1100, failedOutcomes)]).map
        (fun r => r.map (fun e => e.priority)) = [[40, 12, 5], [40, 12, 5]] ∧
    ∀ r ∈ ({ screenSize := defaultScreenSize } : MultiLayerUIDetector).callSequence
        [(1000, threeElementOutcomes), (1100, failedOutcomes)],
      SortedByPriorityDesc r ∧ r.Chain' (fun a b => a.priority ≥ b.priority) :=
  ⟨by decide,
   (C19_getElements_sorted defaultScreenSize
      [(1000, threeElementOutcomes), (1100, failedOutcomes)]).1⟩

/-! ### Exploration candidates -/

theorem isLikelyClickable_bare (screen : ScreenSize) (e : UIElement) (h : isBareElement e) :
    isLikelyClickable screen e = false := by
  obtain ⟨h1, h2, h3, h4, h5, h6, h7⟩ := h
  have b1 : (BLACKLIST_PATTERNS.any fun p => p.test (toLowerCase (joinThree "" "" ""))) = false := by
    decide
  have b2 : includes (toLowerCase "") "webview" = false := by decide
  have b3 : includes "" "android.view.View" = false := by decide
  have b4 : (includes (toLowerCase "") "button" || includes (toLowerCase "") "imageview" ||
      includes (toLowerCase "") "textview" || includes (toLowerCase "") "framelayout" ||
      includes (toLowerCase "") "linearlayout" || includes (toLowerCase "") "relativelayout")
      = false := by decide
  have b5 : ("" : String).data.isEmpty = true := rfl
  unfold isLikelyClickable shouldSkipElement isInputCandidate
  simp only [h1, h2, h3, h4, h5, h6, h7, b1, b2, b3, b4, b5, Bool.false_and, Bool.and_false,
    Bool.false_eq_true, if_false, Bool.not_true, Bool.or_self, Bool.false_or]

theorem generateAdaptiveGrid_bare (screen : ScreenSize) :
    ∀ e ∈ generateAdaptiveGrid screen, isBareElement e := by
  obtain ⟨w, h⟩ := screen
  have hlist : generateAdaptiveGrid ⟨w, h⟩ =
      [ { centerX := 60, centerY := 100,
          elementType := "toolbar_left", signature := "grid_toolbar_left", priority := 15 },
        { centerX := (w : Int) - 60, centerY := 100,
          elementType := "toolbar_right", signature := "grid_toolbar_right", priority := 15 },
        gridNavPoint w h 1, gridNavPoint w h 2, gridNavPoint w h 3, gridNavPoint w h 4,
        gridNavPoint w h 5,
        gridPoint w h 0 0, gridPoint w h 0 1, gridPoint w h 0 2,
        gridPoint w h 1 0, gridPoint w h 1 1, gridPoint w h 1 2,
        gridPoint w h 2 0, gridPoint w h 2 1, gridPoint w h 2 2,
        gridPoint w h 3 0, gridPoint w h 3 1, gridPoint w h 3 2,
        gridPoint w h 4 0, gridPoint w h 4 1, gridPoint w h 4 2,
        { centerX := (w : Int) - 80, centerY := (h : Int) - 200,
          elementType := "fab", signature := "grid_fab", priority := 20 } ] := rfl
  intro e he
  rw [hlist] at he
  simp only [List.mem_cons, List.mem_singleton, List.not_mem_nil, or_false] at he
  rcases he with rfl | rfl | rfl | rfl | rfl | rfl | rfl | rfl | rfl | rfl | rfl | rfl | rfl |
    rfl | rfl | rfl | rfl | rfl | rfl | rfl | rfl | rfl | rfl <;>
  exact ⟨rfl, rfl, rfl, rfl, rfl, rfl, rfl⟩

theorem sortByPriorityDesc_mem (xs : List UIElement) (e : UIElement) :
    e ∈ sortByPriorityDesc xs ↔ e ∈ xs :=
  (List.perm_insertionSort (fun a b : UIElement => b.priority ≤ a.priority) xs).mem_iff

theorem mergeElements_nil_cons (a : UIElement) (as : List UIElement) :
    mergeElements [] (a :: as) = mergeElements [a] as := by
  unfold mergeElements
  rw [List.foldl_cons]
  rfl

theorem acquireElements_failed (screen : ScreenSize) :
    acquireElements screen failedOutcomes = mergeElements [] (generateAdaptiveGrid screen) := rfl

/-- C20, on the code: on a detector of any screen size, when the hierarchy dump
and the window dump fail and the vision classifier finds nothing, `getElements`
returns a non-empty list made of adaptive-grid elements only, and the list
`clickables` that `explore` builds from it with `isLikelyClickable` is empty:
the grid elements set neither `clickable` nor `focusable` nor a class. -/
theorem C20_grid_gives_no_candidate (screen : ScreenSize) (now : Int) :
    (({ screenSize := screen } : MultiLayerUIDetector).getElements now failedOutcomes).1 ≠ [] ∧
    (∀ e ∈ (({ screenSize := screen } : MultiLayerUIDetector).getElements now failedOutcomes).1,
      e ∈ generateAdaptiveGrid screen) ∧
    clickables screen
      (({ screenSize := screen } : MultiLayerUIDetector).getElements now failedOutcomes).1 = [] := by
  have hres : (({ screenSize := screen } : MultiLayerUIDetector).getElements now failedOutcomes).1
      = sortByPriorityDesc (mergeElements [] (generateAdaptiveGrid screen)) := by
    simp only [MultiLayerUIDetector.getElements, acquireElements_failed]
  have hin : ∀ e ∈ sortByPriorityDesc (mergeElements [] (generateAdaptiveGrid screen)),
      e ∈ generateAdaptiveGrid screen := by
    intro e he
    rcases mergeElements_subset _ _ _ ((sortByPriorityDesc_mem _ e).1 he) with h | h
    · exact absurd h (List.not_mem_nil _)
    · exact h
  rw [hres]
  refine ⟨?_, hin, ?_⟩
  · intro hnil
    have hmem : gridToolbarLeft ∈ mergeElements [] (generateAdaptiveGrid screen) := by
      have hg : generateAdaptiveGrid screen
          = gridToolbarLeft :: (generateAdaptiveGrid screen).tail := rfl
      obtain ⟨kept, hk, _⟩ := mergeElements_shape (generateAdaptiveGrid screen).tail
        [gridToolbarLeft]
      rw [hg, mergeElements_nil_cons, hk]
      simp
    have := (sortByPriorityDesc_mem _ _).2 hmem
    rw [hnil] at this
    exact absurd this (List.not_mem_nil _)
  · unfold clickables
    rw [List.filter_eq_nil_iff]
    intro e he
    rw [isLikelyClickable_bare screen e (generateAdaptiveGrid_bare screen e (hin e he))]
    simp

/-! ### Fallback tabs -/

theorem clusterTabs_length_le (xs : List UIElement) :
    (clusterTabs (sortByCenterX xs)).length ≤ xs.length := by
  have := clusterFold_length (sortByCenterX xs) []
  rw [sortByCenterX_length] at this
  unfold clusterTabs
  simpa using this

theorem detectNavigationTabs_fallback (pkg : String) (screen : ScreenSize)
    (elements : List UIElement)
    (hnav : (elements.filter namesTabWidget).length < 3)
    (hfew : (elements.filter (isBottomCandidate screen)).length < 2) :
    ((SmartExplorer.fresh pkg).setScreenSize screen.width screen.height).detectNavigationTabs
      elements
      = (fallbackTabs screen,
         { (SmartExplorer.fresh pkg).setScreenSize screen.width screen.height with
           detectedNavTabs := fallbackTabs screen, navTabsDetected := true }) := by
  unfold SmartExplorer.detectNavigationTabs
  have h1 : ¬ (elements.filter namesTabWidget).length ≥ 3 := by omega
  simp only [SmartExplorer.fresh, SmartExplorer.setScreenSize, Bool.false_and, Bool.false_eq_true,
    if_false, h1, hfew, if_true, Bool.not_false]

/-- C21, as stated, fails: on a fresh explorer with a 1000x1920 screen, two
bottom-region candidates 10 pixels apart, none of which names a tab widget,
form one cluster, fewer than 2, and `detectNavigationTabs` returns no tab, not
the five fallback tabs; the explorer is left as it was. -/
theorem C21_counterexample :
    (twoCloseElems.filter namesTabWidget).length < 3 ∧
    (clusterTabs (sortByCenterX (twoCloseElems.filter (isBottomCandidate ⟨1000, 1920⟩)))).length
      < 2 ∧
    (((SmartExplorer.fresh "com.app").setScreenSize 1000 1920).detectNavigationTabs
      twoCloseElems) = ([], (SmartExplorer.fresh "com.app").setScreenSize 1000 1920) ∧
    (((SmartExplorer.fresh "com.app").setScreenSize 1000 1920).detectNavigationTabs
      twoCloseElems).1 ≠ fallbackTabs ⟨1000, 1920⟩ := by
  decide

/-- C21, amended: on a fresh explorer, for every element list in which fewer
than 3 elements name a tab widget and fewer than 2 elements pass the
bottom-region filter, `detectNavigationTabs` returns, and stores as detected,
the fixed fallback of 5 tabs at x = Math.floor(w * 0.1), Math.floor(w * 0.3),
Math.floor(w * 0.5), Math.floor(w * 0.7), Math.floor(w * 0.9), the products
being binary64 products, and y = h - 80. -/
theorem C21_fallback_tabs (pkg : String) (screen : ScreenSize) (elements : List UIElement)
    (hnav : (elements.filter namesTabWidget).length < 3)
    (hfew : (elements.filter (isBottomCandidate screen)).length < 2) :
    (((SmartExplorer.fresh pkg).setScreenSize screen.width screen.height).detectNavigationTabs
        elements).1 = fallbackTabs screen ∧
    (((SmartExplorer.fresh pkg).setScreenSize screen.width screen.height).detectNavigationTabs
        elements).2.detectedNavTabs = fallbackTabs screen ∧
    (((SmartExplorer.fresh pkg).setScreenSize screen.width screen.height).detectNavigationTabs
        elements).2.navTabsDetected = true ∧
    (fallbackTabs screen).map (fun t => (t.x, t.y))
      = [ (floorMul screen.width c01, (screen.height : Int) - 80),
          (floorMul screen.width c03, (screen.height : Int) - 80),
          (floorMul screen.width c05, (screen.height : Int) - 80),
          (floorMul screen.width c07, (screen.height : Int) - 80),
          (floorMul screen.width c09, (screen.height : Int) - 80) ] ∧
    (clusterTabs (sortByCenterX (elements.filter (isBottomCandidate screen)))).length < 2 := by
  rw [detectNavigationTabs_fallback pkg screen elements hnav hfew]
  refine ⟨rfl, rfl, rfl, rfl, ?_⟩
  have := clusterTabs_length_le (elements.filter (isBottomCandidate screen))
  omega

/-- C21, amended, at a 1080x1920 screen with no element and at a 1000x1920
screen with one bottom-region candidate: the tabs are at x = 108, 324, 540,
756, 972, y = 1840, and at x = 100, 300, 500, 700, 900, y = 1840; on a screen
of width 1440 the fourth tab is at x = 1007, since the binary64 product
1440 * 0.7 lies below 1008. -/
theorem C21_fallback_tabs_witness :
    ((((SmartExplorer.fresh "com.app").setScreenSize 1080 1920).detectNavigationTabs []).1.map
      (fun t => (t.x, t.y))
      = [(108, 1840), (324, 1840), (540, 1840), (756, 1840), (972, 1840)]) ∧
    ((((SmartExplorer.fresh "com.app").setScreenSize 1000 1920).detectNavigationTabs
      oneBottomElem).1.map (fun t => (t.x, t.y))
      = [(100, 1840), (300, 1840), (500, 1840), (700, 1840), (900, 1840)]) ∧
    (fallbackTabs ⟨1440, 2560⟩).map (fun t => t.x) = [144, 432, 720, 1007, 1296] :=
  ⟨((C21_fallback_tabs "com.app" ⟨1080, 1920⟩ [] (by decide) (by decide)).1.symm ▸ by decide),
   ((C21_fallback_tabs "com.app" ⟨1000, 1920⟩ oneBottomElem (by decide) (by decide)).1.symm ▸
     by decide),
   by decide⟩

/-! ### Screen visits -/

theorem lookup_cons_ite {β : Type} (k a : String) (b : β) (m : List (String × β)) :
    ((a, b) :: m).lookup k = if k = a then some b else m.lookup k := by
  by_cases h : k = a
  · subst h; simp [List.lookup]
  · have h1 : (k == a) = false := by simpa using h
    simp [List.lookup, h1, h]

theorem lookup_append_pair {β : Type} (k : String) (l : List (String × β)) :
    ∀ m : List (String × β), (m ++ l).lookup k = (m.lookup k).or (l.lookup k) := by
  intro m
  induction m with
  | nil => simp
  | cons a m ih =>
    obtain ⟨a1, a2⟩ := a
    rw [List.cons_append, lookup_cons_ite, lookup_cons_ite, ih]
    by_cases h : k = a1 <;> simp [h]

theorem lookup_map_replace {β : Type} (k key : String) (v : β) :
    ∀ m : List (String × β),
      (m.map (fun kv => if kv.1 = key then (kv.1, v) else kv)).lookup k
        = if k = key then (m.lookup key).map (fun _ => v) else m.lookup k := by
  intro m
  induction m with
  | nil => simp
  | cons a m ih =>
    obtain ⟨a1, a2⟩ := a
    have hmap : ((a1, a2) :: m).map (fun kv => if kv.1 = key then (kv.1, v) else kv)
        = (if a1 = key then (a1, v) else (a1, a2))
          :: m.map (fun kv => if kv.1 = key then (kv.1, v) else kv) := rfl
    rw [hmap]
    by_cases ha : a1 = key
    · rw [if_pos ha, lookup_cons_ite, lookup_cons_ite, lookup_cons_ite, ih]
      by_cases hk : k = key <;> by_cases hka : k = a1 <;> simp_all
    · rw [if_neg ha, lookup_cons_ite, lookup_cons_ite, lookup_cons_ite, ih]
      by_cases hk : k = key <;> by_cases hka : k = a1 <;> simp_all

theorem lookup_mapSet {β : Type} (m : List (String × β)) (key k : String) (v : β) :
    (mapSet m key v).lookup k = if k = key then some v else m.lookup k := by
  unfold mapSet
  cases hm : m.lookup key with
  | none =>
    simp only [Option.isSome_none, Bool.false_eq_true, if_false, lookup_append_pair]
    by_cases hk : k = key
    · subst hk; simp [hm, lookup_cons_ite]
    · simp [hk, lookup_cons_ite]
  | some w =>
    simp only [Option.isSome_some, if_true, lookup_map_replace, hm, Option.map_some']

theorem updateScreenState_same (shortHash : String → String) (s : SmartExplorer)
    (elements : List UIElement)
    (h : computeScreenHash shortHash s.currentActivity elements = s.lastScreenHash) :
    s.updateScreenState shortHash elements
      = (decide (s.sameScreenCount + 1 > MAX_SAME_SCREEN),
         { s with sameScreenCount := s.sameScreenCount + 1 }) := by
  unfold SmartExplorer.updateScreenState
  simp only [h, if_true]

theorem updateScreenState_visits (shortHash : String → String) (s : SmartExplorer)
    (elements : List UIElement) (k : String) :
    (s.updateScreenState shortHash elements).2.visitCount k
      = s.visitCount k +
        (if computeScreenHash shortHash s.currentActivity elements = k ∧
            computeScreenHash shortHash s.currentActivity elements ≠ s.lastScreenHash
         then 1 else 0) := by
  by_cases heq : computeScreenHash shortHash s.currentActivity elements = s.lastScreenHash
  · rw [updateScreenState_same shortHash s elements heq]
    simp [SmartExplorer.visitCount, heq]
  · unfold SmartExplorer.updateScreenState SmartExplorer.visitCount
    simp only [heq, if_false]
    generalize computeScreenHash shortHash s.currentActivity elements = h at heq ⊢
    cases hl : s.screenVisits.lookup h with
    | none =>
      simp only [Option.isSome_none, Bool.false_eq_true, if_false, lookup_mapSet, if_true]
      by_cases hk : k = h
      · subst hk; simp [hl, heq]
      · have hk2 : ¬ h = k := fun e => hk e.symm
        simp [hk, hk2]
    | some w =>
      simp only [Option.isSome_some, if_true, hl, lookup_mapSet]
      by_cases hk : k = h
      · subst hk; simp [hl, heq]
      · have hk2 : ¬ h = k := fun e => hk e.symm
        simp [hk, hk2]

theorem updateScreenState_lastScreenHash (shortHash : String → String) (s : SmartExplorer)
    (elements : List UIElement) :
    (s.updateScreenState shortHash elements).2.lastScreenHash
      = computeScreenHash shortHash s.currentActivity elements := by
  by_cases heq : computeScreenHash shortHash s.currentActivity elements = s.lastScreenHash
  · rw [updateScreenState_same shortHash s elements heq]
    exact heq.symm
  · unfold SmartExplorer.updateScreenState
    simp only [heq, if_false]

theorem observeAll_visits (shortHash : String → String) (k : String) (obs : List Observation) :
    ∀ s : SmartExplorer,
      (s.observeAll shortHash obs).visitCount k
        = s.visitCount k
          + arrivals k (some s.lastScreenHash) (obs.map (Observation.hash shortHash)) := by
  induction obs with
  | nil => intro s; simp [SmartExplorer.observeAll, arrivals]
  | cons o os ih =>
    intro s
    have hstep : s.observeAll shortHash (o :: os)
        = (s.observe shortHash o).observeAll shortHash os := rfl
    rw [hstep, ih, List.map_cons, arrivals]
    have h1 := updateScreenState_visits shortHash { s with currentActivity := o.activity }
      o.elements k
    have h2 := updateScreenState_lastScreenHash shortHash { s with currentActivity := o.activity }
      o.elements
    unfold SmartExplorer.observe
    rw [h1, h2]
    simp only [Observation.hash, SmartExplorer.visitCount, ne_eq, Option.some.injEq]
    have e : (¬ s.lastScreenHash = computeScreenHash shortHash o.activity o.elements) ↔
        (¬ computeScreenHash shortHash o.activity o.elements = s.lastScreenHash) :=
      not_congr eq_comm
    simp only [e]
    omega

theorem computeScreenHash_ne_empty (shortHash : String → String)
    (hne : ∀ sig, shortHash sig ≠ "") (activity : String) (elements : List UIElement) :
    computeScreenHash shortHash activity elements ≠ "" := by
  unfold computeScreenHash
  split
  · decide
  · exact hne _

theorem arrivals_le_count (k : String) (hs : List String) :
    ∀ prev : Option String, arrivals k prev hs ≤ hs.count k := by
  induction hs with
  | nil => intro prev; simp [arrivals]
  | cons h hs ih =>
    intro prev
    rw [arrivals, List.count_cons]
    have := ih (some h)
    by_cases hk : h = k
    · subst hk
      simp only [true_and, beq_self_eq_true, if_true]
      split <;> omega
    · have hb : (h == k) = false := by simpa using hk
      simp only [hk, false_and, if_false, hb, Bool.false_eq_true]
      omega

theorem arrivals_start (k : String) (hs : List String) (hne : ∀ h ∈ hs, h ≠ "") :
    arrivals k (some "") hs = arrivals k none hs := by
  cases hs with
  | nil => rfl
  | cons h hs =>
    have : h ≠ "" := hne h (List.mem_cons_self _ _)
    have e : ("" : String) ≠ h := fun e => this e.symm
    simp [arrivals, e]

/-- C22, as stated, fails: after two observations of the same screen in a row
on a fresh explorer, two observations had its hash and the visit count stored
for it is 1; the repeat is counted in `sameScreenCount`. -/
theorem C22_counterexample :
    ([mainObservation, mainObservation].map (Observation.hash sampleHash)).count
        (mainObservation.hash sampleHash) = 2 ∧
    ((SmartExplorer.fresh "com.app").observeAll sampleHash
        [mainObservation, mainObservation]).visitCount (mainObservation.hash sampleHash) = 1 ∧
    ((SmartExplorer.fresh "com.app").observeAll sampleHash
        [mainObservation, mainObservation]).sameScreenCount = 1 := by
  decide

/-- C22, amended: after every sequence of observations on a fresh explorer, the
visit count stored for a screen hash equals the number of observations in the
sequence that had that hash and did not directly follow an observation of the
same hash; it is 1 after the first observation, it grows by 1 on every
observation of the hash that follows an observation of another hash, and an
observation that directly follows one of the same hash leaves the stored visits
as they are and adds 1 to `sameScreenCount`. -/
theorem C22_visit_count (shortHash : String → String) (hne : ∀ sig, shortHash sig ≠ "")
    (pkg : String) (obs : List Observation) (k : String) :
    ((SmartExplorer.fresh pkg).observeAll shortHash obs).visitCount k
      = arrivals k none (obs.map (Observation.hash shortHash)) ∧
    arrivals k none (obs.map (Observation.hash shortHash))
      ≤ (obs.map (Observation.hash shortHash)).count k ∧
    (∀ o : Observation,
      ((SmartExplorer.fresh pkg).observeAll shortHash [o]).visitCount (o.hash shortHash) = 1) ∧
    (∀ (s : SmartExplorer) (o : Observation), o.hash shortHash ≠ s.lastScreenHash →
      (s.observe shortHash o).visitCount (o.hash shortHash)
        = s.visitCount (o.hash shortHash) + 1) ∧
    (∀ (s : SmartExplorer) (o : Observation), o.hash shortHash = s.lastScreenHash →
      (s.observe shortHash o).screenVisits = s.screenVisits ∧
      (s.observe shortHash o).sameScreenCount = s.sameScreenCount + 1) := by
  have hall : ∀ h ∈ obs.map (Observation.hash shortHash), h ≠ "" := by
    intro h hh
    rw [List.mem_map] at hh
    obtain ⟨o, _, rfl⟩ := hh
    exact computeScreenHash_ne_empty shortHash hne _ _
  have hstep : ∀ (s : SmartExplorer) (o : Observation) (k : String),
      (s.observe shortHash o).visitCount k = s.visitCount k +
        (if o.hash shortHash = k ∧ o.hash shortHash ≠ s.lastScreenHash then 1 else 0) :=
    fun s o k => updateScreenState_visits shortHash { s with currentActivity := o.activity }
      o.elements k
  refine ⟨?_, arrivals_le_count _ _ _, ?_, ?_, ?_⟩
  · rw [observeAll_visits, ← arrivals_start k _ hall]
    simp [SmartExplorer.fresh, SmartExplorer.visitCount]
  · intro o
    have h0 : (SmartExplorer.fresh pkg).observeAll shortHash [o]
        = (SmartExplorer.fresh pkg).observe shortHash o := rfl
    rw [h0, hstep]
    have : o.hash shortHash ≠ "" := computeScreenHash_ne_empty shortHash hne _ _
    simp [SmartExplorer.fresh, SmartExplorer.visitCount, this]
  · intro s o h
    rw [hstep]
    simp [h]
  · intro s o h
    unfold SmartExplorer.observe
    rw [updateScreenState_same shortHash { s with currentActivity := o.activity } o.elements h]
    exact ⟨rfl, rfl⟩

theorem sampleHash_ne_empty (sig : String) : sampleHash sig ≠ "" := by
  intro h
  have := congrArg String.data h
  simp [sampleHash] at this

/-- C22, amended, at the sequence Main, Main, Menu, Main, Main: four
observations had the hash of Main, and it arrived twice. -/
theorem C22_visit_count_witness :
    ((SmartExplorer.fresh "com.app").observeAll sampleHash
        [mainObservation, mainObservation, menuObservation, mainObservation,
         mainObservation]).visitCount (mainObservation.hash sampleHash) = 2 ∧
    ([mainObservation, mainObservation, menuObservation, mainObservation,
        mainObservation].map (Observation.hash sampleHash)).count
        (mainObservation.hash sampleHash) = 4 :=
  ⟨(C22_visit_count sampleHash sampleHash_ne_empty "com.app"
      [mainObservation, mainObservation, menuObservation, mainObservation, mainObservation]
      (mainObservation.hash sampleHash)).1.trans (by decide),
   by decide⟩

/-! ### Foreground state -/

theorem startsWith_append_self (p t : List Char) : startsWith (p ++ t) p = true := by
  induction p with
  | nil => cases t <;> rfl
  | cons c cs ih => simp [startsWith, ih]

theorem includesChars_append_self (p t : List Char) : includesChars (p ++ t) p = true := by
  cases h : p ++ t with
  | nil =>
    have : p = [] := by
      cases p with
      | nil => rfl
      | cons c cs => simp at h
    subst this; rfl
  | cons c cs =>
    have := startsWith_append_self p t
    rw [h] at this
    simp [includesChars, this]

theorem firstSegment_activityOf (pkg activity : String) (h : '/' ∉ pkg.data) :
    firstSegment (activityOf pkg activity) = pkg := by
  apply String.ext
  simp only [firstSegment, activityOf, String.data_append]
  have : ∀ (l : List Char), '/' ∉ l → ∀ t : List Char,
      (l ++ ("/".data ++ t)).takeWhile (fun c => c != '/') = l := by
    intro l
    induction l with
    | nil => intro _ t; rfl
    | cons c cs ih =>
      intro hl t
      have hc : c ≠ '/' := fun e => hl (e ▸ List.mem_cons_self _ _)
      have hcs : '/' ∉ cs := fun e => hl (List.mem_cons_of_mem _ e)
      have hb : (c != '/') = true := by simpa using hc
      rw [List.cons_append, List.takeWhile_cons, hb, if_pos rfl, ih hcs t]
  simpa [List.append_assoc] using this pkg.data h activity.data

/-! ### Escape ladder -/

theorem escapeStep_one (screen : ScreenSize) (navIdx : Fin 5) (out : Option String)
    (a : UniversalAutomation) (h : a.explorer.noNewElementCount + 1 = 1) :
    escapeStep screen navIdx out a
      = ([ExploreEffect.adb (DeviceCommand.swipe 540 1500 540 500 300)],
         { a with explorer := { a.explorer with noNewElementCount := 1 } }) := by
  unfold escapeStep
  simp only [h, ge_iff_le, Nat.reduceLeDiff, if_false, if_true]

theorem escapeStep_two (screen : ScreenSize) (navIdx : Fin 5) (out : Option String)
    (a : UniversalAutomation) (h : a.explorer.noNewElementCount + 1 = 2) :
    escapeStep screen navIdx out a
      = ([ExploreEffect.adb (DeviceCommand.keyevent "KEYCODE_BACK")],
         { a with explorer := { a.explorer with noNewElementCount := 2 } }) := by
  unfold escapeStep
  simp only [h, ge_iff_le, Nat.reduceLeDiff, if_false, OfNat.ofNat_ne_one]

theorem escapeStep_nav (screen : ScreenSize) (navIdx : Fin 5) (out : Option String)
    (a : UniversalAutomation)
    (h : a.explorer.noNewElementCount + 1 = 3 ∨ a.explorer.noNewElementCount + 1 = 4) :
    escapeStep screen navIdx out a
      = ([ExploreEffect.adb (DeviceCommand.tap (floorMul screen.width (navRatio navIdx))
            ((screen.height : Int) - 50))],
         { a with explorer :=
            { a.explorer with
              noNewElementCount := a.explorer.noNewElementCount + 1
              globalClickedCoords :=
                if a.explorer.globalClickedCoords.length > 30
                then lastN 30 a.explorer.globalClickedCoords
                else a.explorer.globalClickedCoords } }) := by
  have h1 : ¬ a.explorer.noNewElementCount + 1 ≥ 5 := by omega
  have h2 : a.explorer.noNewElementCount + 1 ≥ 3 := by omega
  unfold escapeStep
  simp only [h1, h2, if_false, if_true]

theorem escapeStep_home (screen : ScreenSize) (navIdx : Fin 5) (out : Option String)
    (a : UniversalAutomation) (h : a.explorer.noNewElementCount + 1 ≥ 5) :
    escapeStep screen navIdx out a
      = (List.replicate 5 (ExploreEffect.adb (DeviceCommand.keyevent "KEYCODE_BACK"))
           ++ (if ({ a.explorer with noNewElementCount := a.explorer.noNewElementCount + 1 }
                    : SmartExplorer).getCurrentState out |>.1.state ≠ "IN_APP"
               then [ExploreEffect.relaunchWithFrida "stuck_recovery"] else [])
           ++ [ExploreEffect.checkFridaConnection],
         { a with explorer :=
            { (({ a.explorer with noNewElementCount := a.explorer.noNewElementCount + 1 }
                  : SmartExplorer).getCurrentState out).2 with
              globalClickedCoords := [], noNewElementCount := 0 } }) := by
  unfold escapeStep
  simp only [h, if_true]

theorem lastN_length (n : Nat) (xs : List String) (h : n ≤ xs.length) :
    (lastN n xs).length = n := by
  unfold lastN
  rw [List.length_drop]
  omega

theorem lastN_suffix (n : Nat) (xs : List String) : lastN n xs <:+ xs :=
  List.drop_suffix _ _

theorem homeReturn_test (a : UniversalAutomation) :
    (decide (a.totalActions > 0) && a.totalActions % 30 == 0) = true
      ↔ (a.totalActions > 0 ∧ a.totalActions % 30 = 0) := by
  simp

theorem selectionStage_home (screen : ScreenSize) (rnd : Randoms) (out : Option String)
    (a : UniversalAutomation) (elements clickables : List UIElement)
    (hh : a.totalActions > 0 ∧ a.totalActions % 30 = 0) :
    selectionStage screen rnd out a elements clickables
      = (StageOutcome.returnedHome (homeReturn out a).1, (homeReturn out a).2) := by
  unfold selectionStage
  rw [if_pos ((homeReturn_test a).2 hh)]

theorem selectionStage_back (screen : ScreenSize) (rnd : Randoms) (out : Option String)
    (a : UniversalAutomation) (elements clickables : List UIElement)
    (hh : ¬ (a.totalActions > 0 ∧ a.totalActions % 30 = 0)) (hc : clickables = []) :
    selectionStage screen rnd out a elements clickables
      = (StageOutcome.wentBack [ExploreEffect.adb (DeviceCommand.keyevent "KEYCODE_BACK")],
         { a with totalActions := a.totalActions + 1 }) := by
  unfold selectionStage
  rw [if_neg (fun h => hh ((homeReturn_test a).1 h)), hc]
  rfl

theorem isEmpty_false_of_ne {α : Type} (l : List α) (h : l ≠ []) : l.isEmpty = false := by
  cases l with
  | nil => exact absurd rfl h
  | cons x xs => rfl

theorem selectionStage_escape (screen : ScreenSize) (rnd : Randoms) (out : Option String)
    (a : UniversalAutomation) (elements clickables : List UIElement)
    (hh : ¬ (a.totalActions > 0 ∧ a.totalActions % 30 = 0)) (hc : clickables ≠ [])
    (h : unvisitedOf a.explorer clickables = []) :
    selectionStage screen rnd out a elements clickables
      = (StageOutcome.escaped (escapeStep screen rnd.navIdx out a).1,
         { (escapeStep screen rnd.navIdx out a).2 with
           totalActions := (escapeStep screen rnd.navIdx out a).2.totalActions + 1 }) := by
  unfold selectionStage
  rw [if_neg (fun h => hh ((homeReturn_test a).1 h)), isEmpty_false_of_ne clickables hc]
  simp only [h, List.isEmpty_nil, if_true, Bool.false_eq_true, if_false]

theorem selectionStage_untried (screen : ScreenSize) (rnd : Randoms) (out : Option String)
    (a : UniversalAutomation) (elements clickables : List UIElement)
    (h : unvisitedOf a.explorer clickables ≠ []) :
    (selectionStage screen rnd out a elements clickables).2.explorer.noNewElementCount = 0 ∧
    ∀ effects, (selectionStage screen rnd out a elements clickables).1
      ≠ StageOutcome.escaped effects := by
  have he := isEmpty_false_of_ne _ h
  have hc : clickables.isEmpty = false := by
    cases clickables with
    | nil => exact absurd rfl h
    | cons x xs => rfl
  unfold selectionStage
  split
  · exact ⟨rfl, fun _ hc => by cases hc⟩
  · simp only [hc, he, Bool.false_eq_true, if_false]
    split
    · exact ⟨rfl, fun _ hc => by cases hc⟩
    · split
      · exact ⟨rfl, fun _ hc => by cases hc⟩
      · exact ⟨rfl, fun _ hc => by cases hc⟩

theorem escapeStep_totalActions (screen : ScreenSize) (navIdx : Fin 5) (out : Option String)
    (a : UniversalAutomation) :
    (escapeStep screen navIdx out a).2.totalActions = a.totalActions := by
  unfold escapeStep
  simp only
  split
  · rfl
  · split
    · rfl
    · split <;> rfl

theorem escapeStep_counter (screen : ScreenSize) (navIdx : Fin 5) (out : Option String)
    (a : UniversalAutomation) :
    (escapeStep screen navIdx out a).2.explorer.noNewElementCount
      = if a.explorer.noNewElementCount + 1 ≥ 5 then 0 else a.explorer.noNewElementCount + 1 := by
  unfold escapeStep
  simp only
  split
  · rfl
  · split
    · rfl
    · split
      · rename_i h1 h2 h3
        rw [h3]
      · rfl

theorem escapeRun_counter (screen : ScreenSize) (steps : List (Fin 5 × Option String)) :
    ∀ a : UniversalAutomation, a.explorer.noNewElementCount < 5 →
      (escapeRun screen steps a).explorer.noNewElementCount
        = (a.explorer.noNewElementCount + steps.length) % 5 := by
  induction steps with
  | nil => intro a h; simp [escapeRun, Nat.mod_eq_of_lt h]
  | cons step rest ih =>
    intro a h
    have hc := escapeStep_counter screen step.1 step.2 a
    have hlt : (escapeStep screen step.1 step.2 a).2.explorer.noNewElementCount < 5 := by
      rw [hc]; split <;> omega
    rw [escapeRun, ih _ hlt, hc, List.length_cons]
    split <;> omega

/-- C23 fails on the code at two iterations in which no untried element exists.
On a fresh automation whose only detected element is the blacklisted button
`Privacy Policy`, the candidate list is empty: it is the first iteration with
no untried element, yet the iteration does not swipe but presses BACK once, and
the counter stays 0.  On an automation with 30 actions done and the counter 2
whose only candidate, at (5, 5), has been tried, it is the third such
iteration, yet the iteration does not tap the navigation position (756, 1870)
but returns home: BACK five times, a relaunch, the connection check, and the
counter is 0 afterwards with the tried set cleared; with 29 actions done the
same automation does tap (756, 1870). -/
theorem C23_counterexample :
    (clickables defaultScreenSize [privacyButton] = [] ∧
     unvisitedOf (automationWith 0 []).explorer (clickables defaultScreenSize [privacyButton])
       = [] ∧
     (selectionStage defaultScreenSize sampleRandoms none (automationWith 0 [])
         [privacyButton] (clickables defaultScreenSize [privacyButton])).1
       = StageOutcome.wentBack [ExploreEffect.adb (DeviceCommand.keyevent "KEYCODE_BACK")] ∧
     (selectionStage defaultScreenSize sampleRandoms none (automationWith 0 [])
         [privacyButton] (clickables defaultScreenSize [privacyButton])).1
       ≠ StageOutcome.escaped [ExploreEffect.adb (DeviceCommand.swipe 540 1500 540 500 300)] ∧
     (selectionStage defaultScreenSize sampleRandoms none (automationWith 0 [])
         [privacyButton]
         (clickables defaultScreenSize [privacyButton])).2.explorer.noNewElementCount = 0) ∧
    (clickables defaultScreenSize [clickableAt 5 5] = [clickableAt 5 5] ∧
     unvisitedOf (automationWith 2 ["0_0"]).explorer
         (clickables defaultScreenSize [clickableAt 5 5]) = [] ∧
     (selectionStage defaultScreenSize sampleRandoms none
         { automationWith 2 ["0_0"] with totalActions := 30 }
         [clickableAt 5 5] (clickables defaultScreenSize [clickableAt 5 5])).1
       = StageOutcome.returnedHome
           [ExploreEffect.adb (DeviceCommand.keyevent "KEYCODE_BACK"),
            ExploreEffect.adb (DeviceCommand.keyevent "KEYCODE_BACK"),
            ExploreEffect.adb (DeviceCommand.keyevent "KEYCODE_BACK"),
            ExploreEffect.adb (DeviceCommand.keyevent "KEYCODE_BACK"),
            ExploreEffect.adb (DeviceCommand.keyevent "KEYCODE_BACK"),
            ExploreEffect.relaunchWithFrida "home_return",
            ExploreEffect.checkFridaConnection] ∧
     (selectionStage defaultScreenSize sampleRandoms none
         { automationWith 2 ["0_0"] with totalActions := 30 }
         [clickableAt 5 5] (clickables defaultScreenSize [clickableAt 5 5])).1
       ≠ StageOutcome.escaped [ExploreEffect.adb (DeviceCommand.tap 756 1870)] ∧
     (selectionStage defaultScreenSize sampleRandoms none
         { automationWith 2 ["0_0"] with totalActions := 30 }
         [clickableAt 5 5]
         (clickables defaultScreenSize [clickableAt 5 5])).2.explorer.noNewElementCount = 0 ∧
     (selectionStage defaultScreenSize sampleRandoms none
         { automationWith 2 ["0_0"] with totalActions := 30 }
         [clickableAt 5 5]
         (clickables defaultScreenSize [clickableAt 5 5])).2.explorer.globalClickedCoords = [] ∧
     (selectionStage defaultScreenSize sampleRandoms none
         { automationWith 2 ["0_0"] with totalActions := 29 }
         [clickableAt 5 5] (clickables defaultScreenSize [clickableAt 5 5])).1
       = StageOutcome.escaped [ExploreEffect.adb (DeviceCommand.tap 756 1870)]) := by
  decide

/-- C23, amended: in an iteration of `explore` that detects the elements, is not
the periodic home return (done every 30 actions) and has a non-empty candidate
list none of whose elements is untried, the escape remedy is chosen by the
counter c of such iterations, incremented first: c = 1 swipes up, c = 2 presses
back, c = 3 or 4 taps a heuristic navigation position and cuts the
tried-coordinate set to its 30 most recently added keys when it holds more than
30, and c >= 5 presses back five times towards home, clears the
tried-coordinate set and sets the counter to 0.  The periodic home return
presses back five times, clears the tried-coordinate set and sets the counter
to 0, whatever the candidates are; an iteration with an empty candidate list
presses back once and leaves the counter and the tried-coordinate set as they
are.  In every iteration in which an untried element exists no remedy of the
ladder is run and the counter is 0 afterwards.  From the counter 0, after n
consecutive runs of the escape branch the counter is n modulo 5. -/
theorem C23_escape_ladder (screen : ScreenSize) (rnd : Randoms) (out : Option String)
    (a : UniversalAutomation) (elements : List UIElement) :
    ((a.totalActions > 0 ∧ a.totalActions % 30 = 0) →
      (selectionStage screen rnd out a elements (clickables screen elements)).1
        = StageOutcome.returnedHome (homeReturn out a).1 ∧
      List.replicate 5 (ExploreEffect.adb (DeviceCommand.keyevent "KEYCODE_BACK"))
        <+: (homeReturn out a).1 ∧
      (selectionStage screen rnd out a elements
        (clickables screen elements)).2.explorer.globalClickedCoords = [] ∧
      (selectionStage screen rnd out a elements
        (clickables screen elements)).2.explorer.noNewElementCount = 0 ∧
      (selectionStage screen rnd out a elements (clickables screen elements)).2.totalActions
        = a.totalActions + 1) ∧
    (¬ (a.totalActions > 0 ∧ a.totalActions % 30 = 0) → clickables screen elements = [] →
      (selectionStage screen rnd out a elements (clickables screen elements)).1
        = StageOutcome.wentBack [ExploreEffect.adb (DeviceCommand.keyevent "KEYCODE_BACK")] ∧
      (selectionStage screen rnd out a elements (clickables screen elements)).2.explorer
        = a.explorer ∧
      (selectionStage screen rnd out a elements (clickables screen elements)).2.totalActions
        = a.totalActions + 1) ∧
    (¬ (a.totalActions > 0 ∧ a.totalActions % 30 = 0) → clickables screen elements ≠ [] →
      unvisitedOf a.explorer (clickables screen elements) = [] →
      (selectionStage screen rnd out a elements (clickables screen elements)).1
        = StageOutcome.escaped (escapeStep screen rnd.navIdx out a).1 ∧
      (selectionStage screen rnd out a elements (clickables screen elements)).2.explorer
        = (escapeStep screen rnd.navIdx out a).2.explorer ∧
      (selectionStage screen rnd out a elements (clickables screen elements)).2.totalActions
        = a.totalActions + 1 ∧
      (a.explorer.noNewElementCount + 1 = 1 →
        (escapeStep screen rnd.navIdx out a).1
          = [ExploreEffect.adb (DeviceCommand.swipe 540 1500 540 500 300)] ∧
        (escapeStep screen rnd.navIdx out a).2.explorer.noNewElementCount = 1 ∧
        (escapeStep screen rnd.navIdx out a).2.explorer.globalClickedCoords
          = a.explorer.globalClickedCoords) ∧
      (a.explorer.noNewElementCount + 1 = 2 →
        (escapeStep screen rnd.navIdx out a).1
          = [ExploreEffect.adb (DeviceCommand.keyevent "KEYCODE_BACK")] ∧
        (escapeStep screen rnd.navIdx out a).2.explorer.noNewElementCount = 2 ∧
        (escapeStep screen rnd.navIdx out a).2.explorer.globalClickedCoords
          = a.explorer.globalClickedCoords) ∧
      (a.explorer.noNewElementCount + 1 = 3 ∨ a.explorer.noNewElementCount + 1 = 4 →
        (escapeStep screen rnd.navIdx out a).1
          = [ExploreEffect.adb (DeviceCommand.tap (floorMul screen.width (navRatio rnd.navIdx))
              ((screen.height : Int) - 50))] ∧
        (escapeStep screen rnd.navIdx out a).2.explorer.noNewElementCount
          = a.explorer.noNewElementCount + 1 ∧
        (a.explorer.globalClickedCoords.length ≤ 30 →
          (escapeStep screen rnd.navIdx out a).2.explorer.globalClickedCoords
            = a.explorer.globalClickedCoords) ∧
        (a.explorer.globalClickedCoords.length > 30 →
          (escapeStep screen rnd.navIdx out a).2.explorer.globalClickedCoords
            = lastN 30 a.explorer.globalClickedCoords ∧
          (escapeStep screen rnd.navIdx out a).2.explorer.globalClickedCoords.length = 30 ∧
          (escapeStep screen rnd.navIdx out a).2.explorer.globalClickedCoords
            <:+ a.explorer.globalClickedCoords)) ∧
      (a.explorer.noNewElementCount + 1 ≥ 5 →
        List.replicate 5 (ExploreEffect.adb (DeviceCommand.keyevent "KEYCODE_BACK"))
          <+: (escapeStep screen rnd.navIdx out a).1 ∧
        (escapeStep screen rnd.navIdx out a).2.explorer.globalClickedCoords = [] ∧
        (escapeStep screen rnd.navIdx out a).2.explorer.noNewElementCount = 0)) ∧
    (unvisitedOf a.explorer (clickables screen elements) ≠ [] →
      (selectionStage screen rnd out a elements
        (clickables screen elements)).2.explorer.noNewElementCount = 0 ∧
      ∀ effects, (selectionStage screen rnd out a elements (clickables screen elements)).1
        ≠ StageOutcome.escaped effects) ∧
    (∀ steps : List (Fin 5 × Option String), a.explorer.noNewElementCount = 0 →
      (escapeRun screen steps a).explorer.noNewElementCount = steps.length % 5) := by
  refine ⟨fun hh => ?_, fun hh hc => ?_, fun hh hc h => ⟨?_, ?_, ?_, ?_, ?_, ?_, ?_⟩,
    selectionStage_untried screen rnd out a elements (clickables screen elements),
    fun steps h0 => by
      rw [escapeRun_counter screen steps a (by omega), h0, Nat.zero_add]⟩
  · rw [selectionStage_home screen rnd out a elements _ hh]
    exact ⟨rfl, ⟨_, (List.append_assoc _ _ _).symm⟩, rfl, rfl, rfl⟩
  · rw [selectionStage_back screen rnd out a elements _ hh hc]
    exact ⟨rfl, rfl, rfl⟩
  · rw [selectionStage_escape screen rnd out a elements _ hh hc h]
  · rw [selectionStage_escape screen rnd out a elements _ hh hc h]
  · rw [selectionStage_escape screen rnd out a elements _ hh hc h]
    show (escapeStep screen rnd.navIdx out a).2.totalActions + 1 = a.totalActions + 1
    rw [escapeStep_totalActions]
  · intro hc
    rw [escapeStep_one screen rnd.navIdx out a hc]
    exact ⟨rfl, rfl, rfl⟩
  · intro hc
    rw [escapeStep_two screen rnd.navIdx out a hc]
    exact ⟨rfl, rfl, rfl⟩
  · intro hc
    rw [escapeStep_nav screen rnd.navIdx out a hc]
    refine ⟨rfl, rfl, ?_, ?_⟩
    · intro hl
      have : ¬ a.explorer.globalClickedCoords.length > 30 := by omega
      exact if_neg this
    · intro hl
      have e : (if a.explorer.globalClickedCoords.length > 30
          then lastN 30 a.explorer.globalClickedCoords else a.explorer.globalClickedCoords)
          = lastN 30 a.explorer.globalClickedCoords := if_pos hl
      have h1 := lastN_length 30 a.explorer.globalClickedCoords (by omega)
      have h2 := lastN_suffix 30 a.explorer.globalClickedCoords
      rw [← e] at h1 h2
      exact ⟨e, h1, h2⟩
  · intro hc
    rw [escapeStep_home screen rnd.navIdx out a hc]
    refine ⟨⟨_, (List.append_assoc _ _ _).symm⟩, rfl, rfl⟩

/-- C23, amended, on a 1080x1920 screen.  At an explorer that has counted 2
iterations and holds 32 tried coordinates, where the only candidate has been
tried: the third remedy taps the navigation position (756, 1870) and the 30
most recent coordinates are kept; at the same explorer with the candidate at
(500, 500) untried the counter is 0 afterwards; with 30 actions done the
iteration returns home and clears the tried coordinates; on a screen whose only
element is blacklisted the iteration presses BACK; and three runs of the escape
branch from a fresh explorer leave the counter at 3. -/
theorem C23_escape_ladder_witness :
    (selectionStage defaultScreenSize sampleRandoms none (automationWith 2 manyCoords)
        [clickableAt 5 5] (clickables defaultScreenSize [clickableAt 5 5])).1
      = StageOutcome.escaped [ExploreEffect.adb (DeviceCommand.tap 756 1870)] ∧
    (selectionStage defaultScreenSize sampleRandoms none (automationWith 2 manyCoords)
        [clickableAt 5 5]
        (clickables defaultScreenSize [clickableAt 5 5])).2.explorer.globalClickedCoords
      = manyCoords.drop 2 ∧
    (selectionStage defaultScreenSize sampleRandoms none (automationWith 2 manyCoords)
        [clickableAt 500 500]
        (clickables defaultScreenSize [clickableAt 500 500])).2.explorer.noNewElementCount = 0 ∧
    (selectionStage defaultScreenSize sampleRandoms none
        { automationWith 2 manyCoords with totalActions := 30 } [clickableAt 5 5]
        (clickables defaultScreenSize [clickableAt 5 5])).2.explorer.globalClickedCoords = [] ∧
    (selectionStage defaultScreenSize sampleRandoms none (automationWith 2 manyCoords)
        [privacyButton] (clickables defaultScreenSize [privacyButton])).1
      = StageOutcome.wentBack [ExploreEffect.adb (DeviceCommand.keyevent "KEYCODE_BACK")] ∧
    (escapeRun defaultScreenSize [(0, none), (1, none), (2, none)]
        (automationWith 0 [])).explorer.noNewElementCount = 3 :=
  ⟨((C23_escape_ladder defaultScreenSize sampleRandoms none (automationWith 2 manyCoords)
      [clickableAt 5 5]).2.2.1 (by decide) (by decide) (by decide)).1.trans
      (congrArg StageOutcome.escaped
        (((C23_escape_ladder defaultScreenSize sampleRandoms none (automationWith 2 manyCoords)
          [clickableAt 5 5]).2.2.1 (by decide) (by decide) (by decide)).2.2.2.2.2.1
            (Or.inl (by decide))).1) |>.trans (by decide),
   by decide,
   ((C23_escape_ladder defaultScreenSize sampleRandoms none (automationWith 2 manyCoords)
      [clickableAt 500 500]).2.2.2.1 (by decide)).1,
   ((C23_escape_ladder defaultScreenSize sampleRandoms none
      { automationWith 2 manyCoords with totalActions := 30 } [clickableAt 5 5]).1
        (by decide)).2.2.1,
   ((C23_escape_ladder defaultScreenSize sampleRandoms none (automationWith 2 manyCoords)
      [privacyButton]).2.1 (by decide) (by decide)).1,
   (C23_escape_ladder defaultScreenSize sampleRandoms none (automationWith 0 [])
      []).2.2.2.2 [(0, none), (1, none), (2, none)] rfl⟩

/-! ### Submit discovery: order of stage 1 -/

theorem findSome_split {α β : Type} (f : α → Option β) (b : β) :
    ∀ l : List α, l.findSome? f = some b →
      ∃ l1 a l2, l = l1 ++ a :: l2 ∧ f a = some b ∧ ∀ x ∈ l1, f x = none := by
  intro l
  induction l with
  | nil => intro h; simp at h
  | cons x xs ih =>
    intro h
    rw [List.findSome?_cons] at h
    cases hx : f x with
    | some y =>
      rw [hx] at h
      exact ⟨[], x, xs, rfl, hx.trans h, fun _ hm => absurd hm (List.not_mem_nil _)⟩
    | none =>
      rw [hx] at h
      obtain ⟨l1, a, l2, e, ha, hall⟩ := ih h
      refine ⟨x :: l1, a, l2, by rw [e]; rfl, ha, ?_⟩
      intro y hy
      rcases List.mem_cons.1 hy with rfl | hy
      · exact hx
      · exact hall y hy

theorem find_append_cases {α : Type} (p : α → Bool) (l1 l2 : List α) (a : α)
    (h : (l1 ++ l2).find? p = some a) :
    l1.find? p = some a ∨ (l1.find? p = none ∧ l2.find? p = some a) := by
  rw [List.find?_append] at h
  cases h1 : l1.find? p with
  | some y => rw [h1] at h; exact Or.inl (by simpa using h)
  | none => rw [h1] at h; exact Or.inr ⟨rfl, by simpa using h⟩

theorem submitByKeyword_order (elements : List UIElement) (e : UIElement)
    (h : submitByKeyword elements = some e) :
    ∃ earlier pattern later, submitPatterns = earlier ++ pattern :: later ∧
      (∀ q ∈ earlier, ∀ x ∈ elements, matchesPattern q x = false) ∧
      matchesPattern pattern e = true ∧
      ((elements.filter isButtonElement).find? (matchesPattern pattern) = some e ∨
       ((elements.filter isButtonElement).find? (matchesPattern pattern) = none ∧
        elements.find? (matchesPattern pattern) = some e)) := by
  unfold submitByKeyword at h
  obtain ⟨earlier, pattern, later, hs, hp, hall⟩ := findSome_split _ e submitPatterns h
  refine ⟨earlier, pattern, later, hs, ?_, List.find?_some hp, find_append_cases _ _ _ _ hp⟩
  intro q hq x hx
  have := hall q hq
  rw [List.find?_eq_none] at this
  have hx2 := this x (List.mem_append_right _ hx)
  simpa using hx2

set_option maxRecDepth 20000 in
/-- C24, as stated, fails: on a screen with a clickable `OK` button and a
clickable `Send` text view, each containing a submit keyword, the element that
is tapped is the text view, which is not of a button class: `send` comes
before `ok` in the keyword list. -/
theorem C24_counterexample :
    (∃ b ∈ parse (submitParserScreen defaultScreenSize) okSendDump,
      b.clickable = true ∧ isButtonClass b ∧ hasSubmitKeyword b) ∧
    (∃ t ∈ parse (submitParserScreen defaultScreenSize) okSendDump,
      t.clickable = true ∧ ¬ isButtonClass t ∧ hasSubmitKeyword t) ∧
    (∃ t ∈ parse (submitParserScreen defaultScreenSize) okSendDump,
      findAndClickSubmit defaultScreenSize okSendDump none = SubmitAction.tapKeyword t ∧
      t.text = "Send" ∧ t.className = "android.widget.TextView" ∧ ¬ isButtonClass t ∧
      isButtonElement t = false) := by
  decide

/-- C24, amended: in stage 1 of `findAndClickSubmit` the keywords are tried in
list order and, for each keyword, buttons come first: for every parsed screen
on which some clickable element contains a submit keyword, the element that
is tapped contains the first keyword of the list that any clickable element
of the screen contains; it is the first button element that contains this
keyword when there is one, and otherwise the first element that contains
it. -/
theorem C24_keyword_order_then_buttons (explorerScreen : ScreenSize) (out : String)
    (nearElement : Option UIElement)
    (h : ∃ e ∈ parse (submitParserScreen explorerScreen) out,
      e.clickable = true ∧ hasSubmitKeyword e) :
    ∃ e ∈ parse (submitParserScreen explorerScreen) out,
      findAndClickSubmit explorerScreen out nearElement = SubmitAction.tapKeyword e ∧
      ∃ earlier pattern later, submitPatterns = earlier ++ pattern :: later ∧
        (∀ q ∈ earlier, ∀ x ∈ parse (submitParserScreen explorerScreen) out,
          matchesPattern q x = false) ∧
        matchesPattern pattern e = true ∧
        ((∃ b ∈ parse (submitParserScreen explorerScreen) out,
            isButtonElement b = true ∧ matchesPattern pattern b = true) →
          isButtonElement e = true ∧
          ((parse (submitParserScreen explorerScreen) out).filter isButtonElement).find?
            (matchesPattern pattern) = some e) ∧
        ((¬ ∃ b ∈ parse (submitParserScreen explorerScreen) out,
            isButtonElement b = true ∧ matchesPattern pattern b = true) →
          (parse (submitParserScreen explorerScreen) out).find? (matchesPattern pattern)
            = some e) := by
  obtain ⟨e, hin, hs, _, _⟩ := submitByKeyword_some _ h
  refine ⟨e, hin, ?_, ?_⟩
  · unfold findAndClickSubmit findSubmitAction
    simp only [hs]
  · obtain ⟨earlier, pattern, later, hsplit, hall, hm, hcase⟩ := submitByKeyword_order _ e hs
    refine ⟨earlier, pattern, later, hsplit, hall, hm, ?_, ?_⟩
    · rintro ⟨b, hb, hbb, hbm⟩
      rcases hcase with hc | ⟨hc, _⟩
      · have := List.mem_of_find?_eq_some hc
        exact ⟨(List.mem_filter.1 this).2, hc⟩
      · rw [List.find?_eq_none] at hc
        have := hc b (List.mem_filter.2 ⟨hb, hbb⟩)
        exact absurd hbm this
    · intro hno
      rcases hcase with hc | ⟨_, hc⟩
      · exfalso
        have hmem := List.mem_of_find?_eq_some hc
        exact hno ⟨e, (List.mem_filter.1 hmem).1, (List.mem_filter.1 hmem).2, hm⟩
      · exact hc

set_option maxRecDepth 20000 in
/-- C24, amended, at a screen with a `Send` text view before a `Send now`
button: the button is tapped. -/
theorem C24_keyword_order_then_buttons_witness :
    (∃ e ∈ parse (submitParserScreen defaultScreenSize) sendSendDump,
      findAndClickSubmit defaultScreenSize sendSendDump none = SubmitAction.tapKeyword e ∧
      ∃ earlier pattern later, submitPatterns = earlier ++ pattern :: later ∧
        (∀ q ∈ earlier, ∀ x ∈ parse (submitParserScreen defaultScreenSize) sendSendDump,
          matchesPattern q x = false) ∧
        matchesPattern pattern e = true ∧
        ((∃ b ∈ parse (submitParserScreen defaultScreenSize) sendSendDump,
            isButtonElement b = true ∧ matchesPattern pattern b = true) →
          isButtonElement e = true ∧
          ((parse (submitParserScreen defaultScreenSize) sendSendDump).filter
            isButtonElement).find? (matchesPattern pattern) = some e) ∧
        ((¬ ∃ b ∈ parse (submitParserScreen defaultScreenSize) sendSendDump,
            isButtonElement b = true ∧ matchesPattern pattern b = true) →
          (parse (submitParserScreen defaultScreenSize) sendSendDump).find?
            (matchesPattern pattern) = some e)) ∧
    (∃ e ∈ parse (submitParserScreen defaultScreenSize) sendSendDump,
      findAndClickSubmit defaultScreenSize sendSendDump none = SubmitAction.tapKeyword e ∧
      e.text = "Send now" ∧ isButtonClass e) :=
  ⟨C24_keyword_order_then_buttons defaultScreenSize sendSendDump none (by decide), by decide⟩

/-! ### Blacklist -/

theorem startsWith_append_right (p : List Char) : ∀ (s t : List Char),
    startsWith s p = true → startsWith (s ++ t) p = true := by
  induction p with
  | nil => intro s t _; cases s <;> cases t <;> rfl
  | cons a p ih =>
    intro s t h
    cases s with
    | nil => simp [startsWith] at h
    | cons c cs =>
      simp only [startsWith, Bool.and_eq_true] at h
      simp only [List.cons_append, startsWith, Bool.and_eq_true]
      exact ⟨h.1, ih cs t h.2⟩

theorem startsWith_length (p : List Char) : ∀ s : List Char,
    startsWith s p = true → p.length ≤ s.length := by
  induction p with
  | nil => intro s _; simp
  | cons a p ih =>
    intro s h
    cases s with
    | nil => simp [startsWith] at h
    | cons c cs =>
      simp only [startsWith, Bool.and_eq_true] at h
      have := ih cs h.2
      simp only [List.length_cons]
      omega

theorem gapThen_append (ok : Char → Bool) (lit : List Char) (k : List Char → Bool)
    (hk : ∀ s t, k s = true → k (s ++ t) = true) :
    ∀ s t, gapThen ok lit k s = true → gapThen ok lit k (s ++ t) = true := by
  intro s
  induction s with
  | nil =>
    intro t h
    simp only [gapThen, Bool.and_eq_true, List.isEmpty_iff] at h
    obtain ⟨hl, hk0⟩ := h
    subst hl
    cases t with
    | nil => simp [gapThen, hk0]
    | cons c cs =>
      have := hk [] (c :: cs) hk0
      simp only [List.nil_append] at this
      simp [gapThen, startsWith, this]
  | cons c cs ih =>
    intro t h
    simp only [gapThen, Bool.or_eq_true, Bool.and_eq_true] at h
    simp only [List.cons_append, gapThen, Bool.or_eq_true, Bool.and_eq_true]
    rcases h with ⟨h1, h2⟩ | ⟨h1, h2⟩
    · left
      refine ⟨startsWith_append_right lit (c :: cs) t h1, ?_⟩
      have hlen := startsWith_length lit (c :: cs) h1
      have hd : (c :: (cs ++ t)).drop lit.length = (c :: cs).drop lit.length ++ t := by
        rw [← List.cons_append, List.drop_append_of_le_length hlen]
      show k ((c :: (cs ++ t)).drop lit.length) = true
      rw [hd]
      exact hk _ t h2
    · right
      exact ⟨h1, ih t h2⟩

theorem matchTail_append : ∀ (tail : List (RegexGap × String)) (s t : List Char),
    matchTail tail s = true → matchTail tail (s ++ t) = true := by
  intro tail
  induction tail with
  | nil => intro s t _; rfl
  | cons g rest ih =>
    obtain ⟨g, lit⟩ := g
    intro s t h
    exact gapThen_append g.allows lit.data (matchTail rest) ih s t h

theorem matchAt_append (p : BlacklistPattern) (s t : List Char)
    (h : p.matchAt s = true) : p.matchAt (s ++ t) = true := by
  unfold BlacklistPattern.matchAt at h ⊢
  simp only [Bool.and_eq_true] at h ⊢
  refine ⟨startsWith_append_right _ s t h.1, ?_⟩
  rw [List.drop_append_of_le_length (startsWith_length _ s h.1)]
  exact matchTail_append p.tail _ t h.2

theorem search_append_right (p : BlacklistPattern) : ∀ (s t : List Char),
    p.search s = true → p.search (s ++ t) = true := by
  intro s
  induction s with
  | nil =>
    intro t h
    cases t with
    | nil => exact h
    | cons c cs =>
      have := matchAt_append p [] (c :: cs) h
      simp only [List.nil_append] at this ⊢
      simp [BlacklistPattern.search, this]
  | cons c cs ih =>
    intro t h
    simp only [BlacklistPattern.search, Bool.or_eq_true] at h
    simp only [List.cons_append, BlacklistPattern.search, Bool.or_eq_true]
    rcases h with h | h
    · exact Or.inl (matchAt_append p (c :: cs) t h)
    · exact Or.inr (ih t h)

theorem search_append_left (p : BlacklistPattern) (s : List Char) : ∀ pre : List Char,
    p.search s = true → p.search (pre ++ s) = true := by
  intro pre
  induction pre with
  | nil => intro h; exact h
  | cons c cs ih =>
    intro h
    simp only [List.cons_append, BlacklistPattern.search, Bool.or_eq_true]
    exact Or.inr (ih h)

theorem test_joinThree (p : BlacklistPattern) (a b c : String)
    (h : p.test a = true ∨ p.test b = true ∨ p.test c = true) :
    p.test (joinThree a b c) = true := by
  unfold BlacklistPattern.test at h ⊢
  have hd : (joinThree a b c).data = a.data ++ (' ' :: (b.data ++ (' ' :: c.data))) := by
    simp [joinThree, String.data_append]
  rw [hd]
  rcases h with h | h | h
  · exact search_append_right p _ _ h
  · apply search_append_left
    have := search_append_right p _ (' ' :: c.data) h
    exact search_append_left p _ [' '] this
  · apply search_append_left
    have := search_append_left p _ (' ' :: b.data ++ [' ']) h
    simpa using this

theorem shouldSkipElement_blacklisted (screen : ScreenSize) (e : UIElement)
    (h : isBlacklisted e) : shouldSkipElement screen e = true := by
  obtain ⟨p, hp, hm⟩ := h
  have hany : BLACKLIST_PATTERNS.any
      (fun p => p.test (toLowerCase (joinThree e.text e.desc e.resourceId))) = true := by
    rw [List.any_eq_true]
    exact ⟨p, hp, by rw [toLowerCase_joinThree]; exact test_joinThree p _ _ _ hm⟩
  unfold shouldSkipElement
  simp only [hany, if_true]

theorem isLikelyClickable_blacklisted (screen : ScreenSize) (e : UIElement)
    (h : isBlacklisted e) : isLikelyClickable screen e = false := by
  unfold isLikelyClickable
  simp only [shouldSkipElement_blacklisted screen e h, if_true]

theorem chooseTarget_mem (screen : ScreenSize) (totalActions : Nat) (rnd : Randoms)
    (unvisited : List UIElement) (target : UIElement)
    (h : chooseTarget screen totalActions rnd unvisited = some target) : target ∈ unvisited := by
  unfold chooseTarget at h
  simp only at h
  split at h
  · rename_i t ht
    cases h
    split at ht
    · exact List.mem_of_mem_filter (List.get?_mem ht)
    · cases ht
  · split at h
    · rename_i t ht
      cases h
      exact List.mem_of_mem_filter (List.mem_of_mem_head? ht)
    · exact List.get?_mem h

theorem selectionStage_chose (screen : ScreenSize) (rnd : Randoms) (out : Option String)
    (a : UniversalAutomation) (elements clickables : List UIElement) (target : UIElement)
    (h : (selectionStage screen rnd out a elements clickables).1
      = StageOutcome.chose target) :
    target ∈ unvisitedOf a.explorer clickables := by
  unfold selectionStage at h
  split at h
  · cases h
  · split at h
    · cases h
    · simp only at h
      split at h
      · cases h
      · split at h
        · cases h
        · split at h
          · rename_i t ht
            cases h
            exact chooseTarget_mem _ _ _ _ _ ht
          · cases h

theorem unvisitedOf_subset (s : SmartExplorer) (clickables : List UIElement) (e : UIElement)
    (h : e ∈ unvisitedOf s clickables) : e ∈ clickables :=
  List.mem_of_mem_filter h

theorem clickables_not_blacklisted (screen : ScreenSize) (elements : List UIElement)
    (e : UIElement) (h : e ∈ clickables screen elements) : e ∈ elements ∧ ¬ isBlacklisted e := by
  unfold clickables at h
  rw [List.mem_filter] at h
  refine ⟨h.1, fun hb => ?_⟩
  rw [isLikelyClickable_blacklisted screen e hb] at h
  exact absurd h.2 (by decide)

/-- C26: the blacklist wins over every inclusion rule of `explore`: for every
element whose lower-cased text, description or resource id matches a blacklist
pattern, `isLikelyClickable` returns false, whatever its flags, class and
keywords are; the element is not among the candidates, so neither the target
chosen by an iteration nor the submit button looked up for an input field is
such an element. -/
theorem C26_blacklist_wins (screen : ScreenSize) (rnd : Randoms) (out : Option String)
    (a : UniversalAutomation) (elements : List UIElement) :
    (∀ e : UIElement, isBlacklisted e → isLikelyClickable screen e = false) ∧
    (∀ e : UIElement, isBlacklisted e → e ∉ clickables screen elements) ∧
    (∀ target : UIElement,
      (selectionStage screen rnd out a elements (clickables screen elements)).1
        = StageOutcome.chose target →
      target ∈ elements ∧ ¬ isBlacklisted target ∧
      ∀ submitBtn : UIElement,
        submitButtonOf (clickables screen elements) target = some submitBtn →
        submitBtn ∈ elements ∧ ¬ isBlacklisted submitBtn) := by
  refine ⟨fun e h => isLikelyClickable_blacklisted screen e h, ?_, ?_⟩
  · intro e hb hin
    exact (clickables_not_blacklisted screen elements e hin).2 hb
  · intro target h
    have ht := unvisitedOf_subset _ _ _ (selectionStage_chose _ _ _ _ _ _ _ h)
    refine ⟨(clickables_not_blacklisted screen elements target ht).1,
      (clickables_not_blacklisted screen elements target ht).2, ?_⟩
    intro submitBtn hs
    exact clickables_not_blacklisted screen elements submitBtn (List.mem_of_find?_eq_some hs)

/-- C26 at a clickable, focusable button labelled `Privacy Policy`, with a
forensic keyword in its resource id, to the right of a comment field: the
button is no candidate, the comment field is the target, and no submit button
is found for it. -/
theorem C26_blacklist_wins_witness :
    isLikelyClickable defaultScreenSize privacyButton = false ∧
    privacyButton ∉ clickables defaultScreenSize [privacyButton, commentField] ∧
    (selectionStage defaultScreenSize sampleRandoms none (automationWith 0 [])
        [privacyButton, commentField]
        (clickables defaultScreenSize [privacyButton, commentField])).1
      = StageOutcome.chose commentField ∧
    submitButtonOf (clickables defaultScreenSize [privacyButton, commentField]) commentField
      = none ∧
    submitButtonOf [privacyButton, commentField] commentField = some privacyButton :=
  ⟨(C26_blacklist_wins defaultScreenSize sampleRandoms none (automationWith 0 [])
      [privacyButton, commentField]).1 privacyButton (by decide),
   (C26_blacklist_wins defaultScreenSize sampleRandoms none (automationWith 0 [])
      [privacyButton, commentField]).2.1 privacyButton (by decide),
   by decide, by decide, by decide⟩

/-! ### Periodic scroll -/

theorem isScrollContainer_eq (e : UIElement) : isScrollContainer e = hasScrollClass e := by
  unfold isScrollContainer hasScrollClass strictEqualsTrueString
  cases hc : e.className.data with
  | nil =>
    have he : e.className = "" := String.ext hc
    rw [he]
    decide
  | cons c cs => simp

set_option maxRecDepth 20000 in
/-- C27 on the code: the parser produces one element with `scrollable` true
from a screen whose only node is a frame with `scrollable="true"`, and the list
of scrollable containers that the periodic scroll step computes from it is
empty, so the fifth action taps the element instead of scrolling; a recycler
view with `scrollable="false"` does count.  For every element the filter
depends on the class name alone. -/
theorem C27_scrollable_flag_ignored :
    (parse defaultScreenSize scrollableFrameDump).map (fun e => (e.scrollable, e.className))
      = [(true, "android.widget.FrameLayout")] ∧
    (parse defaultScreenSize scrollableFrameDump).filter isScrollContainer = [] ∧
    (∀ e ∈ parse defaultScreenSize scrollableFrameDump,
      (selectionStage defaultScreenSize sampleRandoms none
          { explorer := SmartExplorer.fresh "com.app", totalActions := 5 }
          (parse defaultScreenSize scrollableFrameDump)
          (clickables defaultScreenSize (parse defaultScreenSize scrollableFrameDump))).1
        = StageOutcome.chose e) ∧
    (selectionStage defaultScreenSize sampleRandoms none
        { explorer := SmartExplorer.fresh "com.app", totalActions := 5 }
        (parse defaultScreenSize recyclerDump)
        (clickables defaultScreenSize (parse defaultScreenSize recyclerDump))).1
      = StageOutcome.scrolled true ∧
    ((parse defaultScreenSize recyclerDump).filter isScrollContainer).map
        (fun e => (e.scrollable, e.className))
      = [(false, "androidx.recyclerview.widget.RecyclerView")] ∧
    (∀ e : UIElement, isScrollContainer e = hasScrollClass e) :=
  ⟨by decide, by decide, by decide, by decide, by decide, isScrollContainer_eq⟩

/-! ### Path filter -/

theorem someTest_fresh (units : List Nat) : ∀ patterns : List PathRegex,
    (∀ r ∈ patterns, r.lastIndex = 0) →
    (someTest patterns units).1
      = patterns.any (fun r => (r.pattern.searchFrom 0 units).isSome) := by
  intro patterns
  induction patterns with
  | nil => intro _; rfl
  | cons r rest ih =>
    intro h
    have h0 : r.lastIndex = 0 := h r (List.mem_cons_self _ _)
    have ht : (r.test units).1 = (r.pattern.searchFrom 0 units).isSome := by
      unfold PathRegex.test
      simp only [h0, Nat.not_lt_zero, if_false, List.drop_zero, gt_iff_lt]
      cases r.pattern.searchFrom 0 units <;> rfl
    have ih2 := ih (fun x hx => h x (List.mem_cons_of_mem _ hx))
    simp only [someTest, List.any_cons]
    split
    · rename_i hc
      rw [ht] at hc
      simp [hc]
    · rename_i hc
      rw [ht] at hc
      simp only [Bool.not_eq_true] at hc
      simp [hc, ih2]

theorem isValidPath_fresh (str : String) : (isValidPath PATH_PATTERNS str).1 = validPathSpec str := by
  unfold isValidPath validPathSpec matchesSomePattern
  by_cases h4 : jsLength str < 4
  · simp [h4]
  · by_cases h5 : jsLength str > 512
    · simp [h4, h5]
    · have hne : str.data.isEmpty = false := by
        cases hd : str.data with
        | nil =>
          exfalso
          apply h4
          simp [jsLength, hd]
        | cons c cs => rfl
      have hr : decide (4 ≤ jsLength str ∧ jsLength str ≤ 512) = true := by
        simp only [decide_eq_true_eq]
        omega
      simp only [hne, h4, h5, decide_False, Bool.or_self, Bool.false_eq_true, if_false, hr,
        Bool.true_and]
      exact someTest_fresh _ PATH_PATTERNS (by decide)

/-- C28 on the code: `isValidPath("/data/x")` returns true on its first call,
as the stated predicate does, and false on the call that directly follows: the
patterns carry the flag `g`, so `test` leaves the end of the match in
`lastIndex` and the next search starts there.  The third call returns true
again.  After a call on a longer path the result for `/data/x` is false as
well, and a path ending in `.db` behaves the same way.  The first call after
loading returns the stated predicate for every string. -/
theorem C28_isValidPath_alternates :
    validPathSpec "/data/x" = true ∧
    (isValidPath PATH_PATTERNS "/data/x").1 = true ∧
    (isValidPath (isValidPath PATH_PATTERNS "/data/x").2 "/data/x").1 = false ∧
    (isValidPath (isValidPath (isValidPath PATH_PATTERNS "/data/x").2 "/data/x").2
      "/data/x").1 = true ∧
    (isValidPath (isValidPath PATH_PATTERNS "/data/local/tmp/file").2 "/data/x").1 = false ∧
    (isValidPath PATH_PATTERNS "a.db").1 = true ∧
    (isValidPath (isValidPath PATH_PATTERNS "a.db").2 "a.db").1 = false ∧
    (∀ str : String, (isValidPath PATH_PATTERNS str).1 = validPathSpec str) :=
  ⟨by decide, by decide, by decide, by decide, by decide, by decide, by decide,
   isValidPath_fresh⟩

/-! ### Transitions -/

theorem lookup_none_ne {β : Type} (key : String) : ∀ m : List (String × β),
    m.lookup key = none → ∀ kv ∈ m, kv.1 ≠ key := by
  intro m
  induction m with
  | nil => intro _ kv h; exact absurd h (List.not_mem_nil _)
  | cons a m ih =>
    obtain ⟨a1, a2⟩ := a
    intro h kv hkv
    rw [lookup_cons_ite] at h
    by_cases hk : key = a1
    · rw [if_pos hk] at h; cases h
    · rw [if_neg hk] at h
      rcases List.mem_cons.1 hkv with rfl | hm
      · exact fun e => hk e.symm
      · exact ih h kv hm

theorem lookup_some_mem {β : Type} (key : String) (v : β) : ∀ m : List (String × β),
    m.lookup key = some v → (key, v) ∈ m := by
  intro m
  induction m with
  | nil => intro h; simp at h
  | cons a m ih =>
    obtain ⟨a1, a2⟩ := a
    intro h
    rw [lookup_cons_ite] at h
    by_cases hk : key = a1
    · rw [if_pos hk] at h
      cases h
      rw [hk]
      exact List.mem_cons_self _ _
    · rw [if_neg hk] at h
      exact List.mem_cons_of_mem _ (ih h)

theorem mem_mapSet {β : Type} (m : List (String × β)) (key : String) (v : β)
    (kv : String × β) (h : kv ∈ mapSet m key v) :
    kv = (key, v) ∨ (kv ∈ m ∧ kv.1 ≠ key) := by
  unfold mapSet at h
  cases hl : m.lookup key with
  | none =>
    rw [hl] at h
    simp only [Option.isSome_none, Bool.false_eq_true, if_false, List.mem_append,
      List.mem_singleton] at h
    rcases h with h | h
    · exact Or.inr ⟨h, lookup_none_ne key m hl kv h⟩
    · exact Or.inl h
  | some w =>
    rw [hl] at h
    simp only [Option.isSome_some, if_true, List.mem_map] at h
    obtain ⟨kv0, hm, he⟩ := h
    by_cases hk : kv0.1 = key
    · rw [if_pos hk] at he
      left
      rw [← he, hk]
    · rw [if_neg hk] at he
      right
      rw [← he]
      exact ⟨hm, hk⟩

theorem recordTransition_graph (s : SmartExplorer) (element : UIElement) (toScreen : String)
    (success : Bool) (h : GraphInvariant s.transitionGraph) :
    GraphInvariant (s.recordTransition element toScreen success).transitionGraph := by
  unfold SmartExplorer.recordTransition
  simp only
  generalize s.currentScreen ++ ":" ++ element.signature = key
  cases hl : s.transitionGraph.lookup key with
  | none =>
    simp only [Option.isSome_none, Bool.false_eq_true, if_false, lookup_mapSet, if_true,
      List.contains_nil, Bool.not_false, List.nil_append]
    intro kv hkv
    rcases mem_mapSet _ _ _ _ hkv with rfl | ⟨hm, hne⟩
    · exact ⟨by simp, rfl⟩
    · rcases mem_mapSet _ _ _ _ hm with rfl | ⟨hm2, _⟩
      · exact absurd rfl hne
      · exact h kv hm2
  | some entry =>
    simp only [Option.isSome_some, if_true, hl]
    split
    · intro kv hkv
      rcases mem_mapSet _ _ _ _ hkv with rfl | ⟨hm, _⟩
      · exact ⟨by simp, rfl⟩
      · exact h kv hm
    · exact h

theorem recordTransition_scores (s : SmartExplorer) (element : UIElement) (toScreen : String)
    (success : Bool) (h : ScoresInvariant s.elementScores) :
    ScoresInvariant (s.recordTransition element toScreen success).elementScores := by
  unfold SmartExplorer.recordTransition
  simp only
  generalize s.currentScreen ++ ":" ++ element.signature = key
  cases hl : s.elementScores.lookup key with
  | none =>
    simp only [Option.isSome_none, Bool.false_eq_true, if_false, lookup_mapSet, if_true]
    intro kv hkv
    rcases mem_mapSet _ _ _ _ hkv with rfl | ⟨hm, hne⟩
    · refine ⟨by simp, ?_, rfl⟩
      cases success <;> simp
    · rcases mem_mapSet _ _ _ _ hm with rfl | ⟨hm2, _⟩
      · exact absurd rfl hne
      · exact h kv hm2
  | some stats =>
    simp only [Option.isSome_some, if_true, hl]
    have hs : stats.successes ≤ stats.attempts := by
      exact (h _ (lookup_some_mem key stats s.elementScores hl)).2.1
    intro kv hkv
    rcases mem_mapSet _ _ _ _ hkv with rfl | ⟨hm, _⟩
    · refine ⟨by simp, ?_, rfl⟩
      cases success <;> simp <;> omega
    · exact h kv hm

theorem recordTransitions_invariant (calls : List TransitionCall) : ∀ s : SmartExplorer,
    GraphInvariant s.transitionGraph → ScoresInvariant s.elementScores →
    GraphInvariant (s.recordTransitions calls).transitionGraph ∧
    ScoresInvariant (s.recordTransitions calls).elementScores := by
  induction calls with
  | nil => intro s hg hs; exact ⟨hg, hs⟩
  | cons c cs ih =>
    intro s hg hs
    have hstep : s.recordTransitions (c :: cs)
        = (({ s with currentScreen := c.screen }).recordTransition c.element c.toScreen
            c.success).recordTransitions cs := rfl
    rw [hstep]
    exact ih _ (recordTransition_graph { s with currentScreen := c.screen } _ _ _ hg)
      (recordTransition_scores { s with currentScreen := c.screen } _ _ _ hs)

/-- C29: after every sequence of `recordTransition` calls on a fresh explorer,
each key present in the transition graph has a non-empty destination set and
`leadsToNew` true, and each key present in the outcome statistics has
attempts >= 1, 0 <= successes <= attempts and successRate = successes /
attempts, which lies between 0 and 1. -/
theorem C29_transition_invariants (pkg : String) (calls : List TransitionCall) :
    (∀ key entry, (key, entry) ∈ ((SmartExplorer.fresh pkg).recordTransitions calls).transitionGraph →
      entry.destinations ≠ [] ∧ entry.leadsToNew = true) ∧
    (∀ key entry, ((SmartExplorer.fresh pkg).recordTransitions calls).transitionGraph.lookup key
        = some entry → entry.destinations ≠ [] ∧ entry.leadsToNew = true) ∧
    (∀ key stats, (key, stats) ∈ ((SmartExplorer.fresh pkg).recordTransitions calls).elementScores →
      1 ≤ stats.attempts ∧ 0 ≤ stats.successes ∧ stats.successes ≤ stats.attempts ∧
      stats.successRate = (stats.successes : ℚ) / (stats.attempts : ℚ) ∧
      0 ≤ stats.successRate ∧ stats.successRate ≤ 1) ∧
    (∀ key stats, ((SmartExplorer.fresh pkg).recordTransitions calls).elementScores.lookup key
        = some stats →
      1 ≤ stats.attempts ∧ stats.successes ≤ stats.attempts ∧
      stats.successRate = (stats.successes : ℚ) / (stats.attempts : ℚ)) := by
  have hinv := recordTransitions_invariant calls (SmartExplorer.fresh pkg)
    (fun kv h => absurd h (List.not_mem_nil _)) (fun kv h => absurd h (List.not_mem_nil _))
  have hstats : ∀ key stats,
      (key, stats) ∈ ((SmartExplorer.fresh pkg).recordTransitions calls).elementScores →
      1 ≤ stats.attempts ∧ 0 ≤ stats.successes ∧ stats.successes ≤ stats.attempts ∧
      stats.successRate = (stats.successes : ℚ) / (stats.attempts : ℚ) ∧
      0 ≤ stats.successRate ∧ stats.successRate ≤ 1 := by
    intro key stats h
    obtain ⟨h1, h2, h3⟩ := hinv.2 _ h
    have hpos : (0 : ℚ) < (stats.attempts : ℚ) := by exact_mod_cast h1
    have hle : (stats.successes : ℚ) ≤ (stats.attempts : ℚ) := by exact_mod_cast h2
    refine ⟨h1, Nat.zero_le _, h2, h3, ?_, ?_⟩
    · rw [h3]; positivity
    · rw [h3, div_le_one hpos]; exact hle
  refine ⟨fun key entry h => hinv.1 _ h, fun key entry h => hinv.1 _ (lookup_some_mem _ _ _ h),
    hstats, fun key stats h => ?_⟩
  obtain ⟨h1, _, h2, h3, _⟩ := hstats key stats (lookup_some_mem _ _ _ h)
  exact ⟨h1, h2, h3⟩

/-- C29 at three calls on the button `btn_ok` of the screen `s1`: the graph
holds the destinations `s2`, `s3` with `leadsToNew` true, and the statistics
hold 3 attempts and 2 successes. -/
theorem C29_transition_invariants_witness :
    ((SmartExplorer.fresh "com.app").recordTransitions threeTransitions).transitionGraph
      = [("s1:btn_ok", { destinations := ["s2", "s3"], leadsToNew := true })] ∧
    ((SmartExplorer.fresh "com.app").recordTransitions threeTransitions).elementScores.map
        (fun kv => (kv.1, kv.2.attempts, kv.2.successes)) = [("s1:btn_ok", 3, 2)] ∧
    (∀ key entry,
      (key, entry) ∈ ((SmartExplorer.fresh "com.app").recordTransitions
        threeTransitions).transitionGraph →
      entry.destinations ≠ [] ∧ entry.leadsToNew = true) :=
  ⟨by decide, by decide, (C29_transition_invariants "com.app" threeTransitions).1⟩

/-! ### Stuck counter -/

theorem recoverFromStuck_stuckCount (s : SmartExplorer) (h : s.stuckCount ≤ 4) :
    s.recoverFromStuck.2.stuckCount = if s.stuckCount = 4 then 0 else s.stuckCount + 1 := by
  have hcases : s.stuckCount = 0 ∨ s.stuckCount = 1 ∨ s.stuckCount = 2 ∨ s.stuckCount = 3 ∨
      s.stuckCount = 4 := by omega
  unfold SmartExplorer.recoverFromStuck
  rcases hcases with h0 | h0 | h0 | h0 | h0 <;>
    simp [h0, MAX_STUCK_COUNT, recoveryIndex, recoveryActions, SmartExplorer.fullRecovery]

theorem recordAction_stuckCount (s : SmartExplorer) (action : String) (element : UIElement)
    (result : String) :
    (s.recordAction action element result).stuckCount
      = if result = "success" ∨ result = "sequence_complete" then 0 else s.stuckCount := by
  unfold SmartExplorer.recordAction
  simp only
  split <;> rfl

theorem call_stuckCount_le (s : SmartExplorer) (c : ExplorerCall) (h : s.stuckCount ≤ 4) :
    (s.call c).stuckCount ≤ 4 := by
  cases c with
  | recoverFromStuck =>
    show s.recoverFromStuck.2.stuckCount ≤ 4
    rw [recoverFromStuck_stuckCount s h]
    split <;> omega
  | recordAction action element result =>
    show (s.recordAction action element result).stuckCount ≤ 4
    rw [recordAction_stuckCount]
    split <;> omega

theorem callAll_stuckCount_le (calls : List ExplorerCall) : ∀ s : SmartExplorer,
    s.stuckCount ≤ 4 → (s.callAll calls).stuckCount ≤ 4 := by
  induction calls with
  | nil => intro s h; exact h
  | cons c cs ih =>
    intro s h
    exact ih (s.call c) (call_stuckCount_le s c h)

/-- C30: starting from a fresh explorer, every device call succeeding, after
every sequence of `recoverFromStuck` and `recordAction` calls the stuck counter
is between 0 and 4; a further `recoverFromStuck` call increments it to at most
5, which is not above `MAX_STUCK_COUNT`, so it runs the rung of the ladder
numbered by the incremented counter, never the branch above the maximum; at the
counter 4 this is full recovery, which sets the counter back to 0, so five
consecutive recoveries give the counters 1, 2, 3, 4, 0. -/
theorem C30_stuck_counter_bounded (pkg : String) (calls : List ExplorerCall) :
    ((SmartExplorer.fresh pkg).callAll calls).stuckCount ≤ 4 ∧
    ((SmartExplorer.fresh pkg).callAll calls).stuckCount + 1 ≤ MAX_STUCK_COUNT ∧
    (((SmartExplorer.fresh pkg).callAll calls).recoverFromStuck.2.stuckCount
      = if ((SmartExplorer.fresh pkg).callAll calls).stuckCount = 4 then 0
        else ((SmartExplorer.fresh pkg).callAll calls).stuckCount + 1) ∧
    (recoveryActions.get? (((SmartExplorer.fresh pkg).callAll calls).stuckCount)).map
        (fun action => action
          { (SmartExplorer.fresh pkg).callAll calls with
            stuckCount := ((SmartExplorer.fresh pkg).callAll calls).stuckCount + 1 })
      = some ((SmartExplorer.fresh pkg).callAll calls).recoverFromStuck ∧
    (((SmartExplorer.fresh pkg).callAll calls).stuckCount = 4 →
      ((SmartExplorer.fresh pkg).callAll calls).recoverFromStuck
        = SmartExplorer.fullRecovery
            { (SmartExplorer.fresh pkg).callAll calls with stuckCount := 5 }) ∧
    (SmartExplorer.fresh pkg).stuckTrace (List.replicate 5 ExplorerCall.recoverFromStuck)
      = [1, 2, 3, 4, 0] := by
  have hle := callAll_stuckCount_le calls (SmartExplorer.fresh pkg) (by simp [SmartExplorer.fresh])
  generalize (SmartExplorer.fresh pkg).callAll calls = s at hle
  refine ⟨hle, by unfold MAX_STUCK_COUNT; omega, recoverFromStuck_stuckCount s hle, ?_, ?_, rfl⟩
  · have hcases : s.stuckCount = 0 ∨ s.stuckCount = 1 ∨ s.stuckCount = 2 ∨ s.stuckCount = 3 ∨
        s.stuckCount = 4 := by omega
    unfold SmartExplorer.recoverFromStuck
    rcases hcases with h0 | h0 | h0 | h0 | h0 <;>
      simp [h0, MAX_STUCK_COUNT, recoveryIndex, recoveryActions]
  · intro h4
    unfold SmartExplorer.recoverFromStuck
    simp [h4, MAX_STUCK_COUNT, recoveryIndex, recoveryActions]

/-- C30 at four recoveries in a row, after which the counter is 4 and the
fifth recovery is full recovery, and at an interleaving with a successful
action. -/
theorem C30_stuck_counter_bounded_witness :
    ((SmartExplorer.fresh "com.app").callAll
        (List.replicate 4 ExplorerCall.recoverFromStuck)).recoverFromStuck
      = SmartExplorer.fullRecovery
          { (SmartExplorer.fresh "com.app").callAll
              (List.replicate 4 ExplorerCall.recoverFromStuck) with stuckCount := 5 } ∧
    (SmartExplorer.fresh "com.app").stuckTrace
        [ExplorerCall.recoverFromStuck, ExplorerCall.recoverFromStuck,
         ExplorerCall.recordAction "click" okButton "no_change",
         ExplorerCall.recoverFromStuck,
         ExplorerCall.recordAction "click" okButton "success",
         ExplorerCall.recoverFromStuck]
      = [1, 2, 2, 3, 0, 1] :=
  ⟨(C30_stuck_counter_bounded "com.app"
      (List.replicate 4 ExplorerCall.recoverFromStuck)).2.2.2.2.1 (by decide),
   by decide⟩

/-! ### Foreground state: the captured activity -/

theorem dropWhile_append_stop {p : Char → Bool} (c : Char) (hc : p c = false) :
    ∀ (l tl : List Char), (∀ x ∈ l, p x = true) → (l ++ c :: tl).dropWhile p = c :: tl := by
  intro l
  induction l with
  | nil => intro tl _; simp [List.dropWhile, hc]
  | cons a l ih =>
    intro tl h
    have ha : p a = true := h a (List.mem_cons_self _ _)
    rw [List.cons_append, List.dropWhile_cons, if_pos ha]
    exact ih tl (fun x hx => h x (List.mem_cons_of_mem _ hx))

theorem takeWhile_append_stop {p : Char → Bool} (c : Char) (hc : p c = false) :
    ∀ (l tl : List Char), (∀ x ∈ l, p x = true) → (l ++ c :: tl).takeWhile p = l := by
  intro l
  induction l with
  | nil => intro tl _; simp [List.takeWhile, hc]
  | cons a l ih =>
    intro tl h
    have ha : p a = true := h a (List.mem_cons_self _ _)
    rw [List.cons_append, List.takeWhile_cons, if_pos ha,
      ih tl (fun x hx => h x (List.mem_cons_of_mem _ hx))]

theorem lastToken_append_some (token tl : List Char) (h : lastToken tl = some token) :
    ∀ pre : List Char, lastToken (pre ++ tl) = some token := by
  intro pre
  induction pre with
  | nil => exact h
  | cons a pre ih =>
    rw [List.cons_append, lastToken, ih]

theorem lastToken_skip (tl : List Char) : ∀ l : List Char, (∀ x ∈ l, isJsSpace x = false) →
    lastToken (l ++ tl) = lastToken tl := by
  intro l
  induction l with
  | nil => intro _; rfl
  | cons a l ih =>
    intro h
    have ha : isJsSpace a = false := h a (List.mem_cons_self _ _)
    have ih2 := ih (fun x hx => h x (List.mem_cons_of_mem _ hx))
    rw [List.cons_append, lastToken, ih2]
    cases lastToken tl with
    | some t => rfl
    | none => simp [spaceThenToken, ha]

theorem lastToken_component (name : List Char) (hne : name ≠ [])
    (hns : ∀ x ∈ name, isJsSpace x = false) :
    lastToken (' ' :: (name ++ " t42".data)) = some name := by
  have h1 : lastToken (name ++ " t42".data) = none := by
    rw [lastToken_skip _ name hns]
    decide
  have htw : (name ++ " t42".data).takeWhile (fun d => !isJsSpace d) = name := by
    apply takeWhile_append_stop ' ' (by decide) name "t42".data
    intro x hx
    simp [hns x hx]
  have hemp : name.isEmpty = false := by
    cases name with
    | nil => exact absurd rfl hne
    | cons a l => rfl
  rw [lastToken, h1]
  simp only [spaceThenToken, htw, List.drop_left]
  simp [hemp]
  decide

theorem capturedActivity_resumedDump (fullActivity : String) (h : isComponentName fullActivity) :
    capturedActivity (resumedDump fullActivity) = some fullActivity := by
  obtain ⟨hne, hall⟩ := h
  have hdata : (resumedDump fullActivity).data
      = "mResumedActivity".data ++ (": ActivityRecord".data ++ ('{' ::
          (("8a1b2c3 u0".data ++ (' ' :: (fullActivity.data ++ " t42".data))) ++ ('}' :: [])))) := by
    simp [resumedDump, String.data_append]
  have hinside : ∀ x ∈ "8a1b2c3 u0".data ++ (' ' :: (fullActivity.data ++ " t42".data)),
      (x != '}') = true := by
    have h1 : ∀ x ∈ "8a1b2c3 u0".data, (x != '}') = true := by decide
    have h2 : ∀ x ∈ " t42".data, (x != '}') = true := by decide
    intro x hx
    rcases List.mem_append.1 hx with hx | hx
    · exact h1 x hx
    · rcases List.mem_cons.1 hx with rfl | hx
      · decide
      · rcases List.mem_append.1 hx with hx | hx
        · simpa using (hall x hx).2
        · exact h2 x hx
  have hmatch : matchActivityAt "mResumedActivity".data (resumedDump fullActivity).data
      = some fullActivity.data := by
    unfold matchActivityAt
    rw [hdata, startsWith_append_self, if_pos rfl, List.drop_left,
      dropWhile_append_stop '{' (by decide) _ _ (by decide)]
    simp only
    rw [takeWhile_append_stop '}' (by decide) _ [] hinside]
    exact lastToken_append_some _ _
      (lastToken_component fullActivity.data hne (fun x hx => (hall x hx).1)) _
  unfold capturedActivity
  have hs : searchActivity "mResumedActivity".data (resumedDump fullActivity).data
      = some fullActivity.data := by
    cases hd : (resumedDump fullActivity).data with
    | nil =>
      rw [hd] at hmatch
      simp [matchActivityAt, startsWith] at hmatch
    | cons c cs =>
      rw [hd] at hmatch
      simp only [searchActivity, hmatch]
  rw [hs]

theorem stateOfActivity_target (s : SmartExplorer) (activity : String)
    (h : '/' ∉ s.pkg.data) :
    (s.stateOfActivity (some (activityOf s.pkg activity))).1.state
      = if includes s.pkg "launcher" || includes s.pkg "home" then "LAUNCHER" else "IN_APP" := by
  have hinc : includes (activityOf s.pkg activity) s.pkg = true := by
    unfold includes activityOf
    simp only [String.data_append, List.append_assoc]
    exact includesChars_append_self _ _
  unfold SmartExplorer.stateOfActivity
  simp only [firstSegment_activityOf s.pkg activity h, hinc, Bool.not_true, Bool.false_eq_true,
    if_false]
  split <;> rfl

theorem getCurrentState_target (s : SmartExplorer) (activity : String)
    (hp : '/' ∉ s.pkg.data) (hc : isComponentName (activityOf s.pkg activity)) :
    (s.getCurrentState (some (resumedDump (activityOf s.pkg activity)))).1.state
      = if includes s.pkg "launcher" || includes s.pkg "home" then "LAUNCHER" else "IN_APP" := by
  unfold SmartExplorer.getCurrentState
  rw [Option.some_bind, capturedActivity_resumedDump _ hc]
  exact stateOfActivity_target s activity hp

set_option maxRecDepth 20000 in
/-- C25 on the code: with the target package `com.example.home`, the device
reporting the activity `com.example.home/.MainActivity` of the target itself as
resumed, `getCurrentState` answers `LAUNCHER`, and `explore` relaunches the app
instead of going on to choose an action; the same happens with the target
`com.applauncher.notes`, while the target `com.example.app` is `IN_APP`.  For
every target package without a slash and every activity of it that the device
reports, the state is `LAUNCHER` when the package name contains `launcher` or
`home` and `IN_APP` otherwise. -/
theorem C25_target_taken_for_launcher :
    ((SmartExplorer.fresh "com.example.home").getCurrentState
        (some (resumedDump "com.example.home/.MainActivity"))).1
      = { state := "LAUNCHER", activity := "com.example.home/.MainActivity",
          package := "com.example.home" } ∧
    stateBranch ((SmartExplorer.fresh "com.example.home").getCurrentState
        (some (resumedDump "com.example.home/.MainActivity"))).1
      = StateBranch.relaunchFromLauncher ∧
    ((SmartExplorer.fresh "com.applauncher.notes").getCurrentState
        (some (resumedDump "com.applauncher.notes/.ui.Notes"))).1.state = "LAUNCHER" ∧
    ((SmartExplorer.fresh "com.example.app").getCurrentState
        (some (resumedDump "com.example.app/.MainActivity"))).1.state = "IN_APP" ∧
    (∀ (s : SmartExplorer) (activity : String), '/' ∉ s.pkg.data →
      isComponentName (activityOf s.pkg activity) →
      (s.getCurrentState (some (resumedDump (activityOf s.pkg activity)))).1.state
        = if includes s.pkg "launcher" || includes s.pkg "home" then "LAUNCHER" else "IN_APP") :=
  ⟨by decide, by decide, by decide, by decide, getCurrentState_target⟩

/-- C25 on the code, at the target `com.homework.planner`: its own activity
reported as resumed is classified `LAUNCHER`. -/
theorem C25_target_taken_for_launcher_witness :
    ((SmartExplorer.fresh "com.homework.planner").getCurrentState
        (some (resumedDump (activityOf "com.homework.planner" ".Main")))).1.state = "LAUNCHER" :=
  (C25_target_taken_for_launcher.2.2.2.2 (SmartExplorer.fresh "com.homework.planner") ".Main"
    (by decide) (by decide)).trans (by decide)

end A3
